import Mathlib

/-!
Shallow embedding of the Base Reaction game core:
the chain-reaction store (grid, move validation, placement, cascade
resolution, HQ damage, power-ups, win detection, turn rotation, undo),
the pure geometry utilities, and the AI move validator.

Machine integers are modelled as `Nat` (unit counts, coordinates) and
`Int` (HQ health, which the source can drive negative).  The cascade
loop, which is not structurally terminating, is modelled with explicit
fuel and an `Option` result (`none` = the queue did not drain within the
fuel).  The random power-up spawn is modelled by an explicit oracle
carrying the outcomes of the random draws.
-/

/-- The `PLAYER` enum of `constants.ts`. -/
inductive Player where
  | red
  | blue
  | violet
  | black
deriving DecidableEq, Repr, Inhabited

/-- `GridCell`: a board cell with a unit count and an optional owner. -/
structure GridCell where
  atoms : Nat
  player : Option Player
deriving DecidableEq, Repr, Inhabited

/-- The two kinds of power-up (`'diamond' | 'heart'`). -/
inductive PUKind where
  | diamond
  | heart
deriving DecidableEq, Repr, Inhabited

/-- `PowerUpCell`: position plus kind (the source type also admits `null`). -/
structure PowerUpCell where
  row : Nat
  col : Nat
  type : Option PUKind
deriving DecidableEq, Repr, Inhabited

/-- `HQCell`: a headquarters record.  Health is an `Int`: the source
never clamps it, so it can go negative. -/
structure HQCell where
  row : Nat
  col : Nat
  player : Player
  health : Int
deriving DecidableEq, Repr, Inhabited

/-- The per-game base-mode snapshot stored in a history entry. -/
structure BaseModeSnap where
  hqs : List HQCell
  powerUps : List PowerUpCell
deriving DecidableEq, Repr

/-- `GameHistory`: the snapshot pushed before every committed move. -/
structure GameHistory where
  grid : List (List GridCell)
  currentPlayer : Player
  gameOver : Bool
  winner : Option Player
  baseMode : Option BaseModeSnap
deriving DecidableEq, Repr

/-- The game-relevant fields of the zustand store state. -/
structure GameState where
  isBaseMode : Bool
  grid : List (List GridCell)
  rows : Nat
  cols : Nat
  currentPlayer : Player
  gameOver : Bool
  winner : Option Player
  hqs : List HQCell
  powerUps : List PowerUpCell
  history : List GameHistory
deriving DecidableEq, Repr

/-- The opaque player-settings struct read through `PlayerSettingsManager`. -/
structure Settings where
  players : List Player
  numberOfPlayers : Nat
deriving DecidableEq, Repr

/-- Oracle for the random draws of the power-up spawn block:
whether `Math.random() < 0.25` fired, the 50/50 kind draw, and the
stream of random candidate positions for the placement attempts. -/
structure SpawnOracle where
  spawnRoll : Bool
  kind : PUKind
  attempts : List (Nat × Nat)
deriving Repr

abbrev Grid := List (List GridCell)

/-- Read `grid[r][c]` (total; the source only reads in bounds). -/
def getCell (g : Grid) (r c : Nat) : GridCell :=
  (g.getD r []).getD c default

/-- Write `grid[r][c]` (a no-op out of bounds, like `List.set`). -/
def setCell (g : Grid) (r c : Nat) (cell : GridCell) : Grid :=
  g.set r ((g.getD r []).set c cell)

/-- A rectangular `rows × cols` grid. -/
def GridWf (g : Grid) (rows cols : Nat) : Prop :=
  g.length = rows ∧ ∀ i < rows, (g.getD i []).length = cols

instance (g : Grid) (rows cols : Nat) : Decidable (GridWf g rows cols) := by
  unfold GridWf; infer_instance

/-- `|a - b|` on naturals, as the source computes `Math.abs` on numbers. -/
def natDist (a b : Nat) : Nat :=
  ((a : Int) - (b : Int)).natAbs

/-- `calculateCriticalMass` of `gameUtils.ts`: 2 at corners, 3 on other
border cells, 4 in the interior. -/
def calculateCriticalMass (row col rows cols : Nat) : Nat :=
  if (row = 0 ∧ col = 0) ∨ (row = 0 ∧ col = cols - 1) ∨
     (row = rows - 1 ∧ col = 0) ∨ (row = rows - 1 ∧ col = cols - 1) then 2
  else if row = 0 ∨ row = rows - 1 ∨ col = 0 ∨ col = cols - 1 then 3
  else 4

/-- `isAdjacentTo` of `gameUtils.ts`: Chebyshev distance at most 1. -/
def isAdjacentTo (row1 col1 row2 col2 : Nat) : Bool :=
  decide (natDist row1 row2 ≤ 1 ∧ natDist col1 col2 ≤ 1)

/-- `getNeighbors` of the store: the in-bounds orthogonal neighbours in
the order up, right, down, left. -/
def getNeighbors (rows cols row col : Nat) : List (Nat × Nat) :=
  (if 0 < row then [(row - 1, col)] else []) ++
  (if col < cols - 1 then [(row, col + 1)] else []) ++
  (if row < rows - 1 then [(row + 1, col)] else []) ++
  (if 0 < col then [(row, col - 1)] else [])

/-- The filtered diagonal-neighbour list built inside `isValidMove`
(RULE 5), bounds-checked against the grid dimensions. -/
def diagNeighbors (glen g0len row col : Nat) : List (Nat × Nat) :=
  (if 0 < row ∧ row - 1 < glen ∧ 0 < col ∧ col - 1 < g0len then [(row - 1, col - 1)] else []) ++
  (if 0 < row ∧ row - 1 < glen ∧ col + 1 < g0len then [(row - 1, col + 1)] else []) ++
  (if row + 1 < glen ∧ 0 < col ∧ col - 1 < g0len then [(row + 1, col - 1)] else []) ++
  (if row + 1 < glen ∧ col + 1 < g0len then [(row + 1, col + 1)] else [])

/-- Is some HQ located at `(r, c)`? (`hqs.some(hq => hq.row === r && hq.col === c)`) -/
def isHQat (hqs : List HQCell) (r c : Nat) : Prop :=
  ∃ hq ∈ hqs, hq.row = r ∧ hq.col = c

instance (hqs : List HQCell) (r c : Nat) : Decidable (isHQat hqs r c) := by
  unfold isHQat; infer_instance

/-- `isValidMove` of the store `useChainReaction.tsx`. -/
def isValidMove (s : GameState) (row col : Nat) : Bool :=
  if s.gameOver then false
  else if s.grid.length ≤ row ∨ (s.grid.getD 0 []).length ≤ col then false
  else
    let cell := getCell s.grid row col
    if s.isBaseMode = false then
      decide (cell.player = none ∨ cell.player = some s.currentPlayer)
    else if isHQat s.hqs row col then false
    else if cell.player = none ∨ cell.player = some s.currentPlayer then
      match s.hqs.find? (fun hq => decide (hq.player = s.currentPlayer)) with
      | none => false
      | some ownHQ =>
        let isInHQLine : Bool :=
          if ownHQ.col = 0 then decide (col = ownHQ.col)
          else if ownHQ.col = (s.grid.getD 0 []).length - 1 then decide (col = ownHQ.col)
          else if ownHQ.row = 0 then decide (row = ownHQ.row)
          else if ownHQ.row = s.grid.length - 1 then decide (row = ownHQ.row)
          else decide (row = ownHQ.row ∨ col = ownHQ.col)
        let hasOwnNeighbor : Bool :=
          (getNeighbors s.rows s.cols row col).any (fun n =>
            if s.grid.length ≤ n.1 ∨ (s.grid.getD 0 []).length ≤ n.2 then false
            else decide ((getCell s.grid n.1 n.2).player = some s.currentPlayer))
        let hasOwnDiagonalNeighbor : Bool :=
          (diagNeighbors s.grid.length (s.grid.getD 0 []).length row col).any (fun n =>
            decide ((getCell s.grid n.1 n.2).player = some s.currentPlayer))
        let isAdjacentToHQ : Bool :=
          decide (natDist ownHQ.row row ≤ 1 ∧ natDist ownHQ.col col ≤ 1)
        isInHQLine || isAdjacentToHQ || hasOwnNeighbor || hasOwnDiagonalNeighbor
    else false

/-- The `hqs && hqs.some(...)` test of `isValidMoveForAI` (an absent
`hqs` argument is falsy). -/
def optHQat (hqs : Option (List HQCell)) (r c : Nat) : Bool :=
  match hqs with
  | some l => decide (isHQat l r c)
  | none => false

/-- `isValidMoveForAI` of `aiPlayer.ts`. -/
def isValidMoveForAI (grid : Grid) (row col : Nat) (currentPlayer : Player)
    (isBaseMode : Bool) (hqs : Option (List HQCell)) : Bool :=
  if grid.length ≤ row ∨ (grid.getD 0 []).length ≤ col then false
  else if isBaseMode = true ∧ optHQat hqs row col = true then false
  else if isBaseMode = false then
    decide ((getCell grid row col).player = none ∨ (getCell grid row col).player = some currentPlayer)
  else if (getCell grid row col).player ≠ none ∧
      (getCell grid row col).player ≠ some currentPlayer then false
  else
    match hqs with
    | none => true
    | some l =>
      match l.find? (fun hq => decide (hq.player = currentPlayer)) with
      | none => true
      | some playerHQ =>
        let hasPlayerDots : Bool :=
          grid.any (fun rw => rw.any (fun c =>
            decide (c.player = some currentPlayer ∧ 0 < c.atoms)))
        if hasPlayerDots = false then
          decide (row = playerHQ.row ∨ col = playerHQ.col)
        else
          let nearHQ : Bool :=
            decide (natDist row playerHQ.row ≤ 1 ∧ natDist col playerHQ.col ≤ 1)
          let hasAdjacentDot : Bool :=
            (List.range grid.length).any (fun r =>
              (List.range ((grid.getD r []).length)).any (fun c =>
                decide ((getCell grid r c).player = some currentPlayer ∧
                  0 < (getCell grid r c).atoms) &&
                isAdjacentTo row col r c))
          nearHQ || hasAdjacentDot

/-- Replace the first list element satisfying `p` by `f` of it, as the
source does by mutating the record returned by `Array.find`. -/
def updateFirst (p : HQCell → Prop) [DecidablePred p] (f : HQCell → HQCell) :
    List HQCell → List HQCell
  | [] => []
  | x :: xs => if p x then f x :: xs else x :: updateFirst p f xs

/-- First power-up at position `(row, col)` (`powerUps.findIndex`). -/
def findPU (row col : Nat) : List PowerUpCell → Option PowerUpCell
  | [] => none
  | q :: qs => if q.row = row ∧ q.col = col then some q else findPU row col qs

/-- Remove the first power-up at `(row, col)` (`powerUps.splice(index, 1)`). -/
def removePU (row col : Nat) : List PowerUpCell → List PowerUpCell
  | [] => []
  | q :: qs => if q.row = row ∧ q.col = col then qs else q :: removePU row col qs

/-- The effective player count `settings.numberOfPlayers || 2` used when
resolving a power-up. -/
def effNumPlayers (st : Settings) : Nat :=
  if st.numberOfPlayers = 0 then 2 else st.numberOfPlayers

/-- Add one unit and give the cell to `p` for every listed position whose
cell is empty or already owned by `p` (the body of both Diamond loops). -/
def diamondCells (p : Player) : List (Nat × Nat) → Grid → Grid
  | [], g => g
  | pos :: rest, g =>
    let cell := getCell g pos.1 pos.2
    let g' := if cell.player = none ∨ cell.player = some p then
        setCell g pos.1 pos.2 { atoms := cell.atoms + 1, player := some p }
      else g
    diamondCells p rest g'

/-- The cells of the placed row, in column order (2-player Diamond). -/
def rowPositions (cols row : Nat) : List (Nat × Nat) :=
  (List.range cols).map (fun c => (row, c))

/-- The in-bounds cells of the 3×3 block centred on the placed cell, in
the source's loop order (3-4 player Diamond). -/
def block3x3Positions (rows cols row col : Nat) : List (Nat × Nat) :=
  ((if 0 < row then [row - 1] else []) ++ [row] ++ [row + 1]).filterMap (fun r =>
    if r < rows then some r else none) |>.flatMap (fun r =>
      ((if 0 < col then [col - 1] else []) ++ [col] ++ [col + 1]).filterMap (fun c =>
        if c < cols then some c else none) |>.map (fun c => (r, c)))

/-- Heal the player's own HQ by one (the `ownHQ.health += 1` branch). -/
def healOwnHQ (p : Player) (hqs : List HQCell) : List HQCell :=
  updateFirst (fun hq => hq.player = p) (fun hq => { hq with health := hq.health + 1 }) hqs

/-- Damage the first enemy HQ by one (the `enemyHQ.health -= 1` branch). -/
def damageEnemyHQ (p : Player) (hqs : List HQCell) : List HQCell :=
  updateFirst (fun hq => hq.player ≠ p) (fun hq => { hq with health := hq.health - 1 }) hqs

/-- The Heart power-up effect on the HQ list. -/
def heartEffect (np : Nat) (p : Player) (hqs : List HQCell) : List HQCell :=
  match hqs.find? (fun hq => decide (hq.player = p)) with
  | some own =>
    if own.health < 5 then healOwnHQ p hqs
    else if 3 ≤ np then hqs else damageEnemyHQ p hqs
  | none => if 3 ≤ np then hqs else damageEnemyHQ p hqs

/-- The ordinary one-unit placement: capturing an enemy cell resets it to
one unit, otherwise the count is incremented and ownership assigned. -/
def normalPlace (p : Player) (g : Grid) (row col : Nat) : Grid :=
  let cell := getCell g row col
  if cell.player ≠ some p ∧ cell.player ≠ none then
    setCell g row col { atoms := 1, player := some p }
  else
    setCell g row col { atoms := cell.atoms + 1, player := some p }

/-- The placement stage of `placeDot`: resolve a Diamond/Heart power-up
at the target cell, or perform the ordinary placement.  Returns the new
grid, HQ list and power-up list. -/
def applyPlacement (st : Settings) (cur : Player) (rows cols : Nat) (g : Grid)
    (hqs : List HQCell) (pus : List PowerUpCell) (row col : Nat) :
    Grid × List HQCell × List PowerUpCell :=
  match findPU row col pus with
  | some pu =>
    match pu.type with
    | some PUKind.diamond =>
      let np := effNumPlayers st
      let g' := if 3 ≤ np then
          diamondCells cur (block3x3Positions rows cols row col) g
        else diamondCells cur (rowPositions cols row) g
      (g', hqs, removePU row col pus)
    | some PUKind.heart =>
      (g, heartEffect (effNumPlayers st) cur hqs, removePU row col pus)
    | none => (normalPlace cur g row col, hqs, pus)
  | none => (normalPlace cur g row col, hqs, pus)

/-- Damage the HQ at a cascaded-into cell if it belongs to an enemy
(`newHqs.find(hq => hq.row === nr && hq.col === nc && hq.player !== currentPlayer)`). -/
def damageHQAt (nr nc : Nat) (p : Player) (hqs : List HQCell) : List HQCell :=
  updateFirst (fun hq => hq.row = nr ∧ hq.col = nc ∧ hq.player ≠ p)
    (fun hq => { hq with health := hq.health - 1 }) hqs

/-- Distribute one exploding cell's units to its neighbour list: HQ cells
take damage instead of units, other cells gain one unit, switch to the
mover, and are enqueued (without duplicates) when they reach critical
mass. -/
def distribute (isBase : Bool) (p : Player) (rows cols : Nat) :
    List (Nat × Nat) → Grid → List HQCell → List (Nat × Nat) →
    Grid × List HQCell × List (Nat × Nat)
  | [], g, hqs, q => (g, hqs, q)
  | n :: rest, g, hqs, q =>
    if isBase = true ∧ isHQat hqs n.1 n.2 then
      distribute isBase p rows cols rest g (damageHQAt n.1 n.2 p hqs) q
    else
      let cell := getCell g n.1 n.2
      let g' := setCell g n.1 n.2 { atoms := cell.atoms + 1, player := some p }
      let q' := if calculateCriticalMass n.1 n.2 rows cols ≤ cell.atoms + 1 ∧ (n ∉ q) then
          q ++ [n]
        else q
      distribute isBase p rows cols rest g' hqs q'

/-- One explosion: subtract the critical mass from the popped cell
(clearing its owner when the count reaches zero) and distribute to its
orthogonal neighbours. -/
def explodeCell (isBase : Bool) (p : Player) (rows cols : Nat)
    (g : Grid) (hqs : List HQCell) (rest : List (Nat × Nat)) (r c : Nat) :
    Grid × List HQCell × List (Nat × Nat) :=
  let cm := calculateCriticalMass r c rows cols
  let cell := getCell g r c
  let g1 := setCell g r c
    { atoms := cell.atoms - cm
      player := if cell.atoms - cm = 0 then none else cell.player }
  distribute isBase p rows cols (getNeighbors rows cols r c) g1 hqs rest

/-- The `processExplosions` queue loop, with explicit fuel: pop a cell,
explode it if it is still at critical mass, go on until the queue drains
(`some`) or the fuel runs out (`none`). -/
def runCascade (isBase : Bool) (p : Player) (rows cols : Nat) :
    Nat → Grid × List HQCell × List (Nat × Nat) → Option (Grid × List HQCell)
  | _, (g, hqs, []) => some (g, hqs)
  | 0, (_, _, _ :: _) => none
  | fuel + 1, (g, hqs, n :: rest) =>
    if calculateCriticalMass n.1 n.2 rows cols ≤ (getCell g n.1 n.2).atoms then
      runCascade isBase p rows cols fuel (explodeCell isBase p rows cols g hqs rest n.1 n.2)
    else
      runCascade isBase p rows cols fuel (g, hqs, rest)

/-- Base-mode win detection: last HQ standing wins, none standing is a
draw, and with two configured players a single dead HQ hands the win to
the other player. -/
def checkGameOverBase (st : Settings) (hqs : List HQCell) : Bool × Option Player :=
  let dead := hqs.filter (fun hq => decide (hq.health ≤ 0))
  let active := if st.players = [] then [Player.red, Player.blue] else st.players
  let surviving := hqs.filter (fun hq => decide (0 < hq.health))
  if surviving.length = 1 then (true, some (surviving.getD 0 default).player)
  else if surviving.length = 0 then (true, none)
  else if dead.length = 1 ∧ active.length = 2 then
    let deadPlayer := (dead.getD 0 default).player
    (true, some (match active.find? (fun q => decide (q ≠ deadPlayer)) with
      | some w => w
      | none => if deadPlayer = Player.red then Player.blue else Player.red))
  else (false, none)

/-- The distinct owners present on the grid, in first-appearance order
(the JS `Set` built by the classic-mode scan). -/
def distinctOwners (rows cols : Nat) (g : Grid) : List Player :=
  ((List.range rows).flatMap (fun r => (List.range cols).map (fun c => (r, c)))).foldl
    (fun acc pos => match (getCell g pos.1 pos.2).player with
      | some p => if p ∈ acc then acc else acc ++ [p]
      | none => acc) []

/-- The number of occupied cells in the scanned region. -/
def occupiedCount (rows cols : Nat) (g : Grid) : Nat :=
  ((List.range rows).flatMap (fun r => (List.range cols).map (fun c => (r, c)))).countP
    (fun pos => decide ((getCell g pos.1 pos.2).player ≠ none))

/-- Classic-mode win detection: after at least two recorded moves, a
single surviving owner wins. -/
def checkGameOverClassic (rows cols : Nat) (g : Grid) (histLen : Nat) :
    Bool × Option Player :=
  let owners := distinctOwners rows cols g
  if owners.length = 1 ∧ 0 < occupiedCount rows cols g ∧ 2 ≤ histLen then
    (true, some (owners.getD 0 default))
  else (false, none)

/-- Does `p` own any cell of the grid (`playersWithDots`)? -/
def hasDots (g : Grid) (p : Player) : Bool :=
  g.any (fun rw => rw.any (fun cell => decide (cell.player = some p)))

/-- The skip-players-without-dots loop of the turn rotation, with its
safety counter modelled as fuel (`safetyCounter < activePlayers.length`). -/
def rotateLoop (dots : Player → Bool) (skipOn : Bool) (active : List Player)
    (start : Nat) : Nat → Nat → Bool → Player → Player
  | 0, _, _, next => next
  | fuel + 1, nextIndex, checkedAll, next =>
    if dots next = false ∧ skipOn = true ∧ checkedAll = false then
      let ni := (nextIndex + 1) % active.length
      let np := active.getD ni default
      rotateLoop dots skipOn active start fuel ni (decide (ni = start)) np
    else next

/-- The turn-rotation logic shared by both ends of `placeDot`: advance to
the next configured player, in base mode dropping players whose HQ is
dead, and skipping players without dots once everyone has moved. -/
def nextPlayerCalc (st : Settings) (isBase : Bool) (g : Grid) (hqs : List HQCell)
    (histLen : Nat) (cur : Player) : Player :=
  let active0 := if st.players = [] then [Player.red, Player.blue] else st.players
  let active := if isBase then
      active0.filter (fun p => decide (∃ hq ∈ hqs, 0 < hq.health ∧ hq.player = p))
    else active0
  if active.length = 0 then
    (if cur = Player.red then Player.blue else Player.red)
  else
    let i := active.findIdx (fun q => decide (q = cur))
    let safe := if i = active.length then 0 else i
    let start := (safe + 1) % active.length
    rotateLoop (hasDots g) (decide (active.length < histLen)) active start
      active.length start false (active.getD start default)

/-- Is the middle-rows exclusion of the spawn rule violated (only when at
most two players are configured)? -/
def inMiddleRows (activeLen rows rr : Nat) : Prop :=
  activeLen ≤ 2 ∧ ((rows : Int) / 2 - 1 ≤ (rr : Int) ∧ (rr : Int) ≤ (rows : Int) / 2 + 1)

instance (activeLen rows rr : Nat) : Decidable (inMiddleRows activeLen rows rr) := by
  unfold inMiddleRows; infer_instance

/-- Can a power-up spawn at `(rr, cc)`: outside the middle rows, on an
empty non-HQ cell not Chebyshev-adjacent to any occupied cell. -/
def spawnValid (st : Settings) (g : Grid) (hqs : List HQCell) (rows cols rr cc : Nat) :
    Bool :=
  let active := if st.players = [] then [Player.red, Player.blue] else st.players
  (!(decide (inMiddleRows active.length rows rr))) &&
  decide ((getCell g rr cc).player = none) &&
  (!(decide (isHQat hqs rr cc))) &&
  (!((List.range rows).any (fun r => (List.range cols).any (fun c =>
      decide ((getCell g r c).player ≠ none) && isAdjacentTo rr cc r c))))

/-- First valid spawn position among the attempt stream. -/
def firstValidSpawn (st : Settings) (g : Grid) (hqs : List HQCell) (rows cols : Nat) :
    List (Nat × Nat) → Option (Nat × Nat)
  | [] => none
  | a :: rest =>
    if spawnValid st g hqs rows cols a.1 a.2 = true then some a
    else firstValidSpawn st g hqs rows cols rest

/-- The random power-up spawn block at the end of a no-explosion move. -/
def spawnStage (st : Settings) (o : SpawnOracle) (isBase : Bool) (histLen rows cols : Nat)
    (g : Grid) (hqs : List HQCell) (pus : List PowerUpCell) : List PowerUpCell :=
  if isBase = true ∧ 1 ≤ histLen ∧ o.spawnRoll = true ∧ pus.length < 4 then
    match firstValidSpawn st g hqs rows cols (o.attempts.take 50) with
    | some a => pus ++ [{ row := a.1, col := a.2, type := some o.kind }]
    | none => pus
  else pus

/-- The end-of-move bookkeeping shared by both `placeDot` paths: win
detection, turn rotation and (only on the no-explosion path) the random
power-up spawn.  Returns the next player, the game-over flag, the winner
and the final power-up list. -/
def finishCore (withSpawn : Bool) (st : Settings) (o : SpawnOracle) (isBase : Bool)
    (rows cols : Nat) (cur : Player) (histLen : Nat) (g : Grid) (hqs : List HQCell)
    (pus : List PowerUpCell) : Player × Bool × Option Player × List PowerUpCell :=
  let gw := if isBase then checkGameOverBase st hqs
    else checkGameOverClassic rows cols g histLen
  let next := if gw.1 then cur
    else nextPlayerCalc st isBase g hqs histLen cur
  let pus' := if withSpawn then spawnStage st o isBase histLen rows cols g hqs pus
    else pus
  (next, gw.1, gw.2, pus')

/-- The history snapshot push at the top of `placeDot`. -/
def pushHistory (s : GameState) : GameState :=
  { s with history := s.history ++ [{
      grid := s.grid
      currentPlayer := s.currentPlayer
      gameOver := s.gameOver
      winner := s.winner
      baseMode := if s.isBaseMode then some ⟨s.hqs, s.powerUps⟩ else none }] }

/-- The whole move pipeline below the history push, over bare components:
placement (or power-up), cascade resolution when the placed cell reached
critical mass, then the end-of-move bookkeeping.  `histLen` is the
history length after the push.  Returns the new grid, HQ list, and
`finishCore` results; `none` means the cascade did not drain within
`fuel` queue steps. -/
def placeDotCore (fuel : Nat) (st : Settings) (o : SpawnOracle) (isBase : Bool)
    (rows cols : Nat) (cur : Player) (g : Grid) (hqs : List HQCell)
    (pus : List PowerUpCell) (histLen row col : Nat) :
    Option (Grid × List HQCell × (Player × Bool × Option Player × List PowerUpCell)) :=
  let gp := applyPlacement st cur rows cols g hqs pus row col
  if calculateCriticalMass row col rows cols ≤ (getCell gp.1 row col).atoms then
    match runCascade isBase cur rows cols fuel (gp.1, gp.2.1, [(row, col)]) with
    | none => none
    | some gh =>
      some (gh.1, gh.2, finishCore false st o isBase rows cols cur histLen gh.1 gh.2 gp.2.2)
  else some (gp.1, gp.2.1, finishCore true st o isBase rows cols cur histLen gp.1 gp.2.1 gp.2.2)

/-- `placeDot` of the store: push the history snapshot, apply the
placement (or power-up), resolve the chain reaction when the placed cell
reached critical mass, then finish the turn.  `none` means the cascade
did not drain within `fuel` queue steps. -/
def placeDot (fuel : Nat) (st : Settings) (o : SpawnOracle) (s0 : GameState)
    (row col : Nat) : Option GameState :=
  let s := pushHistory s0
  (placeDotCore fuel st o s.isBaseMode s.rows s.cols s.currentPlayer s.grid s.hqs
      s.powerUps s.history.length row col).map (fun t =>
    { s with
      grid := t.1
      hqs := t.2.1
      currentPlayer := t.2.2.1
      gameOver := t.2.2.2.1
      winner := t.2.2.2.2.1
      powerUps := t.2.2.2.2.2 })

/-- `undo` of the store: restore the most recent snapshot, or do nothing
when the history is empty. -/
def undo (s : GameState) : GameState :=
  match s.history.getLast? with
  | none => s
  | some last =>
    { s with
      grid := last.grid
      currentPlayer := last.currentPlayer
      gameOver := last.gameOver
      winner := last.winner
      hqs := match last.baseMode with
        | some b => b.hqs
        | none => s.hqs
      powerUps := match last.baseMode with
        | some b => b.powerUps
        | none => s.powerUps
      history := s.history.dropLast }

/-- The guarded cell-click handler of `ClassicMode.tsx`: the move is only
forwarded to `placeDot` when the game is live, the move validates, and a
human is acting. -/
def handleCellClick (fuel : Nat) (st : Settings) (o : SpawnOracle)
    (isCurrentPlayerAI : Bool) (s : GameState) (row col : Nat) : Option GameState :=
  if s.gameOver = false ∧ isValidMove s row col = true ∧ isCurrentPlayerAI = false then
    placeDot fuel st o s row col
  else some s

/-- An empty `rows × cols` grid. -/
def emptyGrid (rows cols : Nat) : Grid :=
  List.replicate rows (List.replicate cols { atoms := 0, player := none })

/-- `initBaseMode` of the store: a 9×9 grid with 2-4 HQs at the edge
midpoints (left, top, right, bottom in player order), each holding one
starting unit, five health, no power-ups, empty history. -/
def initBaseMode (st : Settings) : GameState :=
  let rows := 9
  let cols := 9
  let activePlayers := if st.players = [] then [Player.red, Player.blue] else st.players
  let numPlayers := min (if st.numberOfPlayers = 0 then activePlayers.length
    else st.numberOfPlayers) 4
  let hqs : List HQCell :=
    if numPlayers = 2 then
      [{ row := rows / 2, col := 0, player := activePlayers.getD 0 default, health := 5 },
       { row := rows / 2, col := cols - 1, player := activePlayers.getD 1 default, health := 5 }]
    else if numPlayers = 3 then
      [{ row := rows / 2, col := 0, player := activePlayers.getD 0 default, health := 5 },
       { row := 0, col := cols / 2, player := activePlayers.getD 1 default, health := 5 },
       { row := rows / 2, col := cols - 1, player := activePlayers.getD 2 default, health := 5 }]
    else if numPlayers = 4 then
      [{ row := rows / 2, col := 0, player := activePlayers.getD 0 default, health := 5 },
       { row := 0, col := cols / 2, player := activePlayers.getD 1 default, health := 5 },
       { row := rows / 2, col := cols - 1, player := activePlayers.getD 2 default, health := 5 },
       { row := rows - 1, col := cols / 2, player := activePlayers.getD 3 default, health := 5 }]
    else []
  let grid := hqs.foldl (fun g hq => setCell g hq.row hq.col { atoms := 1, player := some hq.player })
    (emptyGrid rows cols)
  { isBaseMode := true, grid := grid, rows := rows, cols := cols,
    currentPlayer := activePlayers.getD 0 default, gameOver := false, winner := none,
    hqs := hqs, powerUps := [], history := [] }

/-- Play a scripted sequence of moves with a fixed oracle, insisting that
every move validates (`isValidMove`) before it is placed; `none` when a
move is illegal or a cascade does not drain. -/
def runScript (fuel : Nat) (st : Settings) (o : SpawnOracle) :
    List (Nat × Nat) → GameState → Option GameState
  | [], s => some s
  | m :: ms, s =>
    if isValidMove s m.1 m.2 = true then
      (placeDot fuel st o s m.1 m.2).bind (runScript fuel st o ms)
    else none

/-- The game state with the history list replaced by its length: the
move pipeline reads nothing else of the history, so scripted games can
be replayed over this compact state. -/
structure LightState where
  isBaseMode : Bool
  grid : Grid
  rows : Nat
  cols : Nat
  currentPlayer : Player
  gameOver : Bool
  winner : Option Player
  hqs : List HQCell
  powerUps : List PowerUpCell
  histLen : Nat
deriving DecidableEq, Repr

/-- Forget the history contents, keeping its length. -/
def lightOf (s : GameState) : LightState :=
  { isBaseMode := s.isBaseMode
    grid := s.grid
    rows := s.rows
    cols := s.cols
    currentPlayer := s.currentPlayer
    gameOver := s.gameOver
    winner := s.winner
    hqs := s.hqs
    powerUps := s.powerUps
    histLen := s.history.length }

/-- `isValidMove` over the compact state. -/
def isValidMoveL (L : LightState) (row col : Nat) : Bool :=
  isValidMove
    { isBaseMode := L.isBaseMode
      grid := L.grid
      rows := L.rows
      cols := L.cols
      currentPlayer := L.currentPlayer
      gameOver := L.gameOver
      winner := L.winner
      hqs := L.hqs
      powerUps := L.powerUps
      history := [] } row col

/-- `placeDot` over the compact state. -/
def placeDotLight (fuel : Nat) (st : Settings) (o : SpawnOracle) (L : LightState)
    (row col : Nat) : Option LightState :=
  (placeDotCore fuel st o L.isBaseMode L.rows L.cols L.currentPlayer L.grid L.hqs
      L.powerUps (L.histLen + 1) row col).map (fun t =>
    { L with
      grid := t.1
      hqs := t.2.1
      currentPlayer := t.2.2.1
      gameOver := t.2.2.2.1
      winner := t.2.2.2.2.1
      powerUps := t.2.2.2.2.2
      histLen := L.histLen + 1 })

/-- `runScript` over the compact state. -/
def runScriptLight (fuel : Nat) (st : Settings) (o : SpawnOracle) :
    List (Nat × Nat) → LightState → Option LightState
  | [], L => some L
  | m :: ms, L =>
    if isValidMoveL L m.1 m.2 = true then
      (placeDotLight fuel st o L m.1 m.2).bind (runScriptLight fuel st o ms)
    else none

/-! Concrete two-player base-mode game material: cell and HQ literal
shorthands, the fixed settings and oracle, and a scripted game whose
final cascade drives the blue HQ's health to -1. -/

def c0n : GridCell := ⟨0, none⟩
def c1r : GridCell := ⟨1, some Player.red⟩
def c1b : GridCell := ⟨1, some Player.blue⟩
def c2r : GridCell := ⟨2, some Player.red⟩
def c2b : GridCell := ⟨2, some Player.blue⟩
def c3r : GridCell := ⟨3, some Player.red⟩
def c3b : GridCell := ⟨3, some Player.blue⟩
def hqc (r c : Nat) (p : Player) (hl : Int) : HQCell := ⟨r, c, p, hl⟩

def settings2 : Settings := { players := [Player.red, Player.blue], numberOfPlayers := 2 }

def noSpawnOracle : SpawnOracle :=
  { spawnRoll := false, kind := PUKind.diamond, attempts := [] }

/-- A legal two-player game script: red builds a chain toward the blue
HQ at (4,8) and fires two three-hit cascades into it; blue plays inert
moves in its own half. -/
def c4Moves : List (Nat × Nat) := [
  (4,1), (0,8), (4,2), (0,7), (4,3), (0,7), (4,4), (1,7), (4,5), (1,7),
  (4,6), (1,7), (4,7), (0,6), (4,7), (0,6), (4,7), (1,6), (3,7), (1,6),
  (3,7), (1,6), (3,7), (0,5), (5,7), (0,5), (5,7), (1,5), (5,7), (1,5),
  (3,8), (1,5), (3,8), (0,4), (5,8), (0,4), (5,8), (1,4), (3,8), (1,4),
  (3,8), (1,4), (3,7), (0,3), (3,7), (0,3), (4,7), (1,3), (4,7), (1,3),
  (5,7), (1,3), (5,7), (0,2), (5,8), (0,2), (5,8), (1,2), (3,8)]
def c4State0 : LightState :=
  ⟨true,
   [[c0n, c0n, c0n, c0n, c0n, c0n, c0n, c0n, c0n],
    [c0n, c0n, c0n, c0n, c0n, c0n, c0n, c0n, c0n],
    [c0n, c0n, c0n, c0n, c0n, c0n, c0n, c0n, c0n],
    [c0n, c0n, c0n, c0n, c0n, c0n, c0n, c0n, c0n],
    [c1r, c0n, c0n, c0n, c0n, c0n, c0n, c0n, c1b],
    [c0n, c0n, c0n, c0n, c0n, c0n, c0n, c0n, c0n],
    [c0n, c0n, c0n, c0n, c0n, c0n, c0n, c0n, c0n],
    [c0n, c0n, c0n, c0n, c0n, c0n, c0n, c0n, c0n],
    [c0n, c0n, c0n, c0n, c0n, c0n, c0n, c0n, c0n]],
   9, 9, .red, false, none,
   [hqc 4 0 .red 5, hqc 4 8 .blue 5], [], 0⟩

def c4State1 : LightState :=
  ⟨true,
   [[c0n, c0n, c0n, c0n, c0n, c0n, c0n, c0n, c0n],
    [c0n, c0n, c0n, c0n, c0n, c0n, c0n, c0n, c0n],
    [c0n, c0n, c0n, c0n, c0n, c0n, c0n, c0n, c0n],
    [c0n, c0n, c0n, c0n, c0n, c0n, c0n, c0n, c0n],
    [c1r, c1r, c0n, c0n, c0n, c0n, c0n, c0n, c1b],
    [c0n, c0n, c0n, c0n, c0n, c0n, c0n, c0n, c0n],
    [c0n, c0n, c0n, c0n, c0n, c0n, c0n, c0n, c0n],
    [c0n, c0n, c0n, c0n, c0n, c0n, c0n, c0n, c0n],
    [c0n, c0n, c0n, c0n, c0n, c0n, c0n, c0n, c0n]],
   9, 9, .blue, false, none,
   [hqc 4 0 .red 5, hqc 4 8 .blue 5], [], 1⟩

def c4State2 : LightState :=
  ⟨true,
   [[c0n, c0n, c0n, c0n, c0n, c0n, c0n, c0n, c1b],
    [c0n, c0n, c0n, c0n, c0n, c0n, c0n, c0n, c0n],
    [c0n, c0n, c0n, c0n, c0n, c0n, c0n, c0n, c0n],
    [c0n, c0n, c0n, c0n, c0n, c0n, c0n, c0n, c0n],
    [c1r, c1r, c0n, c0n, c0n, c0n, c0n, c0n, c1b],
    [c0n, c0n, c0n, c0n, c0n, c0n, c0n, c0n, c0n],
    [c0n, c0n, c0n, c0n, c0n, c0n, c0n, c0n, c0n],
    [c0n, c0n, c0n, c0n, c0n, c0n, c0n, c0n, c0n],
    [c0n, c0n, c0n, c0n, c0n, c0n, c0n, c0n, c0n]],
   9, 9, .red, false, none,
   [hqc 4 0 .red 5, hqc 4 8 .blue 5], [], 2⟩

def c4State3 : LightState :=
  ⟨true,
   [[c0n, c0n, c0n, c0n, c0n, c0n, c0n, c0n, c1b],
    [c0n, c0n, c0n, c0n, c0n, c0n, c0n, c0n, c0n],
    [c0n, c0n, c0n, c0n, c0n, c0n, c0n, c0n, c0n],
    [c0n, c0n, c0n, c0n, c0n, c0n, c0n, c0n, c0n],
    [c1r, c1r, c1r, c0n, c0n, c0n, c0n, c0n, c1b],
    [c0n, c0n, c0n, c0n, c0n, c0n, c0n, c0n, c0n],
    [c0n, c0n, c0n, c0n, c0n, c0n, c0n, c0n, c0n],
    [c0n, c0n, c0n, c0n, c0n, c0n, c0n, c0n, c0n],
    [c0n, c0n, c0n, c0n, c0n, c0n, c0n, c0n, c0n]],
   9, 9, .blue, false, none,
   [hqc 4 0 .red 5, hqc 4 8 .blue 5], [], 3⟩

def c4State4 : LightState :=
  ⟨true,
   [[c0n, c0n, c0n, c0n, c0n, c0n, c0n, c1b, c1b],
    [c0n, c0n, c0n, c0n, c0n, c0n, c0n, c0n, c0n],
    [c0n, c0n, c0n, c0n, c0n, c0n, c0n, c0n, c0n],
    [c0n, c0n, c0n, c0n, c0n, c0n, c0n, c0n, c0n],
    [c1r, c1r, c1r, c0n, c0n, c0n, c0n, c0n, c1b],
    [c0n, c0n, c0n, c0n, c0n, c0n, c0n, c0n, c0n],
    [c0n, c0n, c0n, c0n, c0n, c0n, c0n, c0n, c0n],
    [c0n, c0n, c0n, c0n, c0n, c0n, c0n, c0n, c0n],
    [c0n, c0n, c0n, c0n, c0n, c0n, c0n, c0n, c0n]],
   9, 9, .red, false, none,
   [hqc 4 0 .red 5, hqc 4 8 .blue 5], [], 4⟩

def c4State5 : LightState :=
  ⟨true,
   [[c0n, c0n, c0n, c0n, c0n, c0n, c0n, c1b, c1b],
    [c0n, c0n, c0n, c0n, c0n, c0n, c0n, c0n, c0n],
    [c0n, c0n, c0n, c0n, c0n, c0n, c0n, c0n, c0n],
    [c0n, c0n, c0n, c0n, c0n, c0n, c0n, c0n, c0n],
    [c1r, c1r, c1r, c1r, c0n, c0n, c0n, c0n, c1b],
    [c0n, c0n, c0n, c0n, c0n, c0n, c0n, c0n, c0n],
    [c0n, c0n, c0n, c0n, c0n, c0n, c0n, c0n, c0n],
    [c0n, c0n, c0n, c0n, c0n, c0n, c0n, c0n, c0n],
    [c0n, c0n, c0n, c0n, c0n, c0n, c0n, c0n, c0n]],
   9, 9, .blue, false, none,
   [hqc 4 0 .red 5, hqc 4 8 .blue 5], [], 5⟩

def c4State6 : LightState :=
  ⟨true,
   [[c0n, c0n, c0n, c0n, c0n, c0n, c0n, c2b, c1b],
    [c0n, c0n, c0n, c0n, c0n, c0n, c0n, c0n, c0n],
    [c0n, c0n, c0n, c0n, c0n, c0n, c0n, c0n, c0n],
    [c0n, c0n, c0n, c0n, c0n, c0n, c0n, c0n, c0n],
    [c1r, c1r, c1r, c1r, c0n, c0n, c0n, c0n, c1b],
    [c0n, c0n, c0n, c0n, c0n, c0n, c0n, c0n, c0n],
    [c0n, c0n, c0n, c0n, c0n, c0n, c0n, c0n, c0n],
    [c0n, c0n, c0n, c0n, c0n, c0n, c0n, c0n, c0n],
    [c0n, c0n, c0n, c0n, c0n, c0n, c0n, c0n, c0n]],
   9, 9, .red, false, none,
   [hqc 4 0 .red 5, hqc 4 8 .blue 5], [], 6⟩

def c4State7 : LightState :=
  ⟨true,
   [[c0n, c0n, c0n, c0n, c0n, c0n, c0n, c2b, c1b],
    [c0n, c0n, c0n, c0n, c0n, c0n, c0n, c0n, c0n],
    [c0n, c0n, c0n, c0n, c0n, c0n, c0n, c0n, c0n],
    [c0n, c0n, c0n, c0n, c0n, c0n, c0n, c0n, c0n],
    [c1r, c1r, c1r, c1r, c1r, c0n, c0n, c0n, c1b],
    [c0n, c0n, c0n, c0n, c0n, c0n, c0n, c0n, c0n],
    [c0n, c0n, c0n, c0n, c0n, c0n, c0n, c0n, c0n],
    [c0n, c0n, c0n, c0n, c0n, c0n, c0n, c0n, c0n],
    [c0n, c0n, c0n, c0n, c0n, c0n, c0n, c0n, c0n]],
   9, 9, .blue, false, none,
   [hqc 4 0 .red 5, hqc 4 8 .blue 5], [], 7⟩

def c4State8 : LightState :=
  ⟨true,
   [[c0n, c0n, c0n, c0n, c0n, c0n, c0n, c2b, c1b],
    [c0n, c0n, c0n, c0n, c0n, c0n, c0n, c1b, c0n],
    [c0n, c0n, c0n, c0n, c0n, c0n, c0n, c0n, c0n],
    [c0n, c0n, c0n, c0n, c0n, c0n, c0n, c0n, c0n],
    [c1r, c1r, c1r, c1r, c1r, c0n, c0n, c0n, c1b],
    [c0n, c0n, c0n, c0n, c0n, c0n, c0n, c0n, c0n],
    [c0n, c0n, c0n, c0n, c0n, c0n, c0n, c0n, c0n],
    [c0n, c0n, c0n, c0n, c0n, c0n, c0n, c0n, c0n],
    [c0n, c0n, c0n, c0n, c0n, c0n, c0n, c0n, c0n]],
   9, 9, .red, false, none,
   [hqc 4 0 .red 5, hqc 4 8 .blue 5], [], 8⟩

def c4State9 : LightState :=
  ⟨true,
   [[c0n, c0n, c0n, c0n, c0n, c0n, c0n, c2b, c1b],
    [c0n, c0n, c0n, c0n, c0n, c0n, c0n, c1b, c0n],
    [c0n, c0n, c0n, c0n, c0n, c0n, c0n, c0n, c0n],
    [c0n, c0n, c0n, c0n, c0n, c0n, c0n, c0n, c0n],
    [c1r, c1r, c1r, c1r, c1r, c1r, c0n, c0n, c1b],
    [c0n, c0n, c0n, c0n, c0n, c0n, c0n, c0n, c0n],
    [c0n, c0n, c0n, c0n, c0n, c0n, c0n, c0n, c0n],
    [c0n, c0n, c0n, c0n, c0n, c0n, c0n, c0n, c0n],
    [c0n, c0n, c0n, c0n, c0n, c0n, c0n, c0n, c0n]],
   9, 9, .blue, false, none,
   [hqc 4 0 .red 5, hqc 4 8 .blue 5], [], 9⟩

def c4State10 : LightState :=
  ⟨true,
   [[c0n, c0n, c0n, c0n, c0n, c0n, c0n, c2b, c1b],
    [c0n, c0n, c0n, c0n, c0n, c0n, c0n, c2b, c0n],
    [c0n, c0n, c0n, c0n, c0n, c0n, c0n, c0n, c0n],
    [c0n, c0n, c0n, c0n, c0n, c0n, c0n, c0n, c0n],
    [c1r, c1r, c1r, c1r, c1r, c1r, c0n, c0n, c1b],
    [c0n, c0n, c0n, c0n, c0n, c0n, c0n, c0n, c0n],
    [c0n, c0n, c0n, c0n, c0n, c0n, c0n, c0n, c0n],
    [c0n, c0n, c0n, c0n, c0n, c0n, c0n, c0n, c0n],
    [c0n, c0n, c0n, c0n, c0n, c0n, c0n, c0n, c0n]],
   9, 9, .red, false, none,
   [hqc 4 0 .red 5, hqc 4 8 .blue 5], [], 10⟩

def c4State11 : LightState :=
  ⟨true,
   [[c0n, c0n, c0n, c0n, c0n, c0n, c0n, c2b, c1b],
    [c0n, c0n, c0n, c0n, c0n, c0n, c0n, c2b, c0n],
    [c0n, c0n, c0n, c0n, c0n, c0n, c0n, c0n, c0n],
    [c0n, c0n, c0n, c0n, c0n, c0n, c0n, c0n, c0n],
    [c1r, c1r, c1r, c1r, c1r, c1r, c1r, c0n, c1b],
    [c0n, c0n, c0n, c0n, c0n, c0n, c0n, c0n, c0n],
    [c0n, c0n, c0n, c0n, c0n, c0n, c0n, c0n, c0n],
    [c0n, c0n, c0n, c0n, c0n, c0n, c0n, c0n, c0n],
    [c0n, c0n, c0n, c0n, c0n, c0n, c0n, c0n, c0n]],
   9, 9, .blue, false, none,
   [hqc 4 0 .red 5, hqc 4 8 .blue 5], [], 11⟩

def c4State12 : LightState :=
  ⟨true,
   [[c0n, c0n, c0n, c0n, c0n, c0n, c0n, c2b, c1b],
    [c0n, c0n, c0n, c0n, c0n, c0n, c0n, c3b, c0n],
    [c0n, c0n, c0n, c0n, c0n, c0n, c0n, c0n, c0n],
    [c0n, c0n, c0n, c0n, c0n, c0n, c0n, c0n, c0n],
    [c1r, c1r, c1r, c1r, c1r, c1r, c1r, c0n, c1b],
    [c0n, c0n, c0n, c0n, c0n, c0n, c0n, c0n, c0n],
    [c0n, c0n, c0n, c0n, c0n, c0n, c0n, c0n, c0n],
    [c0n, c0n, c0n, c0n, c0n, c0n, c0n, c0n, c0n],
    [c0n, c0n, c0n, c0n, c0n, c0n, c0n, c0n, c0n]],
   9, 9, .red, false, none,
   [hqc 4 0 .red 5, hqc 4 8 .blue 5], [], 12⟩

def c4State13 : LightState :=
  ⟨true,
   [[c0n, c0n, c0n, c0n, c0n, c0n, c0n, c2b, c1b],
    [c0n, c0n, c0n, c0n, c0n, c0n, c0n, c3b, c0n],
    [c0n, c0n, c0n, c0n, c0n, c0n, c0n, c0n, c0n],
    [c0n, c0n, c0n, c0n, c0n, c0n, c0n, c0n, c0n],
    [c1r, c1r, c1r, c1r, c1r, c1r, c1r, c1r, c1b],
    [c0n, c0n, c0n, c0n, c0n, c0n, c0n, c0n, c0n],
    [c0n, c0n, c0n, c0n, c0n, c0n, c0n, c0n, c0n],
    [c0n, c0n, c0n, c0n, c0n, c0n, c0n, c0n, c0n],
    [c0n, c0n, c0n, c0n, c0n, c0n, c0n, c0n, c0n]],
   9, 9, .blue, false, none,
   [hqc 4 0 .red 5, hqc 4 8 .blue 5], [], 13⟩

def c4State14 : LightState :=
  ⟨true,
   [[c0n, c0n, c0n, c0n, c0n, c0n, c1b, c2b, c1b],
    [c0n, c0n, c0n, c0n, c0n, c0n, c0n, c3b, c0n],
    [c0n, c0n, c0n, c0n, c0n, c0n, c0n, c0n, c0n],
    [c0n, c0n, c0n, c0n, c0n, c0n, c0n, c0n, c0n],
    [c1r, c1r, c1r, c1r, c1r, c1r, c1r, c1r, c1b],
    [c0n, c0n, c0n, c0n, c0n, c0n, c0n, c0n, c0n],
    [c0n, c0n, c0n, c0n, c0n, c0n, c0n, c0n, c0n],
    [c0n, c0n, c0n, c0n, c0n, c0n, c0n, c0n, c0n],
    [c0n, c0n, c0n, c0n, c0n, c0n, c0n, c0n, c0n]],
   9, 9, .red, false, none,
   [hqc 4 0 .red 5, hqc 4 8 .blue 5], [], 14⟩

def c4State15 : LightState :=
  ⟨true,
   [[c0n, c0n, c0n, c0n, c0n, c0n, c1b, c2b, c1b],
    [c0n, c0n, c0n, c0n, c0n, c0n, c0n, c3b, c0n],
    [c0n, c0n, c0n, c0n, c0n, c0n, c0n, c0n, c0n],
    [c0n, c0n, c0n, c0n, c0n, c0n, c0n, c0n, c0n],
    [c1r, c1r, c1r, c1r, c1r, c1r, c1r, c2r, c1b],
    [c0n, c0n, c0n, c0n, c0n, c0n, c0n, c0n, c0n],
    [c0n, c0n, c0n, c0n, c0n, c0n, c0n, c0n, c0n],
    [c0n, c0n, c0n, c0n, c0n, c0n, c0n, c0n, c0n],
    [c0n, c0n, c0n, c0n, c0n, c0n, c0n, c0n, c0n]],
   9, 9, .blue, false, none,
   [hqc 4 0 .red 5, hqc 4 8 .blue 5], [], 15⟩

def c4State16 : LightState :=
  ⟨true,
   [[c0n, c0n, c0n, c0n, c0n, c0n, c2b, c2b, c1b],
    [c0n, c0n, c0n, c0n, c0n, c0n, c0n, c3b, c0n],
    [c0n, c0n, c0n, c0n, c0n, c0n, c0n, c0n, c0n],
    [c0n, c0n, c0n, c0n, c0n, c0n, c0n, c0n, c0n],
    [c1r, c1r, c1r, c1r, c1r, c1r, c1r, c2r, c1b],
    [c0n, c0n, c0n, c0n, c0n, c0n, c0n, c0n, c0n],
    [c0n, c0n, c0n, c0n, c0n, c0n, c0n, c0n, c0n],
    [c0n, c0n, c0n, c0n, c0n, c0n, c0n, c0n, c0n],
    [c0n, c0n, c0n, c0n, c0n, c0n, c0n, c0n, c0n]],
   9, 9, .red, false, none,
   [hqc 4 0 .red 5, hqc 4 8 .blue 5], [], 16⟩

def c4State17 : LightState :=
  ⟨true,
   [[c0n, c0n, c0n, c0n, c0n, c0n, c2b, c2b, c1b],
    [c0n, c0n, c0n, c0n, c0n, c0n, c0n, c3b, c0n],
    [c0n, c0n, c0n, c0n, c0n, c0n, c0n, c0n, c0n],
    [c0n, c0n, c0n, c0n, c0n, c0n, c0n, c0n, c0n],
    [c1r, c1r, c1r, c1r, c1r, c1r, c1r, c3r, c1b],
    [c0n, c0n, c0n, c0n, c0n, c0n, c0n, c0n, c0n],
    [c0n, c0n, c0n, c0n, c0n, c0n, c0n, c0n, c0n],
    [c0n, c0n, c0n, c0n, c0n, c0n, c0n, c0n, c0n],
    [c0n, c0n, c0n, c0n, c0n, c0n, c0n, c0n, c0n]],
   9, 9, .blue, false, none,
   [hqc 4 0 .red 5, hqc 4 8 .blue 5], [], 17⟩

def c4State18 : LightState :=
  ⟨true,
   [[c0n, c0n, c0n, c0n, c0n, c0n, c2b, c2b, c1b],
    [c0n, c0n, c0n, c0n, c0n, c0n, c1b, c3b, c0n],
    [c0n, c0n, c0n, c0n, c0n, c0n, c0n, c0n, c0n],
    [c0n, c0n, c0n, c0n, c0n, c0n, c0n, c0n, c0n],
    [c1r, c1r, c1r, c1r, c1r, c1r, c1r, c3r, c1b],
    [c0n, c0n, c0n, c0n, c0n, c0n, c0n, c0n, c0n],
    [c0n, c0n, c0n, c0n, c0n, c0n, c0n, c0n, c0n],
    [c0n, c0n, c0n, c0n, c0n, c0n, c0n, c0n, c0n],
    [c0n, c0n, c0n, c0n, c0n, c0n, c0n, c0n, c0n]],
   9, 9, .red, false, none,
   [hqc 4 0 .red 5, hqc 4 8 .blue 5], [], 18⟩

def c4State19 : LightState :=
  ⟨true,
   [[c0n, c0n, c0n, c0n, c0n, c0n, c2b, c2b, c1b],
    [c0n, c0n, c0n, c0n, c0n, c0n, c1b, c3b, c0n],
    [c0n, c0n, c0n, c0n, c0n, c0n, c0n, c0n, c0n],
    [c0n, c0n, c0n, c0n, c0n, c0n, c0n, c1r, c0n],
    [c1r, c1r, c1r, c1r, c1r, c1r, c1r, c3r, c1b],
    [c0n, c0n, c0n, c0n, c0n, c0n, c0n, c0n, c0n],
    [c0n, c0n, c0n, c0n, c0n, c0n, c0n, c0n, c0n],
    [c0n, c0n, c0n, c0n, c0n, c0n, c0n, c0n, c0n],
    [c0n, c0n, c0n, c0n, c0n, c0n, c0n, c0n, c0n]],
   9, 9, .blue, false, none,
   [hqc 4 0 .red 5, hqc 4 8 .blue 5], [], 19⟩

def c4State20 : LightState :=
  ⟨true,
   [[c0n, c0n, c0n, c0n, c0n, c0n, c2b, c2b, c1b],
    [c0n, c0n, c0n, c0n, c0n, c0n, c2b, c3b, c0n],
    [c0n, c0n, c0n, c0n, c0n, c0n, c0n, c0n, c0n],
    [c0n, c0n, c0n, c0n, c0n, c0n, c0n, c1r, c0n],
    [c1r, c1r, c1r, c1r, c1r, c1r, c1r, c3r, c1b],
    [c0n, c0n, c0n, c0n, c0n, c0n, c0n, c0n, c0n],
    [c0n, c0n, c0n, c0n, c0n, c0n, c0n, c0n, c0n],
    [c0n, c0n, c0n, c0n, c0n, c0n, c0n, c0n, c0n],
    [c0n, c0n, c0n, c0n, c0n, c0n, c0n, c0n, c0n]],
   9, 9, .red, false, none,
   [hqc 4 0 .red 5, hqc 4 8 .blue 5], [], 20⟩

def c4State21 : LightState :=
  ⟨true,
   [[c0n, c0n, c0n, c0n, c0n, c0n, c2b, c2b, c1b],
    [c0n, c0n, c0n, c0n, c0n, c0n, c2b, c3b, c0n],
    [c0n, c0n, c0n, c0n, c0n, c0n, c0n, c0n, c0n],
    [c0n, c0n, c0n, c0n, c0n, c0n, c0n, c2r, c0n],
    [c1r, c1r, c1r, c1r, c1r, c1r, c1r, c3r, c1b],
    [c0n, c0n, c0n, c0n, c0n, c0n, c0n, c0n, c0n],
    [c0n, c0n, c0n, c0n, c0n, c0n, c0n, c0n, c0n],
    [c0n, c0n, c0n, c0n, c0n, c0n, c0n, c0n, c0n],
    [c0n, c0n, c0n, c0n, c0n, c0n, c0n, c0n, c0n]],
   9, 9, .blue, false, none,
   [hqc 4 0 .red 5, hqc 4 8 .blue 5], [], 21⟩

def c4State22 : LightState :=
  ⟨true,
   [[c0n, c0n, c0n, c0n, c0n, c0n, c2b, c2b, c1b],
    [c0n, c0n, c0n, c0n, c0n, c0n, c3b, c3b, c0n],
    [c0n, c0n, c0n, c0n, c0n, c0n, c0n, c0n, c0n],
    [c0n, c0n, c0n, c0n, c0n, c0n, c0n, c2r, c0n],
    [c1r, c1r, c1r, c1r, c1r, c1r, c1r, c3r, c1b],
    [c0n, c0n, c0n, c0n, c0n, c0n, c0n, c0n, c0n],
    [c0n, c0n, c0n, c0n, c0n, c0n, c0n, c0n, c0n],
    [c0n, c0n, c0n, c0n, c0n, c0n, c0n, c0n, c0n],
    [c0n, c0n, c0n, c0n, c0n, c0n, c0n, c0n, c0n]],
   9, 9, .red, false, none,
   [hqc 4 0 .red 5, hqc 4 8 .blue 5], [], 22⟩

def c4State23 : LightState :=
  ⟨true,
   [[c0n, c0n, c0n, c0n, c0n, c0n, c2b, c2b, c1b],
    [c0n, c0n, c0n, c0n, c0n, c0n, c3b, c3b, c0n],
    [c0n, c0n, c0n, c0n, c0n, c0n, c0n, c0n, c0n],
    [c0n, c0n, c0n, c0n, c0n, c0n, c0n, c3r, c0n],
    [c1r, c1r, c1r, c1r, c1r, c1r, c1r, c3r, c1b],
    [c0n, c0n, c0n, c0n, c0n, c0n, c0n, c0n, c0n],
    [c0n, c0n, c0n, c0n, c0n, c0n, c0n, c0n, c0n],
    [c0n, c0n, c0n, c0n, c0n, c0n, c0n, c0n, c0n],
    [c0n, c0n, c0n, c0n, c0n, c0n, c0n, c0n, c0n]],
   9, 9, .blue, false, none,
   [hqc 4 0 .red 5, hqc 4 8 .blue 5], [], 23⟩

def c4State24 : LightState :=
  ⟨true,
   [[c0n, c0n, c0n, c0n, c0n, c1b, c2b, c2b, c1b],
    [c0n, c0n, c0n, c0n, c0n, c0n, c3b, c3b, c0n],
    [c0n, c0n, c0n, c0n, c0n, c0n, c0n, c0n, c0n],
    [c0n, c0n, c0n, c0n, c0n, c0n, c0n, c3r, c0n],
    [c1r, c1r, c1r, c1r, c1r, c1r, c1r, c3r, c1b],
    [c0n, c0n, c0n, c0n, c0n, c0n, c0n, c0n, c0n],
    [c0n, c0n, c0n, c0n, c0n, c0n, c0n, c0n, c0n],
    [c0n, c0n, c0n, c0n, c0n, c0n, c0n, c0n, c0n],
    [c0n, c0n, c0n, c0n, c0n, c0n, c0n, c0n, c0n]],
   9, 9, .red, false, none,
   [hqc 4 0 .red 5, hqc 4 8 .blue 5], [], 24⟩

def c4State25 : LightState :=
  ⟨true,
   [[c0n, c0n, c0n, c0n, c0n, c1b, c2b, c2b, c1b],
    [c0n, c0n, c0n, c0n, c0n, c0n, c3b, c3b, c0n],
    [c0n, c0n, c0n, c0n, c0n, c0n, c0n, c0n, c0n],
    [c0n, c0n, c0n, c0n, c0n, c0n, c0n, c3r, c0n],
    [c1r, c1r, c1r, c1r, c1r, c1r, c1r, c3r, c1b],
    [c0n, c0n, c0n, c0n, c0n, c0n, c0n, c1r, c0n],
    [c0n, c0n, c0n, c0n, c0n, c0n, c0n, c0n, c0n],
    [c0n, c0n, c0n, c0n, c0n, c0n, c0n, c0n, c0n],
    [c0n, c0n, c0n, c0n, c0n, c0n, c0n, c0n, c0n]],
   9, 9, .blue, false, none,
   [hqc 4 0 .red 5, hqc 4 8 .blue 5], [], 25⟩

def c4State26 : LightState :=
  ⟨true,
   [[c0n, c0n, c0n, c0n, c0n, c2b, c2b, c2b, c1b],
    [c0n, c0n, c0n, c0n, c0n, c0n, c3b, c3b, c0n],
    [c0n, c0n, c0n, c0n, c0n, c0n, c0n, c0n, c0n],
    [c0n, c0n, c0n, c0n, c0n, c0n, c0n, c3r, c0n],
    [c1r, c1r, c1r, c1r, c1r, c1r, c1r, c3r, c1b],
    [c0n, c0n, c0n, c0n, c0n, c0n, c0n, c1r, c0n],
    [c0n, c0n, c0n, c0n, c0n, c0n, c0n, c0n, c0n],
    [c0n, c0n, c0n, c0n, c0n, c0n, c0n, c0n, c0n],
    [c0n, c0n, c0n, c0n, c0n, c0n, c0n, c0n, c0n]],
   9, 9, .red, false, none,
   [hqc 4 0 .red 5, hqc 4 8 .blue 5], [], 26⟩

def c4State27 : LightState :=
  ⟨true,
   [[c0n, c0n, c0n, c0n, c0n, c2b, c2b, c2b, c1b],
    [c0n, c0n, c0n, c0n, c0n, c0n, c3b, c3b, c0n],
    [c0n, c0n, c0n, c0n, c0n, c0n, c0n, c0n, c0n],
    [c0n, c0n, c0n, c0n, c0n, c0n, c0n, c3r, c0n],
    [c1r, c1r, c1r, c1r, c1r, c1r, c1r, c3r, c1b],
    [c0n, c0n, c0n, c0n, c0n, c0n, c0n, c2r, c0n],
    [c0n, c0n, c0n, c0n, c0n, c0n, c0n, c0n, c0n],
    [c0n, c0n, c0n, c0n, c0n, c0n, c0n, c0n, c0n],
    [c0n, c0n, c0n, c0n, c0n, c0n, c0n, c0n, c0n]],
   9, 9, .blue, false, none,
   [hqc 4 0 .red 5, hqc 4 8 .blue 5], [], 27⟩

def c4State28 : LightState :=
  ⟨true,
   [[c0n, c0n, c0n, c0n, c0n, c2b, c2b, c2b, c1b],
    [c0n, c0n, c0n, c0n, c0n, c1b, c3b, c3b, c0n],
    [c0n, c0n, c0n, c0n, c0n, c0n, c0n, c0n, c0n],
    [c0n, c0n, c0n, c0n, c0n, c0n, c0n, c3r, c0n],
    [c1r, c1r, c1r, c1r, c1r, c1r, c1r, c3r, c1b],
    [c0n, c0n, c0n, c0n, c0n, c0n, c0n, c2r, c0n],
    [c0n, c0n, c0n, c0n, c0n, c0n, c0n, c0n, c0n],
    [c0n, c0n, c0n, c0n, c0n, c0n, c0n, c0n, c0n],
    [c0n, c0n, c0n, c0n, c0n, c0n, c0n, c0n, c0n]],
   9, 9, .red, false, none,
   [hqc 4 0 .red 5, hqc 4 8 .blue 5], [], 28⟩

def c4State29 : LightState :=
  ⟨true,
   [[c0n, c0n, c0n, c0n, c0n, c2b, c2b, c2b, c1b],
    [c0n, c0n, c0n, c0n, c0n, c1b, c3b, c3b, c0n],
    [c0n, c0n, c0n, c0n, c0n, c0n, c0n, c0n, c0n],
    [c0n, c0n, c0n, c0n, c0n, c0n, c0n, c3r, c0n],
    [c1r, c1r, c1r, c1r, c1r, c1r, c1r, c3r, c1b],
    [c0n, c0n, c0n, c0n, c0n, c0n, c0n, c3r, c0n],
    [c0n, c0n, c0n, c0n, c0n, c0n, c0n, c0n, c0n],
    [c0n, c0n, c0n, c0n, c0n, c0n, c0n, c0n, c0n],
    [c0n, c0n, c0n, c0n, c0n, c0n, c0n, c0n, c0n]],
   9, 9, .blue, false, none,
   [hqc 4 0 .red 5, hqc 4 8 .blue 5], [], 29⟩

def c4State30 : LightState :=
  ⟨true,
   [[c0n, c0n, c0n, c0n, c0n, c2b, c2b, c2b, c1b],
    [c0n, c0n, c0n, c0n, c0n, c2b, c3b, c3b, c0n],
    [c0n, c0n, c0n, c0n, c0n, c0n, c0n, c0n, c0n],
    [c0n, c0n, c0n, c0n, c0n, c0n, c0n, c3r, c0n],
    [c1r, c1r, c1r, c1r, c1r, c1r, c1r, c3r, c1b],
    [c0n, c0n, c0n, c0n, c0n, c0n, c0n, c3r, c0n],
    [c0n, c0n, c0n, c0n, c0n, c0n, c0n, c0n, c0n],
    [c0n, c0n, c0n, c0n, c0n, c0n, c0n, c0n, c0n],
    [c0n, c0n, c0n, c0n, c0n, c0n, c0n, c0n, c0n]],
   9, 9, .red, false, none,
   [hqc 4 0 .red 5, hqc 4 8 .blue 5], [], 30⟩

def c4State31 : LightState :=
  ⟨true,
   [[c0n, c0n, c0n, c0n, c0n, c2b, c2b, c2b, c1b],
    [c0n, c0n, c0n, c0n, c0n, c2b, c3b, c3b, c0n],
    [c0n, c0n, c0n, c0n, c0n, c0n, c0n, c0n, c0n],
    [c0n, c0n, c0n, c0n, c0n, c0n, c0n, c3r, c1r],
    [c1r, c1r, c1r, c1r, c1r, c1r, c1r, c3r, c1b],
    [c0n, c0n, c0n, c0n, c0n, c0n, c0n, c3r, c0n],
    [c0n, c0n, c0n, c0n, c0n, c0n, c0n, c0n, c0n],
    [c0n, c0n, c0n, c0n, c0n, c0n, c0n, c0n, c0n],
    [c0n, c0n, c0n, c0n, c0n, c0n, c0n, c0n, c0n]],
   9, 9, .blue, false, none,
   [hqc 4 0 .red 5, hqc 4 8 .blue 5], [], 31⟩

def c4State32 : LightState :=
  ⟨true,
   [[c0n, c0n, c0n, c0n, c0n, c2b, c2b, c2b, c1b],
    [c0n, c0n, c0n, c0n, c0n, c3b, c3b, c3b, c0n],
    [c0n, c0n, c0n, c0n, c0n, c0n, c0n, c0n, c0n],
    [c0n, c0n, c0n, c0n, c0n, c0n, c0n, c3r, c1r],
    [c1r, c1r, c1r, c1r, c1r, c1r, c1r, c3r, c1b],
    [c0n, c0n, c0n, c0n, c0n, c0n, c0n, c3r, c0n],
    [c0n, c0n, c0n, c0n, c0n, c0n, c0n, c0n, c0n],
    [c0n, c0n, c0n, c0n, c0n, c0n, c0n, c0n, c0n],
    [c0n, c0n, c0n, c0n, c0n, c0n, c0n, c0n, c0n]],
   9, 9, .red, false, none,
   [hqc 4 0 .red 5, hqc 4 8 .blue 5], [], 32⟩

def c4State33 : LightState :=
  ⟨true,
   [[c0n, c0n, c0n, c0n, c0n, c2b, c2b, c2b, c1b],
    [c0n, c0n, c0n, c0n, c0n, c3b, c3b, c3b, c0n],
    [c0n, c0n, c0n, c0n, c0n, c0n, c0n, c0n, c0n],
    [c0n, c0n, c0n, c0n, c0n, c0n, c0n, c3r, c2r],
    [c1r, c1r, c1r, c1r, c1r, c1r, c1r, c3r, c1b],
    [c0n, c0n, c0n, c0n, c0n, c0n, c0n, c3r, c0n],
    [c0n, c0n, c0n, c0n, c0n, c0n, c0n, c0n, c0n],
    [c0n, c0n, c0n, c0n, c0n, c0n, c0n, c0n, c0n],
    [c0n, c0n, c0n, c0n, c0n, c0n, c0n, c0n, c0n]],
   9, 9, .blue, false, none,
   [hqc 4 0 .red 5, hqc 4 8 .blue 5], [], 33⟩

def c4State34 : LightState :=
  ⟨true,
   [[c0n, c0n, c0n, c0n, c1b, c2b, c2b, c2b, c1b],
    [c0n, c0n, c0n, c0n, c0n, c3b, c3b, c3b, c0n],
    [c0n, c0n, c0n, c0n, c0n, c0n, c0n, c0n, c0n],
    [c0n, c0n, c0n, c0n, c0n, c0n, c0n, c3r, c2r],
    [c1r, c1r, c1r, c1r, c1r, c1r, c1r, c3r, c1b],
    [c0n, c0n, c0n, c0n, c0n, c0n, c0n, c3r, c0n],
    [c0n, c0n, c0n, c0n, c0n, c0n, c0n, c0n, c0n],
    [c0n, c0n, c0n, c0n, c0n, c0n, c0n, c0n, c0n],
    [c0n, c0n, c0n, c0n, c0n, c0n, c0n, c0n, c0n]],
   9, 9, .red, false, none,
   [hqc 4 0 .red 5, hqc 4 8 .blue 5], [], 34⟩

def c4State35 : LightState :=
  ⟨true,
   [[c0n, c0n, c0n, c0n, c1b, c2b, c2b, c2b, c1b],
    [c0n, c0n, c0n, c0n, c0n, c3b, c3b, c3b, c0n],
    [c0n, c0n, c0n, c0n, c0n, c0n, c0n, c0n, c0n],
    [c0n, c0n, c0n, c0n, c0n, c0n, c0n, c3r, c2r],
    [c1r, c1r, c1r, c1r, c1r, c1r, c1r, c3r, c1b],
    [c0n, c0n, c0n, c0n, c0n, c0n, c0n, c3r, c1r],
    [c0n, c0n, c0n, c0n, c0n, c0n, c0n, c0n, c0n],
    [c0n, c0n, c0n, c0n, c0n, c0n, c0n, c0n, c0n],
    [c0n, c0n, c0n, c0n, c0n, c0n, c0n, c0n, c0n]],
   9, 9, .blue, false, none,
   [hqc 4 0 .red 5, hqc 4 8 .blue 5], [], 35⟩

def c4State36 : LightState :=
  ⟨true,
   [[c0n, c0n, c0n, c0n, c2b, c2b, c2b, c2b, c1b],
    [c0n, c0n, c0n, c0n, c0n, c3b, c3b, c3b, c0n],
    [c0n, c0n, c0n, c0n, c0n, c0n, c0n, c0n, c0n],
    [c0n, c0n, c0n, c0n, c0n, c0n, c0n, c3r, c2r],
    [c1r, c1r, c1r, c1r, c1r, c1r, c1r, c3r, c1b],
    [c0n, c0n, c0n, c0n, c0n, c0n, c0n, c3r, c1r],
    [c0n, c0n, c0n, c0n, c0n, c0n, c0n, c0n, c0n],
    [c0n, c0n, c0n, c0n, c0n, c0n, c0n, c0n, c0n],
    [c0n, c0n, c0n, c0n, c0n, c0n, c0n, c0n, c0n]],
   9, 9, .red, false, none,
   [hqc 4 0 .red 5, hqc 4 8 .blue 5], [], 36⟩

def c4State37 : LightState :=
  ⟨true,
   [[c0n, c0n, c0n, c0n, c2b, c2b, c2b, c2b, c1b],
    [c0n, c0n, c0n, c0n, c0n, c3b, c3b, c3b, c0n],
    [c0n, c0n, c0n, c0n, c0n, c0n, c0n, c0n, c0n],
    [c0n, c0n, c0n, c0n, c0n, c0n, c0n, c3r, c2r],
    [c1r, c1r, c1r, c1r, c1r, c1r, c1r, c3r, c1b],
    [c0n, c0n, c0n, c0n, c0n, c0n, c0n, c3r, c2r],
    [c0n, c0n, c0n, c0n, c0n, c0n, c0n, c0n, c0n],
    [c0n, c0n, c0n, c0n, c0n, c0n, c0n, c0n, c0n],
    [c0n, c0n, c0n, c0n, c0n, c0n, c0n, c0n, c0n]],
   9, 9, .blue, false, none,
   [hqc 4 0 .red 5, hqc 4 8 .blue 5], [], 37⟩

def c4State38 : LightState :=
  ⟨true,
   [[c0n, c0n, c0n, c0n, c2b, c2b, c2b, c2b, c1b],
    [c0n, c0n, c0n, c0n, c1b, c3b, c3b, c3b, c0n],
    [c0n, c0n, c0n, c0n, c0n, c0n, c0n, c0n, c0n],
    [c0n, c0n, c0n, c0n, c0n, c0n, c0n, c3r, c2r],
    [c1r, c1r, c1r, c1r, c1r, c1r, c1r, c3r, c1b],
    [c0n, c0n, c0n, c0n, c0n, c0n, c0n, c3r, c2r],
    [c0n, c0n, c0n, c0n, c0n, c0n, c0n, c0n, c0n],
    [c0n, c0n, c0n, c0n, c0n, c0n, c0n, c0n, c0n],
    [c0n, c0n, c0n, c0n, c0n, c0n, c0n, c0n, c0n]],
   9, 9, .red, false, none,
   [hqc 4 0 .red 5, hqc 4 8 .blue 5], [], 38⟩

def c4State39 : LightState :=
  ⟨true,
   [[c0n, c0n, c0n, c0n, c2b, c2b, c2b, c2b, c1b],
    [c0n, c0n, c0n, c0n, c1b, c3b, c3b, c3b, c0n],
    [c0n, c0n, c0n, c0n, c0n, c0n, c0n, c1r, c1r],
    [c0n, c0n, c0n, c0n, c0n, c0n, c1r, c1r, c1r],
    [c1r, c1r, c1r, c1r, c1r, c1r, c2r, c1r, c1b],
    [c0n, c0n, c0n, c0n, c0n, c0n, c1r, c1r, c0n],
    [c0n, c0n, c0n, c0n, c0n, c0n, c0n, c1r, c1r],
    [c0n, c0n, c0n, c0n, c0n, c0n, c0n, c0n, c0n],
    [c0n, c0n, c0n, c0n, c0n, c0n, c0n, c0n, c0n]],
   9, 9, .blue, false, none,
   [hqc 4 0 .red 5, hqc 4 8 .blue 2], [], 39⟩

def c4State40 : LightState :=
  ⟨true,
   [[c0n, c0n, c0n, c0n, c2b, c2b, c2b, c2b, c1b],
    [c0n, c0n, c0n, c0n, c2b, c3b, c3b, c3b, c0n],
    [c0n, c0n, c0n, c0n, c0n, c0n, c0n, c1r, c1r],
    [c0n, c0n, c0n, c0n, c0n, c0n, c1r, c1r, c1r],
    [c1r, c1r, c1r, c1r, c1r, c1r, c2r, c1r, c1b],
    [c0n, c0n, c0n, c0n, c0n, c0n, c1r, c1r, c0n],
    [c0n, c0n, c0n, c0n, c0n, c0n, c0n, c1r, c1r],
    [c0n, c0n, c0n, c0n, c0n, c0n, c0n, c0n, c0n],
    [c0n, c0n, c0n, c0n, c0n, c0n, c0n, c0n, c0n]],
   9, 9, .red, false, none,
   [hqc 4 0 .red 5, hqc 4 8 .blue 2], [], 40⟩

def c4State41 : LightState :=
  ⟨true,
   [[c0n, c0n, c0n, c0n, c2b, c2b, c2b, c2b, c1b],
    [c0n, c0n, c0n, c0n, c2b, c3b, c3b, c3b, c0n],
    [c0n, c0n, c0n, c0n, c0n, c0n, c0n, c1r, c1r],
    [c0n, c0n, c0n, c0n, c0n, c0n, c1r, c1r, c2r],
    [c1r, c1r, c1r, c1r, c1r, c1r, c2r, c1r, c1b],
    [c0n, c0n, c0n, c0n, c0n, c0n, c1r, c1r, c0n],
    [c0n, c0n, c0n, c0n, c0n, c0n, c0n, c1r, c1r],
    [c0n, c0n, c0n, c0n, c0n, c0n, c0n, c0n, c0n],
    [c0n, c0n, c0n, c0n, c0n, c0n, c0n, c0n, c0n]],
   9, 9, .blue, false, none,
   [hqc 4 0 .red 5, hqc 4 8 .blue 2], [], 41⟩

def c4State42 : LightState :=
  ⟨true,
   [[c0n, c0n, c0n, c0n, c2b, c2b, c2b, c2b, c1b],
    [c0n, c0n, c0n, c0n, c3b, c3b, c3b, c3b, c0n],
    [c0n, c0n, c0n, c0n, c0n, c0n, c0n, c1r, c1r],
    [c0n, c0n, c0n, c0n, c0n, c0n, c1r, c1r, c2r],
    [c1r, c1r, c1r, c1r, c1r, c1r, c2r, c1r, c1b],
    [c0n, c0n, c0n, c0n, c0n, c0n, c1r, c1r, c0n],
    [c0n, c0n, c0n, c0n, c0n, c0n, c0n, c1r, c1r],
    [c0n, c0n, c0n, c0n, c0n, c0n, c0n, c0n, c0n],
    [c0n, c0n, c0n, c0n, c0n, c0n, c0n, c0n, c0n]],
   9, 9, .red, false, none,
   [hqc 4 0 .red 5, hqc 4 8 .blue 2], [], 42⟩

def c4State43 : LightState :=
  ⟨true,
   [[c0n, c0n, c0n, c0n, c2b, c2b, c2b, c2b, c1b],
    [c0n, c0n, c0n, c0n, c3b, c3b, c3b, c3b, c0n],
    [c0n, c0n, c0n, c0n, c0n, c0n, c0n, c1r, c1r],
    [c0n, c0n, c0n, c0n, c0n, c0n, c1r, c2r, c2r],
    [c1r, c1r, c1r, c1r, c1r, c1r, c2r, c1r, c1b],
    [c0n, c0n, c0n, c0n, c0n, c0n, c1r, c1r, c0n],
    [c0n, c0n, c0n, c0n, c0n, c0n, c0n, c1r, c1r],
    [c0n, c0n, c0n, c0n, c0n, c0n, c0n, c0n, c0n],
    [c0n, c0n, c0n, c0n, c0n, c0n, c0n, c0n, c0n]],
   9, 9, .blue, false, none,
   [hqc 4 0 .red 5, hqc 4 8 .blue 2], [], 43⟩

def c4State44 : LightState :=
  ⟨true,
   [[c0n, c0n, c0n, c1b, c2b, c2b, c2b, c2b, c1b],
    [c0n, c0n, c0n, c0n, c3b, c3b, c3b, c3b, c0n],
    [c0n, c0n, c0n, c0n, c0n, c0n, c0n, c1r, c1r],
    [c0n, c0n, c0n, c0n, c0n, c0n, c1r, c2r, c2r],
    [c1r, c1r, c1r, c1r, c1r, c1r, c2r, c1r, c1b],
    [c0n, c0n, c0n, c0n, c0n, c0n, c1r, c1r, c0n],
    [c0n, c0n, c0n, c0n, c0n, c0n, c0n, c1r, c1r],
    [c0n, c0n, c0n, c0n, c0n, c0n, c0n, c0n, c0n],
    [c0n, c0n, c0n, c0n, c0n, c0n, c0n, c0n, c0n]],
   9, 9, .red, false, none,
   [hqc 4 0 .red 5, hqc 4 8 .blue 2], [], 44⟩

def c4State45 : LightState :=
  ⟨true,
   [[c0n, c0n, c0n, c1b, c2b, c2b, c2b, c2b, c1b],
    [c0n, c0n, c0n, c0n, c3b, c3b, c3b, c3b, c0n],
    [c0n, c0n, c0n, c0n, c0n, c0n, c0n, c1r, c1r],
    [c0n, c0n, c0n, c0n, c0n, c0n, c1r, c3r, c2r],
    [c1r, c1r, c1r, c1r, c1r, c1r, c2r, c1r, c1b],
    [c0n, c0n, c0n, c0n, c0n, c0n, c1r, c1r, c0n],
    [c0n, c0n, c0n, c0n, c0n, c0n, c0n, c1r, c1r],
    [c0n, c0n, c0n, c0n, c0n, c0n, c0n, c0n, c0n],
    [c0n, c0n, c0n, c0n, c0n, c0n, c0n, c0n, c0n]],
   9, 9, .blue, false, none,
   [hqc 4 0 .red 5, hqc 4 8 .blue 2], [], 45⟩

def c4State46 : LightState :=
  ⟨true,
   [[c0n, c0n, c0n, c2b, c2b, c2b, c2b, c2b, c1b],
    [c0n, c0n, c0n, c0n, c3b, c3b, c3b, c3b, c0n],
    [c0n, c0n, c0n, c0n, c0n, c0n, c0n, c1r, c1r],
    [c0n, c0n, c0n, c0n, c0n, c0n, c1r, c3r, c2r],
    [c1r, c1r, c1r, c1r, c1r, c1r, c2r, c1r, c1b],
    [c0n, c0n, c0n, c0n, c0n, c0n, c1r, c1r, c0n],
    [c0n, c0n, c0n, c0n, c0n, c0n, c0n, c1r, c1r],
    [c0n, c0n, c0n, c0n, c0n, c0n, c0n, c0n, c0n],
    [c0n, c0n, c0n, c0n, c0n, c0n, c0n, c0n, c0n]],
   9, 9, .red, false, none,
   [hqc 4 0 .red 5, hqc 4 8 .blue 2], [], 46⟩

def c4State47 : LightState :=
  ⟨true,
   [[c0n, c0n, c0n, c2b, c2b, c2b, c2b, c2b, c1b],
    [c0n, c0n, c0n, c0n, c3b, c3b, c3b, c3b, c0n],
    [c0n, c0n, c0n, c0n, c0n, c0n, c0n, c1r, c1r],
    [c0n, c0n, c0n, c0n, c0n, c0n, c1r, c3r, c2r],
    [c1r, c1r, c1r, c1r, c1r, c1r, c2r, c2r, c1b],
    [c0n, c0n, c0n, c0n, c0n, c0n, c1r, c1r, c0n],
    [c0n, c0n, c0n, c0n, c0n, c0n, c0n, c1r, c1r],
    [c0n, c0n, c0n, c0n, c0n, c0n, c0n, c0n, c0n],
    [c0n, c0n, c0n, c0n, c0n, c0n, c0n, c0n, c0n]],
   9, 9, .blue, false, none,
   [hqc 4 0 .red 5, hqc 4 8 .blue 2], [], 47⟩

def c4State48 : LightState :=
  ⟨true,
   [[c0n, c0n, c0n, c2b, c2b, c2b, c2b, c2b, c1b],
    [c0n, c0n, c0n, c1b, c3b, c3b, c3b, c3b, c0n],
    [c0n, c0n, c0n, c0n, c0n, c0n, c0n, c1r, c1r],
    [c0n, c0n, c0n, c0n, c0n, c0n, c1r, c3r, c2r],
    [c1r, c1r, c1r, c1r, c1r, c1r, c2r, c2r, c1b],
    [c0n, c0n, c0n, c0n, c0n, c0n, c1r, c1r, c0n],
    [c0n, c0n, c0n, c0n, c0n, c0n, c0n, c1r, c1r],
    [c0n, c0n, c0n, c0n, c0n, c0n, c0n, c0n, c0n],
    [c0n, c0n, c0n, c0n, c0n, c0n, c0n, c0n, c0n]],
   9, 9, .red, false, none,
   [hqc 4 0 .red 5, hqc 4 8 .blue 2], [], 48⟩

def c4State49 : LightState :=
  ⟨true,
   [[c0n, c0n, c0n, c2b, c2b, c2b, c2b, c2b, c1b],
    [c0n, c0n, c0n, c1b, c3b, c3b, c3b, c3b, c0n],
    [c0n, c0n, c0n, c0n, c0n, c0n, c0n, c1r, c1r],
    [c0n, c0n, c0n, c0n, c0n, c0n, c1r, c3r, c2r],
    [c1r, c1r, c1r, c1r, c1r, c1r, c2r, c3r, c1b],
    [c0n, c0n, c0n, c0n, c0n, c0n, c1r, c1r, c0n],
    [c0n, c0n, c0n, c0n, c0n, c0n, c0n, c1r, c1r],
    [c0n, c0n, c0n, c0n, c0n, c0n, c0n, c0n, c0n],
    [c0n, c0n, c0n, c0n, c0n, c0n, c0n, c0n, c0n]],
   9, 9, .blue, false, none,
   [hqc 4 0 .red 5, hqc 4 8 .blue 2], [], 49⟩

def c4State50 : LightState :=
  ⟨true,
   [[c0n, c0n, c0n, c2b, c2b, c2b, c2b, c2b, c1b],
    [c0n, c0n, c0n, c2b, c3b, c3b, c3b, c3b, c0n],
    [c0n, c0n, c0n, c0n, c0n, c0n, c0n, c1r, c1r],
    [c0n, c0n, c0n, c0n, c0n, c0n, c1r, c3r, c2r],
    [c1r, c1r, c1r, c1r, c1r, c1r, c2r, c3r, c1b],
    [c0n, c0n, c0n, c0n, c0n, c0n, c1r, c1r, c0n],
    [c0n, c0n, c0n, c0n, c0n, c0n, c0n, c1r, c1r],
    [c0n, c0n, c0n, c0n, c0n, c0n, c0n, c0n, c0n],
    [c0n, c0n, c0n, c0n, c0n, c0n, c0n, c0n, c0n]],
   9, 9, .red, false, none,
   [hqc 4 0 .red 5, hqc 4 8 .blue 2], [], 50⟩

def c4State51 : LightState :=
  ⟨true,
   [[c0n, c0n, c0n, c2b, c2b, c2b, c2b, c2b, c1b],
    [c0n, c0n, c0n, c2b, c3b, c3b, c3b, c3b, c0n],
    [c0n, c0n, c0n, c0n, c0n, c0n, c0n, c1r, c1r],
    [c0n, c0n, c0n, c0n, c0n, c0n, c1r, c3r, c2r],
    [c1r, c1r, c1r, c1r, c1r, c1r, c2r, c3r, c1b],
    [c0n, c0n, c0n, c0n, c0n, c0n, c1r, c2r, c0n],
    [c0n, c0n, c0n, c0n, c0n, c0n, c0n, c1r, c1r],
    [c0n, c0n, c0n, c0n, c0n, c0n, c0n, c0n, c0n],
    [c0n, c0n, c0n, c0n, c0n, c0n, c0n, c0n, c0n]],
   9, 9, .blue, false, none,
   [hqc 4 0 .red 5, hqc 4 8 .blue 2], [], 51⟩

def c4State52 : LightState :=
  ⟨true,
   [[c0n, c0n, c0n, c2b, c2b, c2b, c2b, c2b, c1b],
    [c0n, c0n, c0n, c3b, c3b, c3b, c3b, c3b, c0n],
    [c0n, c0n, c0n, c0n, c0n, c0n, c0n, c1r, c1r],
    [c0n, c0n, c0n, c0n, c0n, c0n, c1r, c3r, c2r],
    [c1r, c1r, c1r, c1r, c1r, c1r, c2r, c3r, c1b],
    [c0n, c0n, c0n, c0n, c0n, c0n, c1r, c2r, c0n],
    [c0n, c0n, c0n, c0n, c0n, c0n, c0n, c1r, c1r],
    [c0n, c0n, c0n, c0n, c0n, c0n, c0n, c0n, c0n],
    [c0n, c0n, c0n, c0n, c0n, c0n, c0n, c0n, c0n]],
   9, 9, .red, false, none,
   [hqc 4 0 .red 5, hqc 4 8 .blue 2], [], 52⟩

def c4State53 : LightState :=
  ⟨true,
   [[c0n, c0n, c0n, c2b, c2b, c2b, c2b, c2b, c1b],
    [c0n, c0n, c0n, c3b, c3b, c3b, c3b, c3b, c0n],
    [c0n, c0n, c0n, c0n, c0n, c0n, c0n, c1r, c1r],
    [c0n, c0n, c0n, c0n, c0n, c0n, c1r, c3r, c2r],
    [c1r, c1r, c1r, c1r, c1r, c1r, c2r, c3r, c1b],
    [c0n, c0n, c0n, c0n, c0n, c0n, c1r, c3r, c0n],
    [c0n, c0n, c0n, c0n, c0n, c0n, c0n, c1r, c1r],
    [c0n, c0n, c0n, c0n, c0n, c0n, c0n, c0n, c0n],
    [c0n, c0n, c0n, c0n, c0n, c0n, c0n, c0n, c0n]],
   9, 9, .blue, false, none,
   [hqc 4 0 .red 5, hqc 4 8 .blue 2], [], 53⟩

def c4State54 : LightState :=
  ⟨true,
   [[c0n, c0n, c1b, c2b, c2b, c2b, c2b, c2b, c1b],
    [c0n, c0n, c0n, c3b, c3b, c3b, c3b, c3b, c0n],
    [c0n, c0n, c0n, c0n, c0n, c0n, c0n, c1r, c1r],
    [c0n, c0n, c0n, c0n, c0n, c0n, c1r, c3r, c2r],
    [c1r, c1r, c1r, c1r, c1r, c1r, c2r, c3r, c1b],
    [c0n, c0n, c0n, c0n, c0n, c0n, c1r, c3r, c0n],
    [c0n, c0n, c0n, c0n, c0n, c0n, c0n, c1r, c1r],
    [c0n, c0n, c0n, c0n, c0n, c0n, c0n, c0n, c0n],
    [c0n, c0n, c0n, c0n, c0n, c0n, c0n, c0n, c0n]],
   9, 9, .red, false, none,
   [hqc 4 0 .red 5, hqc 4 8 .blue 2], [], 54⟩

def c4State55 : LightState :=
  ⟨true,
   [[c0n, c0n, c1b, c2b, c2b, c2b, c2b, c2b, c1b],
    [c0n, c0n, c0n, c3b, c3b, c3b, c3b, c3b, c0n],
    [c0n, c0n, c0n, c0n, c0n, c0n, c0n, c1r, c1r],
    [c0n, c0n, c0n, c0n, c0n, c0n, c1r, c3r, c2r],
    [c1r, c1r, c1r, c1r, c1r, c1r, c2r, c3r, c1b],
    [c0n, c0n, c0n, c0n, c0n, c0n, c1r, c3r, c1r],
    [c0n, c0n, c0n, c0n, c0n, c0n, c0n, c1r, c1r],
    [c0n, c0n, c0n, c0n, c0n, c0n, c0n, c0n, c0n],
    [c0n, c0n, c0n, c0n, c0n, c0n, c0n, c0n, c0n]],
   9, 9, .blue, false, none,
   [hqc 4 0 .red 5, hqc 4 8 .blue 2], [], 55⟩

def c4State56 : LightState :=
  ⟨true,
   [[c0n, c0n, c2b, c2b, c2b, c2b, c2b, c2b, c1b],
    [c0n, c0n, c0n, c3b, c3b, c3b, c3b, c3b, c0n],
    [c0n, c0n, c0n, c0n, c0n, c0n, c0n, c1r, c1r],
    [c0n, c0n, c0n, c0n, c0n, c0n, c1r, c3r, c2r],
    [c1r, c1r, c1r, c1r, c1r, c1r, c2r, c3r, c1b],
    [c0n, c0n, c0n, c0n, c0n, c0n, c1r, c3r, c1r],
    [c0n, c0n, c0n, c0n, c0n, c0n, c0n, c1r, c1r],
    [c0n, c0n, c0n, c0n, c0n, c0n, c0n, c0n, c0n],
    [c0n, c0n, c0n, c0n, c0n, c0n, c0n, c0n, c0n]],
   9, 9, .red, false, none,
   [hqc 4 0 .red 5, hqc 4 8 .blue 2], [], 56⟩

def c4State57 : LightState :=
  ⟨true,
   [[c0n, c0n, c2b, c2b, c2b, c2b, c2b, c2b, c1b],
    [c0n, c0n, c0n, c3b, c3b, c3b, c3b, c3b, c0n],
    [c0n, c0n, c0n, c0n, c0n, c0n, c0n, c1r, c1r],
    [c0n, c0n, c0n, c0n, c0n, c0n, c1r, c3r, c2r],
    [c1r, c1r, c1r, c1r, c1r, c1r, c2r, c3r, c1b],
    [c0n, c0n, c0n, c0n, c0n, c0n, c1r, c3r, c2r],
    [c0n, c0n, c0n, c0n, c0n, c0n, c0n, c1r, c1r],
    [c0n, c0n, c0n, c0n, c0n, c0n, c0n, c0n, c0n],
    [c0n, c0n, c0n, c0n, c0n, c0n, c0n, c0n, c0n]],
   9, 9, .blue, false, none,
   [hqc 4 0 .red 5, hqc 4 8 .blue 2], [], 57⟩

def c4State58 : LightState :=
  ⟨true,
   [[c0n, c0n, c2b, c2b, c2b, c2b, c2b, c2b, c1b],
    [c0n, c0n, c1b, c3b, c3b, c3b, c3b, c3b, c0n],
    [c0n, c0n, c0n, c0n, c0n, c0n, c0n, c1r, c1r],
    [c0n, c0n, c0n, c0n, c0n, c0n, c1r, c3r, c2r],
    [c1r, c1r, c1r, c1r, c1r, c1r, c2r, c3r, c1b],
    [c0n, c0n, c0n, c0n, c0n, c0n, c1r, c3r, c2r],
    [c0n, c0n, c0n, c0n, c0n, c0n, c0n, c1r, c1r],
    [c0n, c0n, c0n, c0n, c0n, c0n, c0n, c0n, c0n],
    [c0n, c0n, c0n, c0n, c0n, c0n, c0n, c0n, c0n]],
   9, 9, .red, false, none,
   [hqc 4 0 .red 5, hqc 4 8 .blue 2], [], 58⟩

def c4State59 : LightState :=
  ⟨true,
   [[c0n, c0n, c2b, c2b, c2b, c2b, c2b, c2b, c1b],
    [c0n, c0n, c1b, c3b, c3b, c3b, c3b, c3b, c0n],
    [c0n, c0n, c0n, c0n, c0n, c0n, c0n, c2r, c2r],
    [c0n, c0n, c0n, c0n, c0n, c0n, c2r, c1r, c1r],
    [c1r, c1r, c1r, c1r, c1r, c1r, c3r, c1r, c1b],
    [c0n, c0n, c0n, c0n, c0n, c0n, c2r, c1r, c0n],
    [c0n, c0n, c0n, c0n, c0n, c0n, c0n, c2r, c2r],
    [c0n, c0n, c0n, c0n, c0n, c0n, c0n, c0n, c0n],
    [c0n, c0n, c0n, c0n, c0n, c0n, c0n, c0n, c0n]],
   9, 9, .red, true, (some .red),
   [hqc 4 0 .red 5, hqc 4 8 .blue (-1)], [], 59⟩


/-! Spec-side predicates (written from the specification's wording, for
comparison against the embedded code). -/

/-- Chebyshev adjacency of two distinct cells (distance exactly 1). -/
def chebAdjacent (r1 c1 r2 c2 : Nat) : Prop :=
  ¬(r1 = r2 ∧ c1 = c2) ∧ natDist r1 r2 ≤ 1 ∧ natDist c1 c2 ≤ 1

instance (r1 c1 r2 c2 : Nat) : Decidable (chebAdjacent r1 c1 r2 c2) := by
  unfold chebAdjacent; infer_instance

/-- The HQ line of the spec: the HQ's column when it sits on the left or
right edge, its row when it sits on the top or bottom edge. -/
def specHQLine (rows cols : Nat) (hq : HQCell) (row col : Nat) : Prop :=
  if hq.col = 0 ∨ hq.col = cols - 1 then col = hq.col else row = hq.row

instance (rows cols : Nat) (hq : HQCell) (row col : Nat) :
    Decidable (specHQLine rows cols hq row col) := by
  unfold specHQLine; infer_instance

/-- Base-mode legality as the spec words it, for the player's HQ `hq`:
not an HQ cell, unowned or own cell, and on the HQ line or
Chebyshev-adjacent to the HQ or Chebyshev-adjacent to an occupied own
cell. -/
def isLegalMoveSpecBase (s : GameState) (hq : HQCell) (row col : Nat) : Prop :=
  ¬ isHQat s.hqs row col ∧
  ((getCell s.grid row col).player = none ∨
    (getCell s.grid row col).player = some s.currentPlayer) ∧
  (specHQLine s.rows s.cols hq row col ∨
   chebAdjacent row col hq.row hq.col ∨
   ∃ r' < s.rows, ∃ c' < s.cols,
     (getCell s.grid r' c').player = some s.currentPlayer ∧ chebAdjacent row col r' c')

instance (s : GameState) (hq : HQCell) (row col : Nat) :
    Decidable (isLegalMoveSpecBase s hq row col) := by
  unfold isLegalMoveSpecBase; infer_instance

/-! Small concrete states used by counterexamples and witnesses. -/

/-- A classic-mode 2×2 state whose cell (0,0) belongs to blue; placing
red there is illegal. -/
def sC1 : GameState :=
  ⟨false, [[c1b, c0n], [c0n, c0n]], 2, 2, Player.red, false, none, [], [], []⟩

/-- A fully occupied classic-mode 2×2 board: one more red unit at (0,0)
starts a chain reaction that never stops (5 units on a board whose cells
hold at most 1 below critical mass). -/
def sat2x2 : GameState :=
  ⟨false, [[c1r, c1r], [c1r, c1r]], 2, 2, Player.red, false, none, [], [], []⟩

/-- Cascade configuration reached from `sat2x2` right after the
placement: the placed corner is queued. -/
def c3CfgD : Grid × List HQCell × List (Nat × Nat) :=
  ([[c2r, c1r], [c1r, c1r]], [], [(0, 0)])

/-- One explosion later. -/
def c3CfgA : Grid × List HQCell × List (Nat × Nat) :=
  ([[c0n, c2r], [c2r, c1r]], [], [(0, 1), (1, 0)])

/-- Two explosions later. -/
def c3CfgB : Grid × List HQCell × List (Nat × Nat) :=
  ([[c1r, c0n], [c2r, c2r]], [], [(1, 0), (1, 1)])

/-- Three explosions later. -/
def c3CfgC : Grid × List HQCell × List (Nat × Nat) :=
  ([[c2r, c0n], [c0n, c3r]], [], [(1, 1), (0, 0)])

/-- A classic-mode 3×3 board with the corner (0,0) one unit below its
critical mass: the next placement there explodes and the cascade drains. -/
def s3x3 : GameState :=
  ⟨false, [[c1r, c0n, c0n], [c0n, c0n, c0n], [c0n, c0n, c0n]],
   3, 3, Player.red, false, none, [], [], []⟩

/-- A base-mode 2×2 state whose blue HQ is already dead: any resolved
move must report red as the winner. -/
def sC5 : GameState :=
  ⟨true, [[c1r, c0n], [c0n, c1b]], 2, 2, Player.red, false, none,
   [hqc 0 0 Player.red 5, hqc 1 1 Player.blue 0], [], []⟩

/-- An empty classic-mode 2×2 state for the undo round-trip witness. -/
def sC9 : GameState :=
  ⟨false, [[c0n, c0n], [c0n, c0n]], 2, 2, Player.red, false, none, [], [], []⟩

/-- A base-mode 3×3 state with a Diamond power-up at (1,1) and mixed
ownership on row 1. -/
def sC8 : GameState :=
  ⟨true, [[c0n, c0n, c0n], [c1r, c0n, c1b], [c0n, c0n, c0n]],
   3, 3, Player.red, false, none, [hqc 0 0 Player.red 5, hqc 2 2 Player.blue 5],
   [⟨1, 1, some PUKind.diamond⟩], []⟩

/-- The state reached from `sC5` by the legal red move at (0,1)
(computed by evaluation): blue's dead HQ makes red the winner. -/
def sC5x : GameState :=
  ⟨true, [[c1r, c1r], [c0n, c1b]], 2, 2, Player.red, true, some Player.red,
   [hqc 0 0 Player.red 5, hqc 1 1 Player.blue 0], [],
   [⟨[[c1r, c0n], [c0n, c1b]], Player.red, false, none,
     some ⟨[hqc 0 0 Player.red 5, hqc 1 1 Player.blue 0], []⟩⟩]⟩

/-- The state reached from `sC9` by the legal red move at (0,0)
(computed by evaluation). -/
def sC9x : GameState :=
  ⟨false, [[c1r, c0n], [c0n, c0n]], 2, 2, Player.blue, false, none, [], [],
   [⟨[[c0n, c0n], [c0n, c0n]], Player.red, false, none, none⟩]⟩

/-! Helper lemmas about grid access and update. -/

theorem getD_set_ne {α : Type} (l : List α) (i j : Nat) (a d : α) (h : i ≠ j) :
    (l.set i a).getD j d = l.getD j d := by
  induction l generalizing i j with
  | nil => cases i <;> rfl
  | cons x xs ih =>
    cases i with
    | zero => cases j with
      | zero => exact absurd rfl h
      | succ j' => rfl
    | succ i' => cases j with
      | zero => rfl
      | succ j' => exact ih i' j' (fun hh => h (by omega))

theorem getD_set_self {α : Type} (l : List α) (i : Nat) (a d : α) (h : i < l.length) :
    (l.set i a).getD i d = a := by
  induction l generalizing i with
  | nil => simp at h
  | cons x xs ih =>
    cases i with
    | zero => rfl
    | succ i' => exact ih i' (by simpa using h)

theorem getCell_setCell_ne (g : Grid) (r c x y : Nat) (v : GridCell)
    (h : ¬(x = r ∧ y = c)) : getCell (setCell g r c v) x y = getCell g x y := by
  unfold getCell setCell
  by_cases hr : x = r
  · subst hr
    have hy : y ≠ c := fun hc => h ⟨rfl, hc⟩
    by_cases hl : x < g.length
    · rw [getD_set_self g x _ _ hl, getD_set_ne _ c y _ _ (fun hh => hy hh.symm)]
    · rw [List.set_eq_of_length_le (by omega)]
  · rw [getD_set_ne g r x _ _ (fun hh => hr hh.symm)]

theorem getCell_setCell_self (g : Grid) (rows cols r c : Nat) (v : GridCell)
    (hwf : GridWf g rows cols) (hr : r < rows) (hc : c < cols) :
    getCell (setCell g r c v) r c = v := by
  unfold getCell setCell
  rw [getD_set_self g r _ _ (by rw [hwf.1]; exact hr)]
  rw [getD_set_self _ c _ _ (by rw [hwf.2 r hr]; exact hc)]

theorem GridWf_setCell (g : Grid) (rows cols r c : Nat) (v : GridCell)
    (hwf : GridWf g rows cols) : GridWf (setCell g r c v) rows cols := by
  unfold GridWf setCell
  constructor
  · rw [List.length_set]; exact hwf.1
  · intro i hi
    by_cases hir : i = r
    · subst hir
      by_cases hl : i < g.length
      · rw [getD_set_self g i _ _ hl, List.length_set]; exact hwf.2 i hi
      · rw [List.set_eq_of_length_le (by omega)]; exact hwf.2 i hi
    · rw [getD_set_ne g r i _ _ (fun hh => hir hh.symm)]; exact hwf.2 i hi

/-! Helper lemmas about neighbourhoods. -/

theorem natDist_le_iff (a b k : Nat) : natDist a b ≤ k ↔ a ≤ b + k ∧ b ≤ a + k := by
  unfold natDist; omega

theorem mem_ite_singleton {α : Type} (P : Prop) [Decidable P] (a x : α) :
    (a ∈ if P then [x] else []) ↔ P ∧ a = x := by
  split
  · simp_all
  · simp_all

theorem mem_getNeighbors (rows cols row col r' c' : Nat) :
    ((r', c') ∈ getNeighbors rows cols row col) ↔
      ((0 < row ∧ r' = row - 1 ∧ c' = col) ∨
       (col < cols - 1 ∧ r' = row ∧ c' = col + 1) ∨
       (row < rows - 1 ∧ r' = row + 1 ∧ c' = col) ∨
       (0 < col ∧ r' = row ∧ c' = col - 1)) := by
  unfold getNeighbors
  simp only [List.mem_append, mem_ite_singleton, Prod.mk.injEq]
  tauto

theorem getNeighbors_center_not_mem (rows cols row col : Nat) :
    (row, col) ∉ getNeighbors rows cols row col := by
  rw [mem_getNeighbors]; omega

theorem getNeighbors_bounds (rows cols row col : Nat) (hrow : row < rows) (hcol : col < cols) :
    ∀ n ∈ getNeighbors rows cols row col, n.1 < rows ∧ n.2 < cols := by
  intro n hn
  obtain ⟨r', c'⟩ := n
  rw [mem_getNeighbors] at hn
  omega

theorem getNeighbors_nodup (rows cols row col : Nat) :
    (getNeighbors rows cols row col).Nodup := by
  unfold getNeighbors
  split <;> split <;> split <;> split <;>
    simp_all [List.Nodup, Prod.mk.injEq] <;> omega

theorem length_getNeighbors (rows cols row col : Nat) :
    (getNeighbors rows cols row col).length =
      (if 0 < row then 1 else 0) + (if col < cols - 1 then 1 else 0) +
      (if row < rows - 1 then 1 else 0) + (if 0 < col then 1 else 0) := by
  unfold getNeighbors
  split <;> split <;> split <;> split <;> simp_all

/-- C10 counterexample: on a degenerate 1×1 grid the corner critical
mass is 2 while the cell has no orthogonal neighbour at all, so the
claimed agreement with `getNeighbors` fails. -/
theorem c10_counterexample :
    calculateCriticalMass 0 0 1 1 = 2 ∧ (getNeighbors 1 1 0 0).length = 0 ∧
    calculateCriticalMass 0 0 1 1 ≠ (getNeighbors 1 1 0 0).length := by decide

/-- C10 (amended): `calculateCriticalMass` returns 2 at corners, 3 on
other border cells and 4 in the interior for every grid size, and it
equals the number of orthogonal in-bounds neighbours on every grid with
at least two rows and two columns; on a 9×9 board the sampled values are
2, 3 and 4. -/
theorem c10_criticalMass_neighbors :
    (∀ rows cols row col : Nat, row < rows → col < cols →
       calculateCriticalMass row col rows cols =
         (if (row = 0 ∨ row = rows - 1) ∧ (col = 0 ∨ col = cols - 1) then 2
          else if row = 0 ∨ row = rows - 1 ∨ col = 0 ∨ col = cols - 1 then 3 else 4)) ∧
    (∀ rows cols row col : Nat, 2 ≤ rows → 2 ≤ cols → row < rows → col < cols →
       calculateCriticalMass row col rows cols = (getNeighbors rows cols row col).length) ∧
    calculateCriticalMass 0 0 9 9 = 2 ∧ calculateCriticalMass 0 4 9 9 = 3 ∧
    calculateCriticalMass 4 4 9 9 = 4 := by
  refine ⟨?_, ?_, by decide, by decide, by decide⟩
  · intro rows cols row col _ _
    unfold calculateCriticalMass
    split_ifs <;> first | rfl | tauto
  · intro rows cols row col hrows hcols hrow hcol
    rw [length_getNeighbors]
    unfold calculateCriticalMass
    split_ifs <;> omega

/-- Witness for C10 (amended) at the 9×9 sample cells. -/
theorem c10_criticalMass_neighbors_witness :
    calculateCriticalMass 0 0 9 9 = (getNeighbors 9 9 0 0).length ∧
    calculateCriticalMass 0 4 9 9 = (getNeighbors 9 9 0 4).length ∧
    calculateCriticalMass 4 4 9 9 = (getNeighbors 9 9 4 4).length :=
  ⟨c10_criticalMass_neighbors.2.1 9 9 0 0 (by decide) (by decide) (by decide) (by decide),
   c10_criticalMass_neighbors.2.1 9 9 0 4 (by decide) (by decide) (by decide) (by decide),
   c10_criticalMass_neighbors.2.1 9 9 4 4 (by decide) (by decide) (by decide) (by decide)⟩

/-- C1 counterexample: `placeDot` itself never validates.  On a classic
2×2 board whose corner belongs to blue, placing red there is reported
illegal by `isValidMove`, yet `placeDot` happily captures the cell and
returns a changed state. -/
theorem c1_counterexample :
    isValidMove sC1 0 0 = false ∧
    (placeDot 10 settings2 noSpawnOracle sC1 0 0).map GameState.grid ≠ some sC1.grid ∧
    (placeDot 10 settings2 noSpawnOracle sC1 0 0).map GameState.history ≠ some sC1.history := by
  decide

/-- C1 (amended): the legality check lives in the caller, not in
`placeDot`: the page-level click handler forwards a move to `placeDot`
only after `isValidMove` approves it, so an illegal move leaves the
state exactly unchanged. -/
theorem c1_guarded_click_rejects (fuel : Nat) (st : Settings) (o : SpawnOracle)
    (ai : Bool) (s : GameState) (row col : Nat)
    (h : isValidMove s row col = false) :
    handleCellClick fuel st o ai s row col = some s := by
  unfold handleCellClick
  rw [if_neg]
  intro hcon
  rw [h] at hcon
  exact absurd hcon.2.1 (by simp)

/-- Witness for C1 (amended): the illegal corner move on `sC1` is a
no-op through the guarded click handler. -/
theorem c1_guarded_click_rejects_witness :
    handleCellClick 10 settings2 noSpawnOracle false sC1 0 0 = some sC1 :=
  c1_guarded_click_rejects 10 settings2 noSpawnOracle false sC1 0 0 (by decide)

/-- C7 counterexample: on a freshly initialised two-player base game the
store validator accepts the HQ-line cell (0,0) for red, while the AI
validator rejects it (it has no HQ-line rule once the player owns any
dots, and the HQ's own starting unit already counts as a dot). -/
theorem c7_counterexample :
    isValidMove (initBaseMode settings2) 0 0 = true ∧
    isValidMoveForAI (initBaseMode settings2).grid 0 0
      (initBaseMode settings2).currentPlayer (initBaseMode settings2).isBaseMode
      (some (initBaseMode settings2).hqs) = false := by
  decide

/-- C7 (amended): the two validators agree in classic mode (given the
same grid and acting player, and setting aside the store's game-over
short-circuit). -/
theorem c7_classic_agreement (s : GameState) (row col : Nat)
    (hgo : s.gameOver = false) (hclassic : s.isBaseMode = false) :
    isValidMoveForAI s.grid row col s.currentPlayer s.isBaseMode (some s.hqs) =
      isValidMove s row col := by
  unfold isValidMove isValidMoveForAI
  rw [hgo, hclassic]
  simp

/-- Witness for C7 (amended) on a concrete classic state. -/
theorem c7_classic_agreement_witness :
    isValidMoveForAI sC1.grid 0 0 sC1.currentPlayer sC1.isBaseMode (some sC1.hqs) =
      isValidMove sC1 0 0 :=
  c7_classic_agreement sC1 0 0 (by decide) (by decide)

/-- The saturated 2×2 cascade cycles through four configurations and
never drains, whatever the fuel. -/
theorem c3_cascade_cycle (fuel : Nat) :
    runCascade false Player.red 2 2 fuel c3CfgD = none ∧
    runCascade false Player.red 2 2 fuel c3CfgA = none ∧
    runCascade false Player.red 2 2 fuel c3CfgB = none ∧
    runCascade false Player.red 2 2 fuel c3CfgC = none := by
  induction fuel with
  | zero => exact ⟨rfl, rfl, rfl, rfl⟩
  | succ n ih =>
    exact ⟨(show runCascade false Player.red 2 2 (n + 1) c3CfgD =
              runCascade false Player.red 2 2 n c3CfgA from rfl).trans ih.2.1,
           (show runCascade false Player.red 2 2 (n + 1) c3CfgA =
              runCascade false Player.red 2 2 n c3CfgB from rfl).trans ih.2.2.1,
           (show runCascade false Player.red 2 2 (n + 1) c3CfgB =
              runCascade false Player.red 2 2 n c3CfgC from rfl).trans ih.2.2.2,
           (show runCascade false Player.red 2 2 (n + 1) c3CfgC =
              runCascade false Player.red 2 2 n c3CfgD from rfl).trans ih.1⟩

/-- C3 counterexample: on the fully occupied classic 2×2 board the move
at (0,0) is legal, yet the chain reaction never terminates: `placeDot`
fails to resolve for every fuel bound. -/
theorem c3_counterexample :
    isValidMove sat2x2 0 0 = true ∧
    ∀ fuel, placeDot fuel settings2 noSpawnOracle sat2x2 0 0 = none := by
  refine ⟨by decide, ?_⟩
  intro fuel
  show (Option.map _ (match runCascade false Player.red 2 2 fuel c3CfgD with
    | none => none
    | some gh => some (gh.1, gh.2,
        finishCore false settings2 noSpawnOracle false 2 2 Player.red 1 gh.1 gh.2 [])) :
      Option GameState) = none
  rw [(c3_cascade_cycle fuel).1]
  rfl

/-- C3 (amended): cascade resolution is not universally terminating, but
a move whose placement stays below the critical mass resolves at once
for any fuel, and a genuinely exploding move can drain, as the 3×3
corner explosion does: the corner empties and both neighbours end up
red with one unit each. -/
theorem c3_termination_partial :
    (∀ (fuel : Nat) (st : Settings) (o : SpawnOracle) (s : GameState) (row col : Nat),
       (getCell (applyPlacement st s.currentPlayer s.rows s.cols s.grid s.hqs
           s.powerUps row col).1 row col).atoms <
         calculateCriticalMass row col s.rows s.cols →
       ∃ s', placeDot fuel st o s row col = some s') ∧
    (placeDot 10 settings2 noSpawnOracle s3x3 0 0).map
        (fun s => (getCell s.grid 0 0, getCell s.grid 0 1, getCell s.grid 1 0)) =
      some (⟨0, none⟩, ⟨1, some Player.red⟩, ⟨1, some Player.red⟩) := by
  constructor
  · intro fuel st o s row col h
    rw [← Option.ne_none_iff_exists']
    dsimp only [placeDot, pushHistory, placeDotCore]
    have hneg : ¬ (calculateCriticalMass row col s.rows s.cols ≤
        (getCell (applyPlacement st s.currentPlayer s.rows s.cols s.grid s.hqs
          s.powerUps row col).1 row col).atoms) := by omega
    rw [if_neg hneg]
    simp
  · decide

/-- Witness for the no-explosion half of C3 (amended): an interior
placement on the 3×3 board resolves for any fuel. -/
theorem c3_termination_partial_witness :
    ∃ s', placeDot 10 settings2 noSpawnOracle s3x3 1 1 = some s' :=
  c3_termination_partial.1 10 settings2 noSpawnOracle s3x3 1 1 (by decide)

/-! Helper lemmas about `updateFirst` (the mutate-the-found-record
idiom of the source). -/

theorem updateFirst_eq_of_forall (pr : HQCell → Prop) [DecidablePred pr]
    (f : HQCell → HQCell) (l : List HQCell) (h : ∀ x ∈ l, ¬ pr x) :
    updateFirst pr f l = l := by
  induction l with
  | nil => rfl
  | cons a t ih =>
    unfold updateFirst
    rw [if_neg (h a (by simp))]
    rw [ih (fun x hx => h x (by simp [hx]))]

theorem updateFirst_append (pr : HQCell → Prop) [DecidablePred pr]
    (f : HQCell → HQCell) (l1 : List HQCell) (x : HQCell) (l2 : List HQCell)
    (h1 : ∀ y ∈ l1, ¬ pr y) (hx : pr x) :
    updateFirst pr f (l1 ++ x :: l2) = l1 ++ f x :: l2 := by
  induction l1 with
  | nil =>
    simp only [List.nil_append]
    unfold updateFirst
    rw [if_pos hx]
  | cons a t ih =>
    simp only [List.cons_append]
    unfold updateFirst
    rw [if_neg (h1 a (by simp))]
    rw [show updateFirst pr f (t ++ x :: l2) = t ++ f x :: l2 from
      ih (fun y hy => h1 y (by simp [hy]))]

theorem mem_updateFirst (pr : HQCell → Prop) [DecidablePred pr] (f : HQCell → HQCell)
    (l : List HQCell) (y : HQCell) (hy : y ∈ updateFirst pr f l) :
    y ∈ l ∨ ∃ x, l.find? (fun z => decide (pr z)) = some x ∧ y = f x := by
  induction l with
  | nil => simp [updateFirst] at hy
  | cons a t ih =>
    unfold updateFirst at hy
    by_cases ha : pr a
    · rw [if_pos ha] at hy
      rcases List.mem_cons.mp hy with h | h
      · exact Or.inr ⟨a, by simp [List.find?, ha], h⟩
      · exact Or.inl (List.mem_cons_of_mem a h)
    · rw [if_neg ha] at hy
      rcases List.mem_cons.mp hy with h | h
      · exact Or.inl (h ▸ List.mem_cons_self a t)
      · rcases ih h with h' | ⟨x, hf, hfx⟩
        · exact Or.inl (List.mem_cons_of_mem a h')
        · exact Or.inr ⟨x, by simp [List.find?, ha, hf], hfx⟩

theorem isHQat_updateFirst (pr : HQCell → Prop) [DecidablePred pr] (f : HQCell → HQCell)
    (hf : ∀ x, (f x).row = x.row ∧ (f x).col = x.col) (l : List HQCell) (r c : Nat) :
    isHQat (updateFirst pr f l) r c ↔ isHQat l r c := by
  induction l with
  | nil => rfl
  | cons a t ih =>
    unfold updateFirst
    by_cases ha : pr a
    · rw [if_pos ha]
      unfold isHQat
      simp only [List.mem_cons]
      constructor
      · rintro ⟨hq, h | h, hpos⟩
        · refine ⟨a, Or.inl rfl, ?_⟩
          rw [← (hf a).1, ← (hf a).2, ← h]
          exact hpos
        · exact ⟨hq, Or.inr h, hpos⟩
      · rintro ⟨hq, h | h, hpos⟩
        · refine ⟨f a, Or.inl rfl, ?_⟩
          rw [(hf a).1, (hf a).2, ← h]
          exact hpos
        · exact ⟨hq, Or.inr h, hpos⟩
    · rw [if_neg ha]
      unfold isHQat at ih ⊢
      simp only [List.mem_cons]
      constructor
      · rintro ⟨hq, h | h, hpos⟩
        · refine ⟨a, Or.inl rfl, ?_⟩
          rw [← h]
          exact hpos
        · obtain ⟨hq', hm, hp⟩ := ih.mp ⟨hq, h, hpos⟩
          exact ⟨hq', Or.inr hm, hp⟩
      · rintro ⟨hq, h | h, hpos⟩
        · refine ⟨a, Or.inl rfl, ?_⟩
          rw [← h]
          exact hpos
        · obtain ⟨hq', hm, hp⟩ := ih.mpr ⟨hq, h, hpos⟩
          exact ⟨hq', Or.inr hm, hp⟩

theorem isHQat_damageHQAt (nr nc : Nat) (p : Player) (hqs : List HQCell) (x y : Nat) :
    isHQat (damageHQAt nr nc p hqs) x y ↔ isHQat hqs x y := by
  unfold damageHQAt
  exact isHQat_updateFirst (fun hq => hq.row = nr ∧ hq.col = nc ∧ hq.player ≠ p)
    (fun hq => { hq with health := hq.health - 1 }) (fun _ => ⟨rfl, rfl⟩) hqs x y

/-! Helper lemmas about `distribute`. -/

theorem distribute_grid_not_mem (isBase : Bool) (p : Player) (rows cols : Nat)
    (ns : List (Nat × Nat)) (g : Grid) (hqs : List HQCell) (q : List (Nat × Nat))
    (x y : Nat) (h : (x, y) ∉ ns) :
    getCell (distribute isBase p rows cols ns g hqs q).1 x y = getCell g x y := by
  induction ns generalizing g hqs q with
  | nil => rfl
  | cons n rest ih =>
    have hne : ¬(x = n.1 ∧ y = n.2) := by
      rintro ⟨h1, h2⟩
      exact h (by rw [h1, h2]; simp)
    have hrest : (x, y) ∉ rest := fun hr => h (List.mem_cons_of_mem n hr)
    unfold distribute
    by_cases hc : isBase = true ∧ isHQat hqs n.1 n.2
    · rw [if_pos hc]
      exact ih _ _ _ hrest
    · rw [if_neg hc]
      rw [ih _ _ _ hrest]
      exact getCell_setCell_ne g n.1 n.2 x y _ hne

theorem distribute_grid_hq (isBase : Bool) (p : Player) (rows cols : Nat)
    (ns : List (Nat × Nat)) (g : Grid) (hqs : List HQCell) (q : List (Nat × Nat))
    (x y : Nat) (hb : isBase = true) (hx : isHQat hqs x y) :
    getCell (distribute isBase p rows cols ns g hqs q).1 x y = getCell g x y := by
  induction ns generalizing g hqs q with
  | nil => rfl
  | cons n rest ih =>
    unfold distribute
    by_cases hc : isBase = true ∧ isHQat hqs n.1 n.2
    · rw [if_pos hc]
      exact ih _ _ _ ((isHQat_damageHQAt n.1 n.2 p hqs x y).mpr hx)
    · rw [if_neg hc]
      have hne : ¬(x = n.1 ∧ y = n.2) := by
        rintro ⟨h1, h2⟩
        exact hc ⟨hb, by rw [← h1, ← h2]; exact hx⟩
      rw [ih _ _ _ hx]
      exact getCell_setCell_ne g n.1 n.2 x y _ hne

theorem distribute_wf (isBase : Bool) (p : Player) (rows cols : Nat)
    (ns : List (Nat × Nat)) (g : Grid) (hqs : List HQCell) (q : List (Nat × Nat))
    (hwf : GridWf g rows cols) :
    GridWf (distribute isBase p rows cols ns g hqs q).1 rows cols := by
  induction ns generalizing g hqs q with
  | nil => exact hwf
  | cons n rest ih =>
    unfold distribute
    by_cases hc : isBase = true ∧ isHQat hqs n.1 n.2
    · rw [if_pos hc]
      exact ih _ _ _ hwf
    · rw [if_neg hc]
      exact ih _ _ _ (GridWf_setCell g rows cols n.1 n.2 _ hwf)

theorem distribute_grid_mem (isBase : Bool) (p : Player) (rows cols : Nat)
    (ns : List (Nat × Nat)) (g : Grid) (hqs : List HQCell) (q : List (Nat × Nat))
    (x y : Nat) (hwf : GridWf g rows cols) (hx : x < rows) (hy : y < cols)
    (hnd : ns.Nodup) (hmem : (x, y) ∈ ns)
    (hnot : ¬(isBase = true ∧ isHQat hqs x y)) :
    getCell (distribute isBase p rows cols ns g hqs q).1 x y =
      ⟨(getCell g x y).atoms + 1, some p⟩ := by
  induction ns generalizing g hqs q with
  | nil => simp at hmem
  | cons n rest ih =>
    have hndr : rest.Nodup := (List.nodup_cons.mp hnd).2
    unfold distribute
    by_cases heq : (x, y) = n
    · have hn1 : n.1 = x := by rw [← heq]
      have hn2 : n.2 = y := by rw [← heq]
      have hcond : ¬(isBase = true ∧ isHQat hqs n.1 n.2) := by
        rw [hn1, hn2]; exact hnot
      rw [if_neg hcond]
      have hnr : (x, y) ∉ rest := by
        rw [heq]; exact (List.nodup_cons.mp hnd).1
      rw [distribute_grid_not_mem isBase p rows cols rest _ hqs _ x y hnr]
      rw [hn1, hn2]
      exact getCell_setCell_self g rows cols x y _ hwf hx hy
    · have hmr : (x, y) ∈ rest := by
        rcases List.mem_cons.mp hmem with h | h
        · exact absurd h heq
        · exact h
      by_cases hc : isBase = true ∧ isHQat hqs n.1 n.2
      · rw [if_pos hc]
        refine ih _ _ _ hwf hndr hmr ?_
        intro hcon
        exact hnot ⟨hcon.1, (isHQat_damageHQAt n.1 n.2 p hqs x y).mp hcon.2⟩
      · rw [if_neg hc]
        have hne : ¬(x = n.1 ∧ y = n.2) := by
          rintro ⟨h1, h2⟩
          exact heq (by rw [h1, h2])
        rw [ih _ _ _ (GridWf_setCell g rows cols n.1 n.2 _ hwf) hndr hmr hnot]
        rw [getCell_setCell_ne g n.1 n.2 x y _ hne]

theorem distribute_cons_hq (isBase : Bool) (p : Player) (rows cols : Nat)
    (n : Nat × Nat) (rest : List (Nat × Nat)) (g : Grid) (hqs : List HQCell)
    (q : List (Nat × Nat)) (hc : isBase = true ∧ isHQat hqs n.1 n.2) :
    distribute isBase p rows cols (n :: rest) g hqs q =
      distribute isBase p rows cols rest g (damageHQAt n.1 n.2 p hqs) q := by
  conv_lhs => unfold distribute
  rw [if_pos hc]

theorem distribute_cons_grid (isBase : Bool) (p : Player) (rows cols : Nat)
    (n : Nat × Nat) (rest : List (Nat × Nat)) (g : Grid) (hqs : List HQCell)
    (q : List (Nat × Nat)) (hc : ¬(isBase = true ∧ isHQat hqs n.1 n.2)) :
    distribute isBase p rows cols (n :: rest) g hqs q =
      distribute isBase p rows cols rest
        (setCell g n.1 n.2 ⟨(getCell g n.1 n.2).atoms + 1, some p⟩) hqs
        (if calculateCriticalMass n.1 n.2 rows cols ≤ (getCell g n.1 n.2).atoms + 1 ∧ (n ∉ q)
          then q ++ [n] else q) := by
  conv_lhs => unfold distribute
  rw [if_neg hc]

theorem distribute_queue (isBase : Bool) (p : Player) (rows cols : Nat)
    (ns : List (Nat × Nat)) (g : Grid) (hqs : List HQCell) (q : List (Nat × Nat))
    (hnd : ns.Nodup) (hqnd : q.Nodup) :
    (distribute isBase p rows cols ns g hqs q).2.2.Nodup ∧
    (∀ z : Nat × Nat, z ∈ (distribute isBase p rows cols ns g hqs q).2.2 ↔
      z ∈ q ∨ (z ∈ ns ∧ ¬(isBase = true ∧ isHQat hqs z.1 z.2) ∧
        calculateCriticalMass z.1 z.2 rows cols ≤ (getCell g z.1 z.2).atoms + 1)) := by
  induction ns generalizing g hqs q with
  | nil => exact ⟨hqnd, fun z => by unfold distribute; simp⟩
  | cons n rest ih =>
    have hnn : n ∉ rest := (List.nodup_cons.mp hnd).1
    have hndr : rest.Nodup := (List.nodup_cons.mp hnd).2
    by_cases hc : isBase = true ∧ isHQat hqs n.1 n.2
    · rw [distribute_cons_hq isBase p rows cols n rest g hqs q hc]
      obtain ⟨hn', hch⟩ := ih g (damageHQAt n.1 n.2 p hqs) q hndr hqnd
      refine ⟨hn', fun z => ?_⟩
      rw [hch z]
      simp only [isHQat_damageHQAt]
      by_cases hz : z = n
      · subst hz
        constructor
        · rintro (h | ⟨hm, _, _⟩)
          · exact Or.inl h
          · exact absurd hm hnn
        · rintro (h | ⟨_, hnot, _⟩)
          · exact Or.inl h
          · exact absurd hc hnot
      · constructor
        · rintro (h | ⟨hm, hnot, hcr⟩)
          · exact Or.inl h
          · exact Or.inr ⟨List.mem_cons_of_mem n hm, hnot, hcr⟩
        · rintro (h | ⟨hm, hnot, hcr⟩)
          · exact Or.inl h
          · rcases List.mem_cons.mp hm with h' | h'
            · exact absurd h' hz
            · exact Or.inr ⟨h', hnot, hcr⟩
    · rw [distribute_cons_grid isBase p rows cols n rest g hqs q hc]
      have hq'nd : (if calculateCriticalMass n.1 n.2 rows cols ≤
            (getCell g n.1 n.2).atoms + 1 ∧ (n ∉ q) then q ++ [n] else q).Nodup := by
        split
        · next hC =>
          rw [List.nodup_append]
          exact ⟨hqnd, List.nodup_singleton n, by simp [hC.2]⟩
        · exact hqnd
      obtain ⟨hn', hch⟩ := ih
        (setCell g n.1 n.2 ⟨(getCell g n.1 n.2).atoms + 1, some p⟩) hqs _ hndr hq'nd
      refine ⟨hn', fun z => ?_⟩
      rw [hch z]
      have hq'mem : (z ∈ (if calculateCriticalMass n.1 n.2 rows cols ≤
            (getCell g n.1 n.2).atoms + 1 ∧ (n ∉ q) then q ++ [n] else q)) ↔
          z ∈ q ∨ (z = n ∧ calculateCriticalMass n.1 n.2 rows cols ≤
            (getCell g n.1 n.2).atoms + 1) := by
        split
        · next hC =>
          simp only [List.mem_append, List.mem_singleton]
          constructor
          · rintro (h | h)
            · exact Or.inl h
            · exact Or.inr ⟨h, hC.1⟩
          · rintro (h | ⟨h, _⟩)
            · exact Or.inl h
            · exact Or.inr h
        · next hC =>
          push_neg at hC
          constructor
          · exact Or.inl
          · rintro (h | ⟨hzn, hcr⟩)
            · exact h
            · rw [hzn]
              exact hC hcr
      rw [hq'mem]
      by_cases hz : z = n
      · subst hz
        constructor
        · rintro ((h | ⟨_, hcr⟩) | ⟨hm, _, _⟩)
          · exact Or.inl h
          · exact Or.inr ⟨List.mem_cons_self z rest, hc, hcr⟩
          · exact absurd hm hnn
        · rintro (h | ⟨_, _, hcr⟩)
          · exact Or.inl (Or.inl h)
          · exact Or.inl (Or.inr ⟨rfl, hcr⟩)
      · have hgz : getCell (setCell g n.1 n.2
            ⟨(getCell g n.1 n.2).atoms + 1, some p⟩) z.1 z.2 = getCell g z.1 z.2 := by
          apply getCell_setCell_ne
          rintro ⟨h1, h2⟩
          exact hz (Prod.ext_iff.mpr ⟨h1, h2⟩)
        rw [hgz]
        constructor
        · rintro ((h | ⟨he, _⟩) | ⟨hm, hns, hcr⟩)
          · exact Or.inl h
          · exact absurd he hz
          · exact Or.inr ⟨List.mem_cons_of_mem n hm, hns, hcr⟩
        · rintro (h | ⟨hm, hns, hcr⟩)
          · exact Or.inl (Or.inl h)
          · rcases List.mem_cons.mp hm with h' | h'
            · exact absurd h' hz
            · exact Or.inr ⟨h', hns, hcr⟩

/-- C2: one dequeued explosion, for a cell still at or above critical
mass: exactly the critical mass is subtracted (owner cleared exactly
when the count reaches zero); every orthogonal in-bounds neighbour that
is not an HQ cell gains exactly one unit and is owned by the mover
whatever its previous owner; the queue stays duplicate-free, a non-HQ
neighbour is enqueued exactly when its new count reaches its critical
mass (or it was already queued), and no other cell is enqueued. -/
theorem c2_explosion_step (isBase : Bool) (p : Player) (rows cols : Nat) (g : Grid)
    (hqs : List HQCell) (rest : List (Nat × Nat)) (r c : Nat)
    (hwf : GridWf g rows cols) (hr : r < rows) (hc : c < cols)
    (hcrit : calculateCriticalMass r c rows cols ≤ (getCell g r c).atoms)
    (hnd : ((r, c) :: rest).Nodup) :
    (getCell (explodeCell isBase p rows cols g hqs rest r c).1 r c =
      ⟨(getCell g r c).atoms - calculateCriticalMass r c rows cols,
       if (getCell g r c).atoms - calculateCriticalMass r c rows cols = 0 then none
       else (getCell g r c).player⟩) ∧
    (∀ n ∈ getNeighbors rows cols r c, ¬(isBase = true ∧ isHQat hqs n.1 n.2) →
      getCell (explodeCell isBase p rows cols g hqs rest r c).1 n.1 n.2 =
        ⟨(getCell g n.1 n.2).atoms + 1, some p⟩) ∧
    (explodeCell isBase p rows cols g hqs rest r c).2.2.Nodup ∧
    (∀ n ∈ getNeighbors rows cols r c, ¬(isBase = true ∧ isHQat hqs n.1 n.2) →
      ((n ∈ (explodeCell isBase p rows cols g hqs rest r c).2.2) ↔ n ∈ rest ∨
        calculateCriticalMass n.1 n.2 rows cols ≤ (getCell g n.1 n.2).atoms + 1)) ∧
    (∀ z : Nat × Nat, z ∉ getNeighbors rows cols r c →
      ((z ∈ (explodeCell isBase p rows cols g hqs rest r c).2.2) ↔ z ∈ rest)) := by
  have hcnot : (r, c) ∉ getNeighbors rows cols r c := getNeighbors_center_not_mem rows cols r c
  have hnsnd : (getNeighbors rows cols r c).Nodup := getNeighbors_nodup rows cols r c
  have hrest : rest.Nodup := (List.nodup_cons.mp hnd).2
  have hexp : explodeCell isBase p rows cols g hqs rest r c =
      distribute isBase p rows cols (getNeighbors rows cols r c)
        (setCell g r c ⟨(getCell g r c).atoms - calculateCriticalMass r c rows cols,
          if (getCell g r c).atoms - calculateCriticalMass r c rows cols = 0 then none
          else (getCell g r c).player⟩) hqs rest := rfl
  have hwf1 : GridWf (setCell g r c ⟨(getCell g r c).atoms - calculateCriticalMass r c rows cols,
      if (getCell g r c).atoms - calculateCriticalMass r c rows cols = 0 then none
      else (getCell g r c).player⟩) rows cols := GridWf_setCell g rows cols r c _ hwf
  have hg1 : ∀ n ∈ getNeighbors rows cols r c,
      getCell (setCell g r c ⟨(getCell g r c).atoms - calculateCriticalMass r c rows cols,
        if (getCell g r c).atoms - calculateCriticalMass r c rows cols = 0 then none
        else (getCell g r c).player⟩) n.1 n.2 = getCell g n.1 n.2 := by
    intro n hn
    apply getCell_setCell_ne
    rintro ⟨h1, h2⟩
    apply hcnot
    have : n = (r, c) := Prod.ext_iff.mpr ⟨h1, h2⟩
    rw [← this]
    exact hn
  refine ⟨?_, ?_, ?_, ?_, ?_⟩
  · rw [hexp, distribute_grid_not_mem isBase p rows cols _ _ hqs rest r c hcnot]
    exact getCell_setCell_self g rows cols r c _ hwf hr hc
  · intro n hn hskip
    have hb := getNeighbors_bounds rows cols r c hr hc n hn
    rw [hexp, distribute_grid_mem isBase p rows cols _ _ hqs rest n.1 n.2 hwf1 hb.1 hb.2
      hnsnd hn hskip, hg1 n hn]
  · rw [hexp]
    exact (distribute_queue isBase p rows cols _ _ hqs rest hnsnd hrest).1
  · intro n hn hskip
    rw [hexp, (distribute_queue isBase p rows cols _ _ hqs rest hnsnd hrest).2 n, hg1 n hn]
    constructor
    · rintro (h | ⟨_, _, h⟩)
      · exact Or.inl h
      · exact Or.inr h
    · rintro (h | h)
      · exact Or.inl h
      · exact Or.inr ⟨hn, hskip, h⟩
  · intro z hz
    rw [hexp, (distribute_queue isBase p rows cols _ _ hqs rest hnsnd hrest).2 z]
    constructor
    · rintro (h | ⟨hm, _, _⟩)
      · exact h
      · exact absurd hm hz
    · exact Or.inl

/-- Witness for C2 at a concrete 2×2 explosion: the corner loses its
critical mass and empties, and the right-hand neighbour (blue-owned)
is captured with one extra unit. -/
theorem c2_explosion_step_witness :
    GridWf [[c2r, c1b], [c1r, c0n]] 2 2 ∧
    calculateCriticalMass 0 0 2 2 ≤ (getCell [[c2r, c1b], [c1r, c0n]] 0 0).atoms ∧
    getCell (explodeCell false Player.red 2 2 [[c2r, c1b], [c1r, c0n]] [] [] 0 0).1 0 0 =
      ⟨(getCell [[c2r, c1b], [c1r, c0n]] 0 0).atoms - calculateCriticalMass 0 0 2 2,
       if (getCell [[c2r, c1b], [c1r, c0n]] 0 0).atoms - calculateCriticalMass 0 0 2 2 = 0
       then none else (getCell [[c2r, c1b], [c1r, c0n]] 0 0).player⟩ ∧
    getCell (explodeCell false Player.red 2 2 [[c2r, c1b], [c1r, c0n]] [] [] 0 0).1 0 1 =
      ⟨(getCell [[c2r, c1b], [c1r, c0n]] 0 1).atoms + 1, some Player.red⟩ :=
  have h := c2_explosion_step false Player.red 2 2 [[c2r, c1b], [c1r, c0n]] [] [] 0 0
    (by decide) (by decide) (by decide) (by decide) (by decide)
  ⟨by decide, by decide, h.1, h.2.1 (0, 1) (by decide) (by decide)⟩

/-- The Heart effect never pushes any HQ above five health. -/
theorem heartEffect_health_le (np : Nat) (p : Player) (hqs : List HQCell)
    (h : ∀ hq ∈ hqs, hq.health ≤ 5) :
    ∀ hq ∈ heartEffect np p hqs, hq.health ≤ 5 := by
  intro hq hm
  unfold heartEffect at hm
  split at hm
  · rename_i own hfind
    split at hm
    · rename_i hlt
      unfold healOwnHQ at hm
      rcases mem_updateFirst _ _ _ _ hm with h' | ⟨x, hfx, hqx⟩
      · exact h hq h'
      · have hxo : x = own := by
          rw [hfind] at hfx
          exact (Option.some.inj hfx).symm
        rw [hqx, hxo]
        dsimp only
        omega
    · split at hm
      · exact h hq hm
      · unfold damageEnemyHQ at hm
        rcases mem_updateFirst _ _ _ _ hm with h' | ⟨x, hfx, hqx⟩
        · exact h hq h'
        · have hx := h x (List.mem_of_find?_eq_some hfx)
          rw [hqx]
          dsimp only
          omega
  · split at hm
    · exact h hq hm
    · unfold damageEnemyHQ at hm
      rcases mem_updateFirst _ _ _ _ hm with h' | ⟨x, hfx, hqx⟩
      · exact h hq h'
      · have hx := h x (List.mem_of_find?_eq_some hfx)
        rw [hqx]
        dsimp only
        omega

/-- C4 (amended): what is true of HQ health: a cascade step never
deposits a unit on an HQ cell (any owner's), Heart healing never pushes
health above five, and each cascade hit on the first matching enemy HQ
subtracts exactly one health — unconditionally, with no floor at zero. -/
theorem c4_hq_health_effects :
    (∀ (isBase : Bool) (p : Player) (rows cols : Nat) (g : Grid) (hqs : List HQCell)
       (rest : List (Nat × Nat)) (r c : Nat) (hq : HQCell), hq ∈ hqs → isBase = true →
       ¬(hq.row = r ∧ hq.col = c) →
       getCell (explodeCell isBase p rows cols g hqs rest r c).1 hq.row hq.col =
         getCell g hq.row hq.col) ∧
    (∀ (np : Nat) (p : Player) (hqs : List HQCell), (∀ hq ∈ hqs, hq.health ≤ 5) →
       ∀ hq ∈ heartEffect np p hqs, hq.health ≤ 5) ∧
    (∀ (nr nc : Nat) (p : Player) (l1 : List HQCell) (hq : HQCell) (l2 : List HQCell),
       (∀ y ∈ l1, ¬(y.row = nr ∧ y.col = nc ∧ y.player ≠ p)) →
       hq.row = nr → hq.col = nc → hq.player ≠ p →
       damageHQAt nr nc p (l1 ++ hq :: l2) =
         l1 ++ { hq with health := hq.health - 1 } :: l2) := by
  refine ⟨?_, heartEffect_health_le, ?_⟩
  · intro isBase p rows cols g hqs rest r c hq hmem hb hne
    show getCell (distribute isBase p rows cols (getNeighbors rows cols r c)
      (setCell g r c _) hqs rest).1 hq.row hq.col = getCell g hq.row hq.col
    rw [distribute_grid_hq isBase p rows cols _ _ hqs rest hq.row hq.col hb
      ⟨hq, hmem, rfl, rfl⟩]
    exact getCell_setCell_ne g r c hq.row hq.col _ hne
  · intro nr nc p l1 hq l2 h1 hr hc hp
    unfold damageHQAt
    exact updateFirst_append _ _ l1 hq l2 h1 ⟨hr, hc, hp⟩

/-- Witness for the amended C4 facts at concrete inputs: an explosion
next to a red HQ leaves the HQ's grid cell untouched, a heart keeps a
full HQ at five, and a cascade hit drops a health-one blue HQ to zero
(the same equation at health zero would produce −1). -/
theorem c4_hq_health_effects_witness :
    getCell (explodeCell true Player.red 2 2 [[c1b, c2r], [c0n, c0n]]
        [hqc 0 0 Player.blue 3] [] 0 1).1 0 0 =
      getCell [[c1b, c2r], [c0n, c0n]] 0 0 ∧
    (∀ hq ∈ heartEffect 2 Player.red [hqc 0 0 Player.red 5, hqc 1 1 Player.blue 3],
      hq.health ≤ 5) ∧
    damageHQAt 1 1 Player.red ([hqc 0 0 Player.red 5] ++ hqc 1 1 Player.blue 1 :: []) =
      [hqc 0 0 Player.red 5] ++ { hqc 1 1 Player.blue 1 with health := (1 : Int) - 1 } :: [] :=
  ⟨c4_hq_health_effects.1 true Player.red 2 2 [[c1b, c2r], [c0n, c0n]]
      [hqc 0 0 Player.blue 3] [] 0 1 (hqc 0 0 Player.blue 3) (by decide) rfl (by decide),
   c4_hq_health_effects.2.1 2 Player.red [hqc 0 0 Player.red 5, hqc 1 1 Player.blue 3]
      (by decide),
   c4_hq_health_effects.2.2 1 1 Player.red [hqc 0 0 Player.red 5] (hqc 1 1 Player.blue 1)
      [] (by decide) rfl rfl (by decide)⟩

/-! The compact replay agrees with the full store pipeline. -/

theorem isValidMove_lightOf (s : GameState) (row col : Nat) :
    isValidMoveL (lightOf s) row col = isValidMove s row col := rfl

theorem pushHistory_histLen (s : GameState) :
    (pushHistory s).history.length = s.history.length + 1 := by
  unfold pushHistory
  simp

theorem placeDot_lightOf (fuel : Nat) (st : Settings) (o : SpawnOracle) (s : GameState)
    (row col : Nat) :
    (placeDot fuel st o s row col).map lightOf = placeDotLight fuel st o (lightOf s) row col := by
  show (Option.map _ (placeDotCore fuel st o s.isBaseMode s.rows s.cols s.currentPlayer
      s.grid s.hqs s.powerUps (pushHistory s).history.length row col)).map lightOf =
    Option.map _ (placeDotCore fuel st o s.isBaseMode s.rows s.cols s.currentPlayer
      s.grid s.hqs s.powerUps (s.history.length + 1) row col)
  rw [pushHistory_histLen]
  cases placeDotCore fuel st o s.isBaseMode s.rows s.cols s.currentPlayer
      s.grid s.hqs s.powerUps (s.history.length + 1) row col with
  | none => rfl
  | some t =>
    dsimp only [Option.map, lightOf, pushHistory]
    simp

theorem runScript_lightOf (fuel : Nat) (st : Settings) (o : SpawnOracle)
    (ms : List (Nat × Nat)) (s : GameState) :
    (runScript fuel st o ms s).map lightOf = runScriptLight fuel st o ms (lightOf s) := by
  induction ms generalizing s with
  | nil => rfl
  | cons m rest ih =>
    unfold runScript runScriptLight
    rw [isValidMove_lightOf]
    by_cases hv : isValidMove s m.1 m.2 = true
    · rw [if_pos hv, if_pos hv]
      have hp := placeDot_lightOf fuel st o s m.1 m.2
      cases hd : placeDot fuel st o s m.1 m.2 with
      | none =>
        rw [hd] at hp
        rw [← hp]
        rfl
      | some s1 =>
        rw [hd] at hp
        rw [← hp]
        simpa using ih s1
    · rw [if_neg hv, if_neg hv]
      rfl

theorem runScriptLight_step (fuel : Nat) (st : Settings) (o : SpawnOracle)
    (r c : Nat) (ms : List (Nat × Nat)) (L L' : LightState)
    (hv : isValidMoveL L r c = true) (hp : placeDotLight fuel st o L r c = some L') :
    runScriptLight fuel st o ((r, c) :: ms) L = runScriptLight fuel st o ms L' := by
  conv_lhs => unfold runScriptLight
  simp [hv, hp]

set_option maxRecDepth 100000

/-- Scripted move 0: replayed and checked by evaluation. -/
theorem c4Step0 : isValidMoveL c4State0 4 1 = true ∧
    placeDotLight 100 settings2 noSpawnOracle c4State0 4 1 = some c4State1 :=
  ⟨by decide, by decide⟩

/-- Scripted move 1: replayed and checked by evaluation. -/
theorem c4Step1 : isValidMoveL c4State1 0 8 = true ∧
    placeDotLight 100 settings2 noSpawnOracle c4State1 0 8 = some c4State2 :=
  ⟨by decide, by decide⟩

/-- Scripted move 2: replayed and checked by evaluation. -/
theorem c4Step2 : isValidMoveL c4State2 4 2 = true ∧
    placeDotLight 100 settings2 noSpawnOracle c4State2 4 2 = some c4State3 :=
  ⟨by decide, by decide⟩

/-- Scripted move 3: replayed and checked by evaluation. -/
theorem c4Step3 : isValidMoveL c4State3 0 7 = true ∧
    placeDotLight 100 settings2 noSpawnOracle c4State3 0 7 = some c4State4 :=
  ⟨by decide, by decide⟩

/-- Scripted move 4: replayed and checked by evaluation. -/
theorem c4Step4 : isValidMoveL c4State4 4 3 = true ∧
    placeDotLight 100 settings2 noSpawnOracle c4State4 4 3 = some c4State5 :=
  ⟨by decide, by decide⟩

/-- Scripted move 5: replayed and checked by evaluation. -/
theorem c4Step5 : isValidMoveL c4State5 0 7 = true ∧
    placeDotLight 100 settings2 noSpawnOracle c4State5 0 7 = some c4State6 :=
  ⟨by decide, by decide⟩

/-- Scripted move 6: replayed and checked by evaluation. -/
theorem c4Step6 : isValidMoveL c4State6 4 4 = true ∧
    placeDotLight 100 settings2 noSpawnOracle c4State6 4 4 = some c4State7 :=
  ⟨by decide, by decide⟩

/-- Scripted move 7: replayed and checked by evaluation. -/
theorem c4Step7 : isValidMoveL c4State7 1 7 = true ∧
    placeDotLight 100 settings2 noSpawnOracle c4State7 1 7 = some c4State8 :=
  ⟨by decide, by decide⟩

/-- Scripted move 8: replayed and checked by evaluation. -/
theorem c4Step8 : isValidMoveL c4State8 4 5 = true ∧
    placeDotLight 100 settings2 noSpawnOracle c4State8 4 5 = some c4State9 :=
  ⟨by decide, by decide⟩

/-- Scripted move 9: replayed and checked by evaluation. -/
theorem c4Step9 : isValidMoveL c4State9 1 7 = true ∧
    placeDotLight 100 settings2 noSpawnOracle c4State9 1 7 = some c4State10 :=
  ⟨by decide, by decide⟩

/-- Scripted move 10: replayed and checked by evaluation. -/
theorem c4Step10 : isValidMoveL c4State10 4 6 = true ∧
    placeDotLight 100 settings2 noSpawnOracle c4State10 4 6 = some c4State11 :=
  ⟨by decide, by decide⟩

/-- Scripted move 11: replayed and checked by evaluation. -/
theorem c4Step11 : isValidMoveL c4State11 1 7 = true ∧
    placeDotLight 100 settings2 noSpawnOracle c4State11 1 7 = some c4State12 :=
  ⟨by decide, by decide⟩

/-- Scripted move 12: replayed and checked by evaluation. -/
theorem c4Step12 : isValidMoveL c4State12 4 7 = true ∧
    placeDotLight 100 settings2 noSpawnOracle c4State12 4 7 = some c4State13 :=
  ⟨by decide, by decide⟩

/-- Scripted move 13: replayed and checked by evaluation. -/
theorem c4Step13 : isValidMoveL c4State13 0 6 = true ∧
    placeDotLight 100 settings2 noSpawnOracle c4State13 0 6 = some c4State14 :=
  ⟨by decide, by decide⟩

/-- Scripted move 14: replayed and checked by evaluation. -/
theorem c4Step14 : isValidMoveL c4State14 4 7 = true ∧
    placeDotLight 100 settings2 noSpawnOracle c4State14 4 7 = some c4State15 :=
  ⟨by decide, by decide⟩

/-- Scripted move 15: replayed and checked by evaluation. -/
theorem c4Step15 : isValidMoveL c4State15 0 6 = true ∧
    placeDotLight 100 settings2 noSpawnOracle c4State15 0 6 = some c4State16 :=
  ⟨by decide, by decide⟩

/-- Scripted move 16: replayed and checked by evaluation. -/
theorem c4Step16 : isValidMoveL c4State16 4 7 = true ∧
    placeDotLight 100 settings2 noSpawnOracle c4State16 4 7 = some c4State17 :=
  ⟨by decide, by decide⟩

/-- Scripted move 17: replayed and checked by evaluation. -/
theorem c4Step17 : isValidMoveL c4State17 1 6 = true ∧
    placeDotLight 100 settings2 noSpawnOracle c4State17 1 6 = some c4State18 :=
  ⟨by decide, by decide⟩

/-- Scripted move 18: replayed and checked by evaluation. -/
theorem c4Step18 : isValidMoveL c4State18 3 7 = true ∧
    placeDotLight 100 settings2 noSpawnOracle c4State18 3 7 = some c4State19 :=
  ⟨by decide, by decide⟩

/-- Scripted move 19: replayed and checked by evaluation. -/
theorem c4Step19 : isValidMoveL c4State19 1 6 = true ∧
    placeDotLight 100 settings2 noSpawnOracle c4State19 1 6 = some c4State20 :=
  ⟨by decide, by decide⟩

/-- Scripted move 20: replayed and checked by evaluation. -/
theorem c4Step20 : isValidMoveL c4State20 3 7 = true ∧
    placeDotLight 100 settings2 noSpawnOracle c4State20 3 7 = some c4State21 :=
  ⟨by decide, by decide⟩

/-- Scripted move 21: replayed and checked by evaluation. -/
theorem c4Step21 : isValidMoveL c4State21 1 6 = true ∧
    placeDotLight 100 settings2 noSpawnOracle c4State21 1 6 = some c4State22 :=
  ⟨by decide, by decide⟩

/-- Scripted move 22: replayed and checked by evaluation. -/
theorem c4Step22 : isValidMoveL c4State22 3 7 = true ∧
    placeDotLight 100 settings2 noSpawnOracle c4State22 3 7 = some c4State23 :=
  ⟨by decide, by decide⟩

/-- Scripted move 23: replayed and checked by evaluation. -/
theorem c4Step23 : isValidMoveL c4State23 0 5 = true ∧
    placeDotLight 100 settings2 noSpawnOracle c4State23 0 5 = some c4State24 :=
  ⟨by decide, by decide⟩

/-- Scripted move 24: replayed and checked by evaluation. -/
theorem c4Step24 : isValidMoveL c4State24 5 7 = true ∧
    placeDotLight 100 settings2 noSpawnOracle c4State24 5 7 = some c4State25 :=
  ⟨by decide, by decide⟩

/-- Scripted move 25: replayed and checked by evaluation. -/
theorem c4Step25 : isValidMoveL c4State25 0 5 = true ∧
    placeDotLight 100 settings2 noSpawnOracle c4State25 0 5 = some c4State26 :=
  ⟨by decide, by decide⟩

/-- Scripted move 26: replayed and checked by evaluation. -/
theorem c4Step26 : isValidMoveL c4State26 5 7 = true ∧
    placeDotLight 100 settings2 noSpawnOracle c4State26 5 7 = some c4State27 :=
  ⟨by decide, by decide⟩

/-- Scripted move 27: replayed and checked by evaluation. -/
theorem c4Step27 : isValidMoveL c4State27 1 5 = true ∧
    placeDotLight 100 settings2 noSpawnOracle c4State27 1 5 = some c4State28 :=
  ⟨by decide, by decide⟩

/-- Scripted move 28: replayed and checked by evaluation. -/
theorem c4Step28 : isValidMoveL c4State28 5 7 = true ∧
    placeDotLight 100 settings2 noSpawnOracle c4State28 5 7 = some c4State29 :=
  ⟨by decide, by decide⟩

/-- Scripted move 29: replayed and checked by evaluation. -/
theorem c4Step29 : isValidMoveL c4State29 1 5 = true ∧
    placeDotLight 100 settings2 noSpawnOracle c4State29 1 5 = some c4State30 :=
  ⟨by decide, by decide⟩

/-- Scripted move 30: replayed and checked by evaluation. -/
theorem c4Step30 : isValidMoveL c4State30 3 8 = true ∧
    placeDotLight 100 settings2 noSpawnOracle c4State30 3 8 = some c4State31 :=
  ⟨by decide, by decide⟩

/-- Scripted move 31: replayed and checked by evaluation. -/
theorem c4Step31 : isValidMoveL c4State31 1 5 = true ∧
    placeDotLight 100 settings2 noSpawnOracle c4State31 1 5 = some c4State32 :=
  ⟨by decide, by decide⟩

/-- Scripted move 32: replayed and checked by evaluation. -/
theorem c4Step32 : isValidMoveL c4State32 3 8 = true ∧
    placeDotLight 100 settings2 noSpawnOracle c4State32 3 8 = some c4State33 :=
  ⟨by decide, by decide⟩

/-- Scripted move 33: replayed and checked by evaluation. -/
theorem c4Step33 : isValidMoveL c4State33 0 4 = true ∧
    placeDotLight 100 settings2 noSpawnOracle c4State33 0 4 = some c4State34 :=
  ⟨by decide, by decide⟩

/-- Scripted move 34: replayed and checked by evaluation. -/
theorem c4Step34 : isValidMoveL c4State34 5 8 = true ∧
    placeDotLight 100 settings2 noSpawnOracle c4State34 5 8 = some c4State35 :=
  ⟨by decide, by decide⟩

/-- Scripted move 35: replayed and checked by evaluation. -/
theorem c4Step35 : isValidMoveL c4State35 0 4 = true ∧
    placeDotLight 100 settings2 noSpawnOracle c4State35 0 4 = some c4State36 :=
  ⟨by decide, by decide⟩

/-- Scripted move 36: replayed and checked by evaluation. -/
theorem c4Step36 : isValidMoveL c4State36 5 8 = true ∧
    placeDotLight 100 settings2 noSpawnOracle c4State36 5 8 = some c4State37 :=
  ⟨by decide, by decide⟩

/-- Scripted move 37: replayed and checked by evaluation. -/
theorem c4Step37 : isValidMoveL c4State37 1 4 = true ∧
    placeDotLight 100 settings2 noSpawnOracle c4State37 1 4 = some c4State38 :=
  ⟨by decide, by decide⟩

/-- Scripted move 38: replayed and checked by evaluation. -/
theorem c4Step38 : isValidMoveL c4State38 3 8 = true ∧
    placeDotLight 100 settings2 noSpawnOracle c4State38 3 8 = some c4State39 :=
  ⟨by decide, by decide⟩

/-- Scripted move 39: replayed and checked by evaluation. -/
theorem c4Step39 : isValidMoveL c4State39 1 4 = true ∧
    placeDotLight 100 settings2 noSpawnOracle c4State39 1 4 = some c4State40 :=
  ⟨by decide, by decide⟩

/-- Scripted move 40: replayed and checked by evaluation. -/
theorem c4Step40 : isValidMoveL c4State40 3 8 = true ∧
    placeDotLight 100 settings2 noSpawnOracle c4State40 3 8 = some c4State41 :=
  ⟨by decide, by decide⟩

/-- Scripted move 41: replayed and checked by evaluation. -/
theorem c4Step41 : isValidMoveL c4State41 1 4 = true ∧
    placeDotLight 100 settings2 noSpawnOracle c4State41 1 4 = some c4State42 :=
  ⟨by decide, by decide⟩

/-- Scripted move 42: replayed and checked by evaluation. -/
theorem c4Step42 : isValidMoveL c4State42 3 7 = true ∧
    placeDotLight 100 settings2 noSpawnOracle c4State42 3 7 = some c4State43 :=
  ⟨by decide, by decide⟩

/-- Scripted move 43: replayed and checked by evaluation. -/
theorem c4Step43 : isValidMoveL c4State43 0 3 = true ∧
    placeDotLight 100 settings2 noSpawnOracle c4State43 0 3 = some c4State44 :=
  ⟨by decide, by decide⟩

/-- Scripted move 44: replayed and checked by evaluation. -/
theorem c4Step44 : isValidMoveL c4State44 3 7 = true ∧
    placeDotLight 100 settings2 noSpawnOracle c4State44 3 7 = some c4State45 :=
  ⟨by decide, by decide⟩

/-- Scripted move 45: replayed and checked by evaluation. -/
theorem c4Step45 : isValidMoveL c4State45 0 3 = true ∧
    placeDotLight 100 settings2 noSpawnOracle c4State45 0 3 = some c4State46 :=
  ⟨by decide, by decide⟩

/-- Scripted move 46: replayed and checked by evaluation. -/
theorem c4Step46 : isValidMoveL c4State46 4 7 = true ∧
    placeDotLight 100 settings2 noSpawnOracle c4State46 4 7 = some c4State47 :=
  ⟨by decide, by decide⟩

/-- Scripted move 47: replayed and checked by evaluation. -/
theorem c4Step47 : isValidMoveL c4State47 1 3 = true ∧
    placeDotLight 100 settings2 noSpawnOracle c4State47 1 3 = some c4State48 :=
  ⟨by decide, by decide⟩

/-- Scripted move 48: replayed and checked by evaluation. -/
theorem c4Step48 : isValidMoveL c4State48 4 7 = true ∧
    placeDotLight 100 settings2 noSpawnOracle c4State48 4 7 = some c4State49 :=
  ⟨by decide, by decide⟩

/-- Scripted move 49: replayed and checked by evaluation. -/
theorem c4Step49 : isValidMoveL c4State49 1 3 = true ∧
    placeDotLight 100 settings2 noSpawnOracle c4State49 1 3 = some c4State50 :=
  ⟨by decide, by decide⟩

/-- Scripted move 50: replayed and checked by evaluation. -/
theorem c4Step50 : isValidMoveL c4State50 5 7 = true ∧
    placeDotLight 100 settings2 noSpawnOracle c4State50 5 7 = some c4State51 :=
  ⟨by decide, by decide⟩

/-- Scripted move 51: replayed and checked by evaluation. -/
theorem c4Step51 : isValidMoveL c4State51 1 3 = true ∧
    placeDotLight 100 settings2 noSpawnOracle c4State51 1 3 = some c4State52 :=
  ⟨by decide, by decide⟩

/-- Scripted move 52: replayed and checked by evaluation. -/
theorem c4Step52 : isValidMoveL c4State52 5 7 = true ∧
    placeDotLight 100 settings2 noSpawnOracle c4State52 5 7 = some c4State53 :=
  ⟨by decide, by decide⟩

/-- Scripted move 53: replayed and checked by evaluation. -/
theorem c4Step53 : isValidMoveL c4State53 0 2 = true ∧
    placeDotLight 100 settings2 noSpawnOracle c4State53 0 2 = some c4State54 :=
  ⟨by decide, by decide⟩

/-- Scripted move 54: replayed and checked by evaluation. -/
theorem c4Step54 : isValidMoveL c4State54 5 8 = true ∧
    placeDotLight 100 settings2 noSpawnOracle c4State54 5 8 = some c4State55 :=
  ⟨by decide, by decide⟩

/-- Scripted move 55: replayed and checked by evaluation. -/
theorem c4Step55 : isValidMoveL c4State55 0 2 = true ∧
    placeDotLight 100 settings2 noSpawnOracle c4State55 0 2 = some c4State56 :=
  ⟨by decide, by decide⟩

/-- Scripted move 56: replayed and checked by evaluation. -/
theorem c4Step56 : isValidMoveL c4State56 5 8 = true ∧
    placeDotLight 100 settings2 noSpawnOracle c4State56 5 8 = some c4State57 :=
  ⟨by decide, by decide⟩

/-- Scripted move 57: replayed and checked by evaluation. -/
theorem c4Step57 : isValidMoveL c4State57 1 2 = true ∧
    placeDotLight 100 settings2 noSpawnOracle c4State57 1 2 = some c4State58 :=
  ⟨by decide, by decide⟩

/-- Scripted move 58: replayed and checked by evaluation. -/
theorem c4Step58 : isValidMoveL c4State58 3 8 = true ∧
    placeDotLight 100 settings2 noSpawnOracle c4State58 3 8 = some c4State59 :=
  ⟨by decide, by decide⟩

/-- The scripted game replays end to end on the compact state. -/
theorem c4_runLight :
    runScriptLight 100 settings2 noSpawnOracle c4Moves c4State0 = some c4State59 := by
  unfold c4Moves
  rw [runScriptLight_step 100 settings2 noSpawnOracle 4 1 _ _ _ c4Step0.1 c4Step0.2]
  rw [runScriptLight_step 100 settings2 noSpawnOracle 0 8 _ _ _ c4Step1.1 c4Step1.2]
  rw [runScriptLight_step 100 settings2 noSpawnOracle 4 2 _ _ _ c4Step2.1 c4Step2.2]
  rw [runScriptLight_step 100 settings2 noSpawnOracle 0 7 _ _ _ c4Step3.1 c4Step3.2]
  rw [runScriptLight_step 100 settings2 noSpawnOracle 4 3 _ _ _ c4Step4.1 c4Step4.2]
  rw [runScriptLight_step 100 settings2 noSpawnOracle 0 7 _ _ _ c4Step5.1 c4Step5.2]
  rw [runScriptLight_step 100 settings2 noSpawnOracle 4 4 _ _ _ c4Step6.1 c4Step6.2]
  rw [runScriptLight_step 100 settings2 noSpawnOracle 1 7 _ _ _ c4Step7.1 c4Step7.2]
  rw [runScriptLight_step 100 settings2 noSpawnOracle 4 5 _ _ _ c4Step8.1 c4Step8.2]
  rw [runScriptLight_step 100 settings2 noSpawnOracle 1 7 _ _ _ c4Step9.1 c4Step9.2]
  rw [runScriptLight_step 100 settings2 noSpawnOracle 4 6 _ _ _ c4Step10.1 c4Step10.2]
  rw [runScriptLight_step 100 settings2 noSpawnOracle 1 7 _ _ _ c4Step11.1 c4Step11.2]
  rw [runScriptLight_step 100 settings2 noSpawnOracle 4 7 _ _ _ c4Step12.1 c4Step12.2]
  rw [runScriptLight_step 100 settings2 noSpawnOracle 0 6 _ _ _ c4Step13.1 c4Step13.2]
  rw [runScriptLight_step 100 settings2 noSpawnOracle 4 7 _ _ _ c4Step14.1 c4Step14.2]
  rw [runScriptLight_step 100 settings2 noSpawnOracle 0 6 _ _ _ c4Step15.1 c4Step15.2]
  rw [runScriptLight_step 100 settings2 noSpawnOracle 4 7 _ _ _ c4Step16.1 c4Step16.2]
  rw [runScriptLight_step 100 settings2 noSpawnOracle 1 6 _ _ _ c4Step17.1 c4Step17.2]
  rw [runScriptLight_step 100 settings2 noSpawnOracle 3 7 _ _ _ c4Step18.1 c4Step18.2]
  rw [runScriptLight_step 100 settings2 noSpawnOracle 1 6 _ _ _ c4Step19.1 c4Step19.2]
  rw [runScriptLight_step 100 settings2 noSpawnOracle 3 7 _ _ _ c4Step20.1 c4Step20.2]
  rw [runScriptLight_step 100 settings2 noSpawnOracle 1 6 _ _ _ c4Step21.1 c4Step21.2]
  rw [runScriptLight_step 100 settings2 noSpawnOracle 3 7 _ _ _ c4Step22.1 c4Step22.2]
  rw [runScriptLight_step 100 settings2 noSpawnOracle 0 5 _ _ _ c4Step23.1 c4Step23.2]
  rw [runScriptLight_step 100 settings2 noSpawnOracle 5 7 _ _ _ c4Step24.1 c4Step24.2]
  rw [runScriptLight_step 100 settings2 noSpawnOracle 0 5 _ _ _ c4Step25.1 c4Step25.2]
  rw [runScriptLight_step 100 settings2 noSpawnOracle 5 7 _ _ _ c4Step26.1 c4Step26.2]
  rw [runScriptLight_step 100 settings2 noSpawnOracle 1 5 _ _ _ c4Step27.1 c4Step27.2]
  rw [runScriptLight_step 100 settings2 noSpawnOracle 5 7 _ _ _ c4Step28.1 c4Step28.2]
  rw [runScriptLight_step 100 settings2 noSpawnOracle 1 5 _ _ _ c4Step29.1 c4Step29.2]
  rw [runScriptLight_step 100 settings2 noSpawnOracle 3 8 _ _ _ c4Step30.1 c4Step30.2]
  rw [runScriptLight_step 100 settings2 noSpawnOracle 1 5 _ _ _ c4Step31.1 c4Step31.2]
  rw [runScriptLight_step 100 settings2 noSpawnOracle 3 8 _ _ _ c4Step32.1 c4Step32.2]
  rw [runScriptLight_step 100 settings2 noSpawnOracle 0 4 _ _ _ c4Step33.1 c4Step33.2]
  rw [runScriptLight_step 100 settings2 noSpawnOracle 5 8 _ _ _ c4Step34.1 c4Step34.2]
  rw [runScriptLight_step 100 settings2 noSpawnOracle 0 4 _ _ _ c4Step35.1 c4Step35.2]
  rw [runScriptLight_step 100 settings2 noSpawnOracle 5 8 _ _ _ c4Step36.1 c4Step36.2]
  rw [runScriptLight_step 100 settings2 noSpawnOracle 1 4 _ _ _ c4Step37.1 c4Step37.2]
  rw [runScriptLight_step 100 settings2 noSpawnOracle 3 8 _ _ _ c4Step38.1 c4Step38.2]
  rw [runScriptLight_step 100 settings2 noSpawnOracle 1 4 _ _ _ c4Step39.1 c4Step39.2]
  rw [runScriptLight_step 100 settings2 noSpawnOracle 3 8 _ _ _ c4Step40.1 c4Step40.2]
  rw [runScriptLight_step 100 settings2 noSpawnOracle 1 4 _ _ _ c4Step41.1 c4Step41.2]
  rw [runScriptLight_step 100 settings2 noSpawnOracle 3 7 _ _ _ c4Step42.1 c4Step42.2]
  rw [runScriptLight_step 100 settings2 noSpawnOracle 0 3 _ _ _ c4Step43.1 c4Step43.2]
  rw [runScriptLight_step 100 settings2 noSpawnOracle 3 7 _ _ _ c4Step44.1 c4Step44.2]
  rw [runScriptLight_step 100 settings2 noSpawnOracle 0 3 _ _ _ c4Step45.1 c4Step45.2]
  rw [runScriptLight_step 100 settings2 noSpawnOracle 4 7 _ _ _ c4Step46.1 c4Step46.2]
  rw [runScriptLight_step 100 settings2 noSpawnOracle 1 3 _ _ _ c4Step47.1 c4Step47.2]
  rw [runScriptLight_step 100 settings2 noSpawnOracle 4 7 _ _ _ c4Step48.1 c4Step48.2]
  rw [runScriptLight_step 100 settings2 noSpawnOracle 1 3 _ _ _ c4Step49.1 c4Step49.2]
  rw [runScriptLight_step 100 settings2 noSpawnOracle 5 7 _ _ _ c4Step50.1 c4Step50.2]
  rw [runScriptLight_step 100 settings2 noSpawnOracle 1 3 _ _ _ c4Step51.1 c4Step51.2]
  rw [runScriptLight_step 100 settings2 noSpawnOracle 5 7 _ _ _ c4Step52.1 c4Step52.2]
  rw [runScriptLight_step 100 settings2 noSpawnOracle 0 2 _ _ _ c4Step53.1 c4Step53.2]
  rw [runScriptLight_step 100 settings2 noSpawnOracle 5 8 _ _ _ c4Step54.1 c4Step54.2]
  rw [runScriptLight_step 100 settings2 noSpawnOracle 0 2 _ _ _ c4Step55.1 c4Step55.2]
  rw [runScriptLight_step 100 settings2 noSpawnOracle 5 8 _ _ _ c4Step56.1 c4Step56.2]
  rw [runScriptLight_step 100 settings2 noSpawnOracle 1 2 _ _ _ c4Step57.1 c4Step57.2]
  rw [runScriptLight_step 100 settings2 noSpawnOracle 3 8 _ _ _ c4Step58.1 c4Step58.2]
  rfl

/-- C4 counterexample: a legal two-player game from the freshly
initialised base mode ends with the blue HQ at health −1: the final
cascade hits the HQ three times (2 → 1 → 0 → −1) before the win check
runs, so health is not floored at zero and leaves the range [0, 5]. -/
theorem c4_counterexample :
    (runScript 100 settings2 noSpawnOracle c4Moves (initBaseMode settings2)).map
      (fun s => (s.hqs.map HQCell.health, s.gameOver)) = some ([5, -1], true) := by
  have h := runScript_lightOf 100 settings2 noSpawnOracle c4Moves (initBaseMode settings2)
  have h0 : lightOf (initBaseMode settings2) = c4State0 := by decide
  rw [h0, c4_runLight] at h
  rcases hr : runScript 100 settings2 noSpawnOracle c4Moves (initBaseMode settings2) with _ | S
  · rw [hr] at h
    simp at h
  · rw [hr] at h
    simp only [Option.map_some'] at h
    have hS : lightOf S = c4State59 := Option.some.inj h
    have hh : S.hqs = c4State59.hqs := congrArg LightState.hqs hS
    have hg : S.gameOver = c4State59.gameOver := congrArg LightState.gameOver hS
    simp only [Option.map_some']
    rw [hh, hg]
    decide

/-! Shape lemmas for `placeDot`. -/

theorem placeDot_shape (fuel : Nat) (st : Settings) (o : SpawnOracle) (s : GameState)
    (row col : Nat) (s' : GameState) (h : placeDot fuel st o s row col = some s') :
    ∃ t, placeDotCore fuel st o s.isBaseMode s.rows s.cols s.currentPlayer s.grid s.hqs
        s.powerUps (s.history.length + 1) row col = some t ∧
      s' = { pushHistory s with
        grid := t.1
        hqs := t.2.1
        currentPlayer := t.2.2.1
        gameOver := t.2.2.2.1
        winner := t.2.2.2.2.1
        powerUps := t.2.2.2.2.2 } := by
  have h' : (placeDotCore fuel st o s.isBaseMode s.rows s.cols s.currentPlayer s.grid s.hqs
      s.powerUps (pushHistory s).history.length row col).map (fun t =>
        { pushHistory s with
          grid := t.1
          hqs := t.2.1
          currentPlayer := t.2.2.1
          gameOver := t.2.2.2.1
          winner := t.2.2.2.2.1
          powerUps := t.2.2.2.2.2 }) = some s' := h
  rw [pushHistory_histLen] at h'
  rcases hc : placeDotCore fuel st o s.isBaseMode s.rows s.cols s.currentPlayer s.grid s.hqs
      s.powerUps (s.history.length + 1) row col with _ | t
  · rw [hc] at h'
    exact absurd h' (by simp)
  · rw [hc] at h'
    simp only [Option.map_some'] at h'
    exact ⟨t, rfl, (Option.some.inj h').symm⟩

theorem placeDotCore_finish (fuel : Nat) (st : Settings) (o : SpawnOracle) (isBase : Bool)
    (rows cols : Nat) (cur : Player) (g : Grid) (hqs : List HQCell)
    (pus : List PowerUpCell) (histLen row col : Nat)
    (t : Grid × List HQCell × (Player × Bool × Option Player × List PowerUpCell))
    (h : placeDotCore fuel st o isBase rows cols cur g hqs pus histLen row col = some t) :
    ∃ ws pus0, t.2.2 = finishCore ws st o isBase rows cols cur histLen t.1 t.2.1 pus0 := by
  unfold placeDotCore at h
  dsimp only at h
  split at h
  · split at h
    · exact absurd h (by simp)
    · have ht := Option.some.inj h
      exact ⟨false, _, by rw [← ht]⟩
  · have ht := Option.some.inj h
    exact ⟨true, _, by rw [← ht]⟩

theorem placeDot_base_check (fuel : Nat) (st : Settings) (o : SpawnOracle) (s : GameState)
    (row col : Nat) (s' : GameState) (hb : s.isBaseMode = true)
    (h : placeDot fuel st o s row col = some s') :
    s'.gameOver = (checkGameOverBase st s'.hqs).1 ∧
    s'.winner = (checkGameOverBase st s'.hqs).2 := by
  obtain ⟨t, hcore, hs'⟩ := placeDot_shape fuel st o s row col s' h
  obtain ⟨ws, pus0, hfin⟩ := placeDotCore_finish fuel st o s.isBaseMode s.rows s.cols
    s.currentPlayer s.grid s.hqs s.powerUps (s.history.length + 1) row col t hcore
  subst hs'
  show t.2.2.2.1 = _ ∧ t.2.2.2.2.1 = _
  rw [hfin]
  unfold finishCore
  rw [hb]
  exact ⟨rfl, rfl⟩

theorem checkGameOverBase_single (st : Settings) (hqs : List HQCell) (hq : HQCell)
    (h : hqs.filter (fun x => decide (0 < x.health)) = [hq]) :
    checkGameOverBase st hqs = (true, some hq.player) := by
  unfold checkGameOverBase
  rw [h]
  simp

theorem checkGameOverBase_none (st : Settings) (hqs : List HQCell)
    (h : hqs.filter (fun x => decide (0 < x.health)) = []) :
    checkGameOverBase st hqs = (true, none) := by
  unfold checkGameOverBase
  rw [h]
  simp

/-- C5: base-mode win detection after any resolved move: a single
surviving HQ hands the win to its owner, no surviving HQ is a draw, and
with two configured players and two HQs, killing either HQ ends the game
in favour of the other owner within the same move. -/
theorem c5_win_detection (fuel : Nat) (st : Settings) (o : SpawnOracle) (s : GameState)
    (row col : Nat) (s' : GameState) (hbase : s.isBaseMode = true)
    (hres : placeDot fuel st o s row col = some s') :
    (∀ hq : HQCell, s'.hqs.filter (fun x => decide (0 < x.health)) = [hq] →
       s'.gameOver = true ∧ s'.winner = some hq.player) ∧
    (s'.hqs.filter (fun x => decide (0 < x.health)) = [] →
       s'.gameOver = true ∧ s'.winner = none) ∧
    (∀ p₁ p₂ : Player, ∀ h₁ h₂ : HQCell, st.players = [p₁, p₂] → s'.hqs = [h₁, h₂] →
       h₁.health ≤ 0 → 0 < h₂.health → s'.gameOver = true ∧ s'.winner = some h₂.player) ∧
    (∀ p₁ p₂ : Player, ∀ h₁ h₂ : HQCell, st.players = [p₁, p₂] → s'.hqs = [h₁, h₂] →
       0 < h₁.health → h₂.health ≤ 0 → s'.gameOver = true ∧ s'.winner = some h₁.player) := by
  obtain ⟨hgo, hwin⟩ := placeDot_base_check fuel st o s row col s' hbase hres
  have single : ∀ hq : HQCell, s'.hqs.filter (fun x => decide (0 < x.health)) = [hq] →
      s'.gameOver = true ∧ s'.winner = some hq.player := by
    intro hq hf
    rw [hgo, hwin, checkGameOverBase_single st s'.hqs hq hf]
    exact ⟨rfl, rfl⟩
  refine ⟨single, ?_, ?_, ?_⟩
  · intro hf
    rw [hgo, hwin, checkGameOverBase_none st s'.hqs hf]
    exact ⟨rfl, rfl⟩
  · intro p₁ p₂ h₁ h₂ hpl hhqs hd ha
    refine single h₂ ?_
    rw [hhqs]
    have e1 : (decide (0 < h₁.health)) = false := decide_eq_false (by omega)
    have e2 : (decide (0 < h₂.health)) = true := decide_eq_true ha
    simp [List.filter, e1, e2]
  · intro p₁ p₂ h₁ h₂ hpl hhqs ha hd
    refine single h₁ ?_
    rw [hhqs]
    have e1 : (decide (0 < h₁.health)) = true := decide_eq_true ha
    have e2 : (decide (0 < h₂.health)) = false := decide_eq_false (by omega)
    simp [List.filter, e1, e2]

/-- Witness for C5: on `sC5`, whose blue HQ is already dead, red's legal
move at (0,1) resolves with red as winner. -/
theorem c5_win_detection_witness : sC5x.gameOver = true ∧ sC5x.winner = some Player.red :=
  (c5_win_detection 10 settings2 noSpawnOracle sC5 0 1 sC5x rfl (by decide)).1
    (hqc 0 0 Player.red 5) (by decide)

/-! Classic-mode ingredients for the undo round trip. -/

theorem distribute_false_hqs (p : Player) (rows cols : Nat) (ns : List (Nat × Nat))
    (g : Grid) (hqs : List HQCell) (q : List (Nat × Nat)) :
    (distribute false p rows cols ns g hqs q).2.1 = hqs := by
  induction ns generalizing g q with
  | nil => rfl
  | cons n rest ih =>
    rw [distribute_cons_grid false p rows cols n rest g hqs q (by simp)]
    exact ih _ _

theorem runCascade_classic_hqs (p : Player) (rows cols : Nat) :
    ∀ (fuel : Nat) (g : Grid) (hqs : List HQCell) (q : List (Nat × Nat))
      (gh : Grid × List HQCell),
      runCascade false p rows cols fuel (g, hqs, q) = some gh → gh.2 = hqs := by
  intro fuel
  induction fuel with
  | zero =>
    intro g hqs q gh h
    cases q with
    | nil =>
      have := Option.some.inj h
      rw [← this]
    | cons n rest => exact absurd h (by simp [runCascade])
  | succ m ih =>
    intro g hqs q gh h
    cases q with
    | nil =>
      have := Option.some.inj h
      rw [← this]
    | cons n rest =>
      unfold runCascade at h
      split at h
      · have h2 := ih _ _ _ gh h
        rw [h2]
        show (distribute false p rows cols (getNeighbors rows cols n.1 n.2)
          (setCell g n.1 n.2 _) hqs rest).2.1 = hqs
        exact distribute_false_hqs p rows cols _ _ hqs rest
      · exact ih _ _ _ gh h

theorem placeDotCore_classic_inv (fuel : Nat) (st : Settings) (o : SpawnOracle)
    (rows cols : Nat) (cur : Player) (g : Grid) (hqs : List HQCell)
    (histLen row col : Nat)
    (t : Grid × List HQCell × (Player × Bool × Option Player × List PowerUpCell))
    (h : placeDotCore fuel st o false rows cols cur g hqs [] histLen row col = some t) :
    t.2.1 = hqs ∧ t.2.2.2.2.2 = ([] : List PowerUpCell) := by
  unfold placeDotCore at h
  dsimp only at h
  split at h
  · split at h
    · exact absurd h (by simp)
    · rename_i gh hrun
      have ht := Option.some.inj h
      rw [← ht]
      refine ⟨?_, rfl⟩
      show gh.2 = hqs
      exact runCascade_classic_hqs cur rows cols fuel _ _ _ gh hrun
  · have ht := Option.some.inj h
    rw [← ht]
    exact ⟨rfl, rfl⟩

theorem undo_fields (u : GameState) (l : List GameHistory) (e : GameHistory)
    (h : u.history = l ++ [e]) :
    (undo u).grid = e.grid ∧ (undo u).currentPlayer = e.currentPlayer ∧
    (undo u).gameOver = e.gameOver ∧ (undo u).winner = e.winner ∧
    (undo u).hqs = (match e.baseMode with
      | some b => b.hqs
      | none => u.hqs) ∧
    (undo u).powerUps = (match e.baseMode with
      | some b => b.powerUps
      | none => u.powerUps) := by
  unfold undo
  rw [h, List.getLast?_concat]
  exact ⟨rfl, rfl, rfl, rfl, rfl, rfl⟩

/-- C9: `undo` after any resolved legal move restores the pre-move grid,
player, game-over flag, winner, HQ list and power-up list (for ordinary
game states, whose classic mode carries no power-ups), and `undo` on an
empty history is a no-op, not an error. -/
theorem c9_undo_roundtrip (fuel : Nat) (st : Settings) (o : SpawnOracle) (s : GameState)
    (row col : Nat) (s' : GameState)
    (hclassic : s.isBaseMode = false → s.powerUps = [])
    (hlegal : isValidMove s row col = true)
    (hres : placeDot fuel st o s row col = some s') :
    ((undo s').grid = s.grid ∧ (undo s').currentPlayer = s.currentPlayer ∧
     (undo s').gameOver = s.gameOver ∧ (undo s').winner = s.winner ∧
     (undo s').hqs = s.hqs ∧ (undo s').powerUps = s.powerUps) ∧
    (∀ u : GameState, u.history = [] → undo u = u) := by
  constructor
  · obtain ⟨t, hcore, hs'⟩ := placeDot_shape fuel st o s row col s' hres
    have hhqs' : s'.hqs = t.2.1 := by rw [hs']
    have hpus' : s'.powerUps = t.2.2.2.2.2 := by rw [hs']
    have hhist : s'.history = s.history ++ [⟨s.grid, s.currentPlayer, s.gameOver, s.winner,
        if s.isBaseMode then some ⟨s.hqs, s.powerUps⟩ else none⟩] := by
      rw [hs']
      rfl
    obtain ⟨h1, h2, h3, h4, h5, h6⟩ := undo_fields s' _ _ hhist
    refine ⟨h1, h2, h3, h4, ?_, ?_⟩
    · rw [h5]
      cases hb : s.isBaseMode with
      | true => rfl
      | false =>
        have hpu : s.powerUps = [] := hclassic hb
        rw [hb, hpu] at hcore
        have hinv := placeDotCore_classic_inv fuel st o s.rows s.cols s.currentPlayer
          s.grid s.hqs (s.history.length + 1) row col t hcore
        show s'.hqs = s.hqs
        rw [hhqs']
        exact hinv.1
    · rw [h6]
      cases hb : s.isBaseMode with
      | true => rfl
      | false =>
        have hpu : s.powerUps = [] := hclassic hb
        rw [hb, hpu] at hcore
        have hinv := placeDotCore_classic_inv fuel st o s.rows s.cols s.currentPlayer
          s.grid s.hqs (s.history.length + 1) row col t hcore
        show s'.powerUps = s.powerUps
        rw [hpus', hpu]
        exact hinv.2
  · intro u hu
    unfold undo
    rw [hu]
    rfl

/-- Witness for C9 on a concrete classic move: red plays the empty
corner of `sC9` and `undo` restores every field of the original state. -/
theorem c9_undo_roundtrip_witness :
    (undo sC9x).grid = sC9.grid ∧ (undo sC9x).currentPlayer = sC9.currentPlayer ∧
    (undo sC9x).gameOver = sC9.gameOver ∧ (undo sC9x).winner = sC9.winner ∧
    (undo sC9x).hqs = sC9.hqs ∧ (undo sC9x).powerUps = sC9.powerUps :=
  (c9_undo_roundtrip 10 settings2 noSpawnOracle sC9 0 0 sC9x (fun _ => rfl)
    (by decide) (by decide)).1

set_option maxHeartbeats 1000000 in
theorem mem_diagNeighbors (glen g0len row col r' c' : Nat) :
    ((r', c') ∈ diagNeighbors glen g0len row col) ↔
      ((0 < row ∧ row - 1 < glen ∧ 0 < col ∧ col - 1 < g0len ∧ r' = row - 1 ∧ c' = col - 1) ∨
       (0 < row ∧ row - 1 < glen ∧ col + 1 < g0len ∧ r' = row - 1 ∧ c' = col + 1) ∨
       (row + 1 < glen ∧ 0 < col ∧ col - 1 < g0len ∧ r' = row + 1 ∧ c' = col - 1) ∨
       (row + 1 < glen ∧ col + 1 < g0len ∧ r' = row + 1 ∧ c' = col + 1)) := by
  unfold diagNeighbors
  simp only [List.mem_append, mem_ite_singleton, Prod.mk.injEq]
  omega

theorem diagNeighbors_bounds (glen g0len row col : Nat) :
    ∀ n ∈ diagNeighbors glen g0len row col, n.1 < glen ∧ n.2 < g0len := by
  intro n hn
  obtain ⟨r', c'⟩ := n
  rw [mem_diagNeighbors] at hn
  omega

theorem chebAdjacent_of_mem_getNeighbors (rows cols row col r' c' : Nat)
    (h : (r', c') ∈ getNeighbors rows cols row col) : chebAdjacent row col r' c' := by
  rw [mem_getNeighbors] at h
  unfold chebAdjacent natDist
  omega

theorem chebAdjacent_of_mem_diagNeighbors (glen g0len row col r' c' : Nat)
    (h : (r', c') ∈ diagNeighbors glen g0len row col) : chebAdjacent row col r' c' := by
  rw [mem_diagNeighbors] at h
  unfold chebAdjacent natDist
  omega

set_option maxHeartbeats 1000000 in
theorem cheb_mem_neighbors (rows cols row col r' c' : Nat)
    (hrow : row < rows) (hcol : col < cols) (hr' : r' < rows) (hc' : c' < cols) :
    chebAdjacent row col r' c' ↔
      ((r', c') ∈ getNeighbors rows cols row col ∨
       (r', c') ∈ diagNeighbors rows cols row col) := by
  constructor
  · intro hch
    obtain ⟨hne, h1, h2⟩ := hch
    unfold natDist at h1 h2
    rw [mem_getNeighbors, mem_diagNeighbors]
    rcases Nat.lt_trichotomy r' row with hr | hr | hr
    · rcases Nat.lt_trichotomy c' col with hc | hc | hc
      · refine Or.inr (Or.inl ⟨?_, ?_, ?_, ?_, ?_, ?_⟩) <;> omega
      · refine Or.inl (Or.inl ⟨?_, ?_, ?_⟩) <;> omega
      · refine Or.inr (Or.inr (Or.inl ⟨?_, ?_, ?_, ?_, ?_⟩)) <;> omega
    · rcases Nat.lt_trichotomy c' col with hc | hc | hc
      · refine Or.inl (Or.inr (Or.inr (Or.inr ⟨?_, ?_, ?_⟩))) <;> omega
      · exact absurd ⟨hr.symm, hc.symm⟩ hne
      · refine Or.inl (Or.inr (Or.inl ⟨?_, ?_, ?_⟩)) <;> omega
    · rcases Nat.lt_trichotomy c' col with hc | hc | hc
      · refine Or.inr (Or.inr (Or.inr (Or.inl ⟨?_, ?_, ?_, ?_, ?_⟩))) <;> omega
      · refine Or.inl (Or.inr (Or.inr (Or.inl ⟨?_, ?_, ?_⟩))) <;> omega
      · refine Or.inr (Or.inr (Or.inr (Or.inr ⟨?_, ?_, ?_, ?_⟩))) <;> omega
  · rintro (h | h)
    · exact chebAdjacent_of_mem_getNeighbors rows cols row col r' c' h
    · exact chebAdjacent_of_mem_diagNeighbors rows cols row col r' c' h

theorem isInHQLine_iff (rows cols : Nat) (hq : HQCell) (row col : Nat)
    (hedge : (hq.col = 0 ∨ hq.col = cols - 1) ∨ (hq.row = 0 ∨ hq.row = rows - 1)) :
    ((if hq.col = 0 then decide (col = hq.col)
      else if hq.col = cols - 1 then decide (col = hq.col)
      else if hq.row = 0 then decide (row = hq.row)
      else if hq.row = rows - 1 then decide (row = hq.row)
      else decide (row = hq.row ∨ col = hq.col)) = true) ↔
    specHQLine rows cols hq row col := by
  unfold specHQLine
  by_cases h1 : hq.col = 0 <;> by_cases h2 : hq.col = cols - 1 <;>
    by_cases h3 : hq.row = 0 <;> by_cases h4 : hq.row = rows - 1 <;>
    simp_all

theorem adjHQ_iff (row col hr hc : Nat) (hne : ¬(row = hr ∧ col = hc)) :
    (decide (natDist hr row ≤ 1 ∧ natDist hc col ≤ 1) = true) ↔ chebAdjacent row col hr hc := by
  rw [decide_eq_true_eq]
  unfold chebAdjacent natDist
  omega

/-- C6: in base mode, on a well-formed board that is not over, with the
current player's HQ found on an edge of the board, `isValidMove` accepts
an in-bounds cell exactly when the spec's base-mode legality rule does:
the cell is no HQ cell, it is unowned or owned by the mover, and it lies
on the HQ line, or is Chebyshev-adjacent to the HQ, or is
Chebyshev-adjacent to a cell the mover owns (the mover having made a
first move, i.e. owning a cell with at least one unit). -/
theorem c6_base_legality (s : GameState) (hq : HQCell) (row col : Nat)
    (hwf : GridWf s.grid s.rows s.cols)
    (hbase : s.isBaseMode = true)
    (hgo : s.gameOver = false)
    (hrow : row < s.rows) (hcol : col < s.cols)
    (hfind : s.hqs.find? (fun h => decide (h.player = s.currentPlayer)) = some hq)
    (hedge : (hq.col = 0 ∨ hq.col = s.cols - 1) ∨ (hq.row = 0 ∨ hq.row = s.rows - 1))
    (hfirst : ∃ r' < s.rows, ∃ c' < s.cols,
      (getCell s.grid r' c').player = some s.currentPlayer ∧ 0 < (getCell s.grid r' c').atoms) :
    (isValidMove s row col = true ↔ isLegalMoveSpecBase s hq row col) := by
  obtain ⟨hlen, hcols⟩ := hwf
  have h0 : (s.grid.getD 0 []).length = s.cols := hcols 0 (by omega)
  have hmem : hq ∈ s.hqs := List.mem_of_find?_eq_some hfind
  unfold isValidMove
  have c1 : ¬(s.gameOver = true) := by simp [hgo]
  rw [if_neg c1]
  have c2 : ¬(s.grid.length ≤ row ∨ (s.grid.getD 0 []).length ≤ col) := by
    rw [hlen, h0]
    push_neg
    exact ⟨hrow, hcol⟩
  rw [if_neg c2]
  dsimp only
  have c3 : ¬(s.isBaseMode = false) := by simp [hbase]
  rw [if_neg c3]
  by_cases hhq : isHQat s.hqs row col
  · rw [if_pos hhq]
    unfold isLegalMoveSpecBase
    simp [hhq]
  · rw [if_neg hhq]
    have hne : ¬(row = hq.row ∧ col = hq.col) :=
      fun hx => hhq ⟨hq, hmem, hx.1.symm, hx.2.symm⟩
    by_cases hown : (getCell s.grid row col).player = none ∨
        (getCell s.grid row col).player = some s.currentPlayer
    · rw [if_pos hown, hfind]
      dsimp only
      simp only [hlen, h0]
      simp only [Bool.or_eq_true]
      have hspec : isLegalMoveSpecBase s hq row col ↔
          (specHQLine s.rows s.cols hq row col ∨ chebAdjacent row col hq.row hq.col ∨
           ∃ r' < s.rows, ∃ c' < s.cols,
             (getCell s.grid r' c').player = some s.currentPlayer ∧
             chebAdjacent row col r' c') := by
        unfold isLegalMoveSpecBase
        constructor
        · rintro ⟨-, -, h3⟩
          exact h3
        · intro h3
          exact ⟨hhq, hown, h3⟩
      rw [hspec]
      constructor
      · rintro (((hA | hB) | hC) | hD)
        · exact Or.inl ((isInHQLine_iff s.rows s.cols hq row col hedge).mp hA)
        · exact Or.inr (Or.inl ((adjHQ_iff row col hq.row hq.col hne).mp hB))
        · obtain ⟨n, hn, hp⟩ := List.any_eq_true.mp hC
          obtain ⟨a, b⟩ := n
          have hb := getNeighbors_bounds s.rows s.cols row col hrow hcol (a, b) hn
          dsimp only at hp
          rw [if_neg (by omega : ¬(s.rows ≤ a ∨ s.cols ≤ b))] at hp
          exact Or.inr (Or.inr ⟨a, hb.1, b, hb.2, of_decide_eq_true hp,
            chebAdjacent_of_mem_getNeighbors s.rows s.cols row col a b hn⟩)
        · obtain ⟨n, hn, hp⟩ := List.any_eq_true.mp hD
          obtain ⟨a, b⟩ := n
          have hb := diagNeighbors_bounds s.rows s.cols row col (a, b) hn
          dsimp only at hp
          exact Or.inr (Or.inr ⟨a, hb.1, b, hb.2, of_decide_eq_true hp,
            chebAdjacent_of_mem_diagNeighbors s.rows s.cols row col a b hn⟩)
      · rintro (hA | hB | ⟨a, ha, b, hbnd, hop, hch⟩)
        · exact Or.inl (Or.inl (Or.inl ((isInHQLine_iff s.rows s.cols hq row col hedge).mpr hA)))
        · exact Or.inl (Or.inl (Or.inr ((adjHQ_iff row col hq.row hq.col hne).mpr hB)))
        · rcases (cheb_mem_neighbors s.rows s.cols row col a b hrow hcol ha hbnd).mp hch
            with hm | hm
          · refine Or.inl (Or.inr (List.any_eq_true.mpr ⟨(a, b), hm, ?_⟩))
            dsimp only
            rw [if_neg (by omega : ¬(s.rows ≤ a ∨ s.cols ≤ b))]
            exact decide_eq_true hop
          · refine Or.inr (List.any_eq_true.mpr ⟨(a, b), hm, ?_⟩)
            dsimp only
            exact decide_eq_true hop
    · rw [if_neg hown]
      unfold isLegalMoveSpecBase
      constructor
      · intro h
        exact absurd h (by decide)
      · rintro ⟨-, h2, -⟩
        exact absurd h2 hown

/-- Witness for C6: on the freshly initialised two-player base board,
red's legality of the top-left corner is the same under `isValidMove`
and under the spec's rule (both hold: the corner is on red's HQ line). -/
theorem c6_base_legality_witness :
    (isValidMove (initBaseMode settings2) 0 0 = true ↔
      isLegalMoveSpecBase (initBaseMode settings2) ⟨4, 0, Player.red, 5⟩ 0 0) :=
  c6_base_legality (initBaseMode settings2) ⟨4, 0, Player.red, 5⟩ 0 0
    (by decide) (by decide) (by decide) (by decide) (by decide) (by decide) (by decide)
    ⟨4, by decide, 0, by decide, by decide, by decide⟩

theorem diamondCells_not_mem (cur : Player) (ps : List (Nat × Nat)) (g : Grid) (r c : Nat)
    (h : (r, c) ∉ ps) : getCell (diamondCells cur ps g) r c = getCell g r c := by
  induction ps generalizing g with
  | nil => rfl
  | cons pos rest ih =>
    rw [List.mem_cons] at h
    push_neg at h
    have hne : ¬(r = pos.1 ∧ c = pos.2) :=
      fun hx => h.1 (Prod.ext_iff.mpr ⟨hx.1, hx.2⟩)
    conv_lhs => unfold diamondCells
    dsimp only
    rw [ih _ h.2]
    split
    · exact getCell_setCell_ne g pos.1 pos.2 r c _ hne
    · rfl

theorem diamondCells_mem (cur : Player) (ps : List (Nat × Nat)) (g : Grid)
    (rows cols r c : Nat) (hwf : GridWf g rows cols) (hr : r < rows) (hc : c < cols)
    (hmem : (r, c) ∈ ps) (hnd : ps.Nodup) :
    getCell (diamondCells cur ps g) r c =
      (if (getCell g r c).player = none ∨ (getCell g r c).player = some cur then
        { atoms := (getCell g r c).atoms + 1, player := some cur }
      else getCell g r c) := by
  induction ps generalizing g with
  | nil => cases hmem
  | cons pos rest ih =>
    obtain ⟨a, b⟩ := pos
    rw [List.nodup_cons] at hnd
    rcases List.mem_cons.mp hmem with heq | hmem'
    · injection heq with hra hcb
      subst hra
      subst hcb
      unfold diamondCells
      dsimp only
      by_cases hcond : (getCell g r c).player = none ∨ (getCell g r c).player = some cur
      · rw [if_pos hcond, diamondCells_not_mem cur rest _ r c hnd.1,
          getCell_setCell_self g rows cols r c _ hwf hr hc, if_pos hcond]
      · rw [if_neg hcond, diamondCells_not_mem cur rest g r c hnd.1, if_neg hcond]
    · have hne : ¬(r = a ∧ c = b) := by
        intro hx
        apply hnd.1
        rw [← hx.1, ← hx.2]
        exact hmem'
      unfold diamondCells
      dsimp only
      by_cases hcond : (getCell g a b).player = none ∨ (getCell g a b).player = some cur
      · rw [if_pos hcond,
          ih _ (GridWf_setCell g rows cols a b _ hwf) hmem' hnd.2,
          getCell_setCell_ne g a b r c _ hne]
      · rw [if_neg hcond, ih g hwf hmem' hnd.2]

theorem mem_rowPositions (cols row r c : Nat) :
    ((r, c) ∈ rowPositions cols row) ↔ (r = row ∧ c < cols) := by
  unfold rowPositions
  simp only [List.mem_map, List.mem_range, Prod.mk.injEq]
  constructor
  · rintro ⟨a, ha, h1, h2⟩
    omega
  · rintro ⟨h1, h2⟩
    exact ⟨c, h2, h1.symm, rfl⟩

theorem rowPositions_nodup (cols row : Nat) : (rowPositions cols row).Nodup := by
  unfold rowPositions
  refine List.Nodup.map ?_ (List.nodup_range cols)
  intro a b h
  exact congrArg Prod.snd h

/-- C8: resolving a placement on a Diamond power-up in a two-player game
adds one unit to, and gives the mover ownership of, each cell of the
placed row that was empty or already the mover's; leaves each enemy cell
of that row untouched; leaves every other row untouched; keeps the HQ
list unchanged; and removes the consumed Diamond from the power-up list. -/
theorem c8_diamond (st : Settings) (cur : Player) (rows cols : Nat) (g : Grid)
    (hqs : List HQCell) (pus : List PowerUpCell) (row col : Nat) (pu : PowerUpCell)
    (g' : Grid) (hqs' : List HQCell) (pus' : List PowerUpCell)
    (hwf : GridWf g rows cols)
    (hnp : effNumPlayers st = 2)
    (hfindpu : findPU row col pus = some pu)
    (hty : pu.type = some PUKind.diamond)
    (hrow : row < rows)
    (hres : applyPlacement st cur rows cols g hqs pus row col = (g', hqs', pus')) :
    (∀ c < cols, ((getCell g row c).player = none ∨ (getCell g row c).player = some cur) →
      getCell g' row c = { atoms := (getCell g row c).atoms + 1, player := some cur }) ∧
    (∀ c < cols, ((getCell g row c).player ≠ none ∧ (getCell g row c).player ≠ some cur) →
      getCell g' row c = getCell g row c) ∧
    (∀ r c, r ≠ row → getCell g' r c = getCell g r c) ∧
    hqs' = hqs ∧
    pus' = removePU row col pus := by
  unfold applyPlacement at hres
  rw [hfindpu] at hres
  dsimp only at hres
  rw [hty] at hres
  dsimp only at hres
  rw [hnp] at hres
  rw [if_neg (by omega : ¬(3 ≤ 2))] at hres
  injection hres with h1 h23
  injection h23 with h2 h3
  subst h1
  subst h2
  subst h3
  refine ⟨?_, ?_, ?_, rfl, rfl⟩
  · intro c hc hcond
    rw [diamondCells_mem cur _ g rows cols row c hwf hrow hc
      ((mem_rowPositions cols row row c).mpr ⟨rfl, hc⟩) (rowPositions_nodup cols row),
      if_pos hcond]
  · intro c hc hcond
    have hneg : ¬((getCell g row c).player = none ∨ (getCell g row c).player = some cur) := by
      push_neg
      exact hcond
    rw [diamondCells_mem cur _ g rows cols row c hwf hrow hc
      ((mem_rowPositions cols row row c).mpr ⟨rfl, hc⟩) (rowPositions_nodup cols row),
      if_neg hneg]
  · intro r c hne
    exact diamondCells_not_mem cur _ g r c
      (fun hmem => hne ((mem_rowPositions cols row r c).mp hmem).1)

/-- Witness for C8 on `sC8`: red resolves the Diamond at (1,1) of a 3×3
base board; row 1 becomes 2-red, 1-red, and blue's cell stays 1-blue. -/
theorem c8_diamond_witness :
    (∀ c < 3, ((getCell sC8.grid 1 c).player = none ∨
        (getCell sC8.grid 1 c).player = some Player.red) →
      getCell [[c0n, c0n, c0n], [c2r, c1r, c1b], [c0n, c0n, c0n]] 1 c =
        { atoms := (getCell sC8.grid 1 c).atoms + 1, player := some Player.red }) ∧
    (∀ c < 3, ((getCell sC8.grid 1 c).player ≠ none ∧
        (getCell sC8.grid 1 c).player ≠ some Player.red) →
      getCell [[c0n, c0n, c0n], [c2r, c1r, c1b], [c0n, c0n, c0n]] 1 c =
        getCell sC8.grid 1 c) ∧
    (∀ r c, r ≠ 1 →
      getCell [[c0n, c0n, c0n], [c2r, c1r, c1b], [c0n, c0n, c0n]] r c =
        getCell sC8.grid r c) ∧
    sC8.hqs = sC8.hqs ∧
    ([] : List PowerUpCell) = removePU 1 1 sC8.powerUps :=
  c8_diamond settings2 Player.red 3 3 sC8.grid sC8.hqs sC8.powerUps 1 1
    ⟨1, 1, some PUKind.diamond⟩ [[c0n, c0n, c0n], [c2r, c1r, c1b], [c0n, c0n, c0n]]
    sC8.hqs [] (by decide) (by decide) (by decide) (by decide) (by decide) (by decide)
